import Mathlib

/-!
# Wind turbine demo: telemetry aggregator and Kamea MQTT client

Shallow embedding of `app/src/kamea.c` (the zbus listeners that average the
wind turbine samples and format the JSON payloads) and of
`subsys/kamea/kamea_mqtt.c` (the publish gate, the MQTT event handler, the
connection-manager handler and the session thread).

Conventions.
* C static variables become fields of a state record that is passed explicitly.
* Calls into Zephyr (`mqtt_publish`, `poll`, `k_sleep`, ...) and invocations of the
  registered callbacks are recorded, in program order, in a list of `Effect`s.
* Values returned by Zephyr are supplied by the caller of the model.
* `uint16_t` / `uint32_t` arithmetic is arithmetic on `Nat` with an explicit
  reduction modulo `2 ^ 16` / `2 ^ 32`.
* The code is modelled with `CONFIG_KAMEA_CHANNEL_MQTT` and
  `CONFIG_KAMEA_USE_CONNECTION_MANAGER` enabled.
-/

namespace Kamea

/-! ## C library helpers -/

/-- The text `snprintf` leaves in a buffer of `size` bytes when the complete
formatted text is `s`: at most `size - 1` characters are kept. A character stands for
one byte, which is exact for ASCII text; a theorem that depends on where an arbitrary
text is cut assumes that the text is ASCII. -/
def snprintf (size : Nat) (s : String) : String :=
  String.mk (s.data.take (size - 1))

/-- Length of a NUL-terminated text: the number of its characters, which is the number
of its bytes when the text is ASCII. -/
def strlen (s : String) : Nat :=
  s.length

/-- Conversion `%d` applied to a `uint32_t` argument (`int` is 32 bits wide): the
bits are read as a signed integer and printed in decimal. -/
def fmt_d (v : Nat) : String :=
  if v % 2 ^ 32 < 2 ^ 31 then Nat.repr (v % 2 ^ 32)
  else "-" ++ Nat.repr (2 ^ 32 - v % 2 ^ 32)

/-! ## `app/include/messages.h` -/

/-- Wind turbine status (`struct wind_turbine_status_msg`); every field is a
`uint16_t`. -/
structure wind_turbine_status_msg where
  wind_speed : Nat
  generator_rpm : Nat
  output_voltage : Nat
  output_power : Nat
  deriving DecidableEq, Repr

/-- The four fields of a message fit their `uint16_t` type. -/
def wind_turbine_status_msg.wf (m : wind_turbine_status_msg) : Prop :=
  m.wind_speed < 2 ^ 16 ∧ m.generator_rpm < 2 ^ 16 ∧
    m.output_voltage < 2 ^ 16 ∧ m.output_power < 2 ^ 16

instance (m : wind_turbine_status_msg) : Decidable m.wf := by
  unfold wind_turbine_status_msg.wf
  infer_instance

/-! ## `app/src/kamea.c` -/

/-- Period to send telemetry data (in multiple of the wind turbine sampling). -/
def KAMEA_REAL_TIME_DATA_PERIOD : Nat := 100

/-- Value of `MQTT_QOS_1_AT_LEAST_ONCE` in Zephyr's `enum mqtt_qos`. -/
def MQTT_QOS_1_AT_LEAST_ONCE : Nat := 1

/-- Which publish function of the Kamea MQTT channel is called. -/
inductive PublishClass where
  | telemetry
  | configs
  deriving DecidableEq, Repr

/-- One call `kamea_mqtt_publish_telemetry(data, len, qos)` or
`kamea_mqtt_publish_configs(data, len, qos)` made by a listener. -/
structure PublishCall where
  cls : PublishClass
  data : String
  len : Nat
  qos : Nat
  deriving DecidableEq, Repr

/-- The static locals of `kamea_wind_turbine_status_cb`: four arrays of
`KAMEA_REAL_TIME_DATA_PERIOD` `uint16_t` cells (index to cell value) and `count`. -/
structure wind_turbine_statics where
  wind_speed : Nat → Nat
  generator_rpm : Nat → Nat
  output_voltage : Nat → Nat
  output_power : Nat → Nat
  count : Nat

/-- Assignment `a[i] = v` to a `uint16_t` cell. -/
def store (a : Nat → Nat) (i v : Nat) : Nat → Nat :=
  fun j => if j = i then v % 2 ^ 16 else a j

/-- The loop `for (index = 0; index < KAMEA_REAL_TIME_DATA_PERIOD; index++) avg += a[index];`
on a `uint32_t` accumulator that starts at 0. -/
def accumulate (a : Nat → Nat) : Nat :=
  (List.range KAMEA_REAL_TIME_DATA_PERIOD).foldl (fun avg index => (avg + a index) % 2 ^ 32) 0

/-- The accumulation loop followed by `avg /= KAMEA_REAL_TIME_DATA_PERIOD`. -/
def average (a : Nat → Nat) : Nat :=
  accumulate a / KAMEA_REAL_TIME_DATA_PERIOD

/-- Wind turbine payload left in `payload[128]`. -/
def wind_turbine_payload (output_voltage_avg output_power_avg : Nat) : String :=
  snprintf 128 ("\x7b \"wind_turbine\": \x7b \"output_voltage\": " ++ fmt_d output_voltage_avg
    ++ ", \"output_power\": " ++ fmt_d output_power_avg ++ " \x7d \x7d")

/-- Config payload left in `payload[128]` (static values). -/
def config_payload : String :=
  snprintf 128 "\x7b \"turnedOn\": true, \"isProduction\": true, \"limiter\": 30 \x7d"

/-- App payload left in `payload[128]`. -/
def app_payload (output_power_avg generator_rpm_avg wind_speed_avg : Nat) : String :=
  snprintf 128 ("\x7b \"energyProduction\": " ++ fmt_d output_power_avg ++ ", \"generator\": "
    ++ fmt_d generator_rpm_avg ++ ", \"windSpeed\": " ++ fmt_d wind_speed_avg ++ " \x7d")

/-- The three publish calls that end `kamea_wind_turbine_status_cb`, in program
order, for given averages. -/
def wind_turbine_publishes (wind_speed_avg generator_rpm_avg output_voltage_avg
    output_power_avg : Nat) : List PublishCall :=
  [ { cls := PublishClass.telemetry,
      data := wind_turbine_payload output_voltage_avg output_power_avg,
      len := strlen (wind_turbine_payload output_voltage_avg output_power_avg),
      qos := MQTT_QOS_1_AT_LEAST_ONCE },
    { cls := PublishClass.configs,
      data := config_payload,
      len := strlen config_payload,
      qos := MQTT_QOS_1_AT_LEAST_ONCE },
    { cls := PublishClass.telemetry,
      data := app_payload output_power_avg generator_rpm_avg wind_speed_avg,
      len := strlen (app_payload output_power_avg generator_rpm_avg wind_speed_avg),
      qos := MQTT_QOS_1_AT_LEAST_ONCE } ]

/-- Wind turbine status callback. Returns the statics after the call and the
publish calls made, or `none` when a sample store falls outside the arrays. -/
def kamea_wind_turbine_status_cb (st : wind_turbine_statics) (msg : wind_turbine_status_msg) :
    Option (wind_turbine_statics × List PublishCall) :=
  if st.count < KAMEA_REAL_TIME_DATA_PERIOD then
    -- Save wind turbine data
    let wind_speed := store st.wind_speed st.count msg.wind_speed
    let generator_rpm := store st.generator_rpm st.count msg.generator_rpm
    let output_voltage := store st.output_voltage st.count msg.output_voltage
    let output_power := store st.output_power st.count msg.output_power
    let count := st.count + 1
    -- Check if wind turbine data are ready to be sent
    if count < KAMEA_REAL_TIME_DATA_PERIOD then
      some ({ wind_speed := wind_speed, generator_rpm := generator_rpm,
              output_voltage := output_voltage, output_power := output_power,
              count := count }, [])
    else
      -- Compute average data, format and publish the three payloads
      some ({ wind_speed := wind_speed, generator_rpm := generator_rpm,
              output_voltage := output_voltage, output_power := output_power,
              count := 0 },
            wind_turbine_publishes (average wind_speed) (average generator_rpm)
              (average output_voltage) (average output_power))
  else
    none

/-- Delivery of a sequence of wind turbine statuses to the listener, one call per
status. The result lists, per observation, the publish calls that observation made. -/
def wind_turbine_run (st : wind_turbine_statics) :
    List wind_turbine_status_msg → Option (wind_turbine_statics × List (List PublishCall))
  | [] => some (st, [])
  | msg :: rest =>
    match kamea_wind_turbine_status_cb st msg with
    | none => none
    | some (st1, out) =>
      match wind_turbine_run st1 rest with
      | none => none
      | some (st2, outs) => some (st2, out :: outs)

/-- Statics at start-up: zero-initialised arrays and `count = 0`. -/
def wind_turbine_statics.init : wind_turbine_statics :=
  { wind_speed := fun _ => 0, generator_rpm := fun _ => 0,
    output_voltage := fun _ => 0, output_power := fun _ => 0, count := 0 }

/-! ## `subsys/kamea/kamea_mqtt.c` -/

/-- Kconfig values used by the session thread. -/
structure Config where
  CONFIG_KAMEA_MQTT_RECONNECT_INTERVAL : Nat
  deriving DecidableEq, Repr

/-- Kamea MQTT callbacks (`kamea_mqtt_callbacks_t`): for each function pointer,
whether it is non-NULL. -/
structure kamea_mqtt_callbacks_t where
  connected : Bool
  disconnected : Bool
  published : Bool
  deriving DecidableEq, Repr

/-- The file-scope variables of `kamea_mqtt.c` that the code reads and writes. -/
structure Client where
  kamea_client_id : String
  kamea_mqtt_connected : Bool
  kamea_mqtt_network_connected : Bool
  kamea_callbacks : kamea_mqtt_callbacks_t
  deriving DecidableEq, Repr

/-- Zephyr's `enum mqtt_evt_type`. -/
inductive mqtt_evt_type where
  | MQTT_EVT_CONNACK
  | MQTT_EVT_DISCONNECT
  | MQTT_EVT_PUBLISH
  | MQTT_EVT_PUBACK
  | MQTT_EVT_PUBREC
  | MQTT_EVT_PUBREL
  | MQTT_EVT_PUBCOMP
  | MQTT_EVT_SUBACK
  | MQTT_EVT_UNSUBACK
  | MQTT_EVT_PINGRESP
  deriving DecidableEq, Repr

/-- The fields of `struct mqtt_evt` the handler reads: the type, the result, the
message identifier of the parameter and, for an inbound publish, its payload length. -/
structure mqtt_evt where
  type : mqtt_evt_type
  result : Int
  message_id : Nat
  payload_len : Nat
  deriving DecidableEq, Repr

/-- Connection-manager events seen by `kamea_mqtt_l4_event_handler`. -/
inductive net_mgmt_event where
  | NET_EVENT_L4_CONNECTED
  | NET_EVENT_L4_DISCONNECTED
  | other
  deriving DecidableEq, Repr

/-- Calls into Zephyr and invocations of the registered callbacks, as they are
recorded in program order. -/
inductive Effect where
  | k_sleep (seconds : Nat)
  | mqtt_client_init
  | mqtt_connect (result : Int)
  | connected
  | poll (timeout : Int) (result : Int)
  | mqtt_input
  | mqtt_abort
  | disconnected
  | mqtt_publish (topic : String) (data : String) (len : Nat) (qos : Nat) (message_id : Nat)
      (result : Int)
  | published (message_id : Nat) (result : Int)
  | mqtt_read_publish_payload (size : Nat) (bytes_read : Int)
  | mqtt_publish_qos1_ack (message_id : Nat)
  deriving DecidableEq, Repr

/-- Value of `SYS_FOREVER_MS`. -/
def SYS_FOREVER_MS : Int := -1

/-- Value of `EAGAIN`. -/
def EAGAIN : Int := 11

/-- Value of `ECONNABORTED`. -/
def ECONNABORTED : Int := 113

/-- Conversion of a `uint32_t` to `int`. -/
def to_int (v : Nat) : Int :=
  if v % 2 ^ 32 < 2 ^ 31 then (v % 2 ^ 32 : Nat) else (v % 2 ^ 32 : Nat) - 2 ^ 32

/-- Publish telemetry to the server. `rand16` is the value of `sys_rand16_get()` and
`send` the value returned by `mqtt_publish`. Returns the result, the file-scope
variables after the call and the effects of the call. -/
def kamea_mqtt_publish_telemetry (c : Client) (data : String) (len qos : Nat) (rand16 : Nat)
    (send : Int) : Int × Client × List Effect :=
  -- Check if client is connected
  if c.kamea_mqtt_connected = false then
    (-1, c, [])
  else
    -- Set publish param
    let topic := snprintf 64 ("device/" ++ c.kamea_client_id ++ "/telemetries")
    let message_id := rand16 % 2 ^ 16
    -- Publish data, then invoke the published callback
    (send, c,
      Effect.mqtt_publish topic data len qos message_id send ::
        (if c.kamea_callbacks.published then [Effect.published message_id send] else []))

/-- Modelled from the spec: `kamea_mqtt_publish_configs` is declared in
`include/app/subsys/kamea.h` and called by `kamea_wind_turbine_status_cb`, but its
definition is missing from the sources. The spec says configuration payloads go to
"an analogous `configs` topic (config class)" of the per-device namespace
`device/<client-id>/...`, at the quality of service requested by the caller, and that
publish fails fast when the session is not connected. -/
def kamea_mqtt_publish_configs (c : Client) (data : String) (len qos : Nat) (rand16 : Nat)
    (send : Int) : Int × Client × List Effect :=
  if c.kamea_mqtt_connected = false then
    (-1, c, [])
  else
    let topic := snprintf 64 ("device/" ++ c.kamea_client_id ++ "/configs")
    let message_id := rand16 % 2 ^ 16
    (send, c,
      Effect.mqtt_publish topic data len qos message_id send ::
        (if c.kamea_callbacks.published then [Effect.published message_id send] else []))

/-- The call a listener makes, routed to the publish function of its class. -/
def publish (c : Client) (call : PublishCall) (rand16 : Nat) (send : Int) :
    Int × Client × List Effect :=
  match call.cls with
  | PublishClass.telemetry => kamea_mqtt_publish_telemetry c call.data call.len call.qos rand16 send
  | PublishClass.configs => kamea_mqtt_publish_configs c call.data call.len call.qos rand16 send

/-- The loop `while (len) { ... }` that reads the payload of an inbound publish into
`data[33]`. `reads` lists the values successive calls of `mqtt_read_publish_payload`
return. The result is `none` when `reads` is exhausted before the loop ends or when
`data[bytes_read] = 0` writes outside `data`. -/
def read_publish_payload : List Int → Int → Option (List Effect)
  | [], len => if len = 0 then some [] else none
  | bytes_read :: reads, len =>
    if len = 0 then some []
    else
      let size : Nat := if len < 0 ∨ 32 ≤ len then 32 else len.toNat
      if bytes_read < 0 ∧ bytes_read ≠ -EAGAIN then
        some [Effect.mqtt_read_publish_payload size bytes_read]
      else if 0 ≤ bytes_read ∧ bytes_read ≤ 32 then
        match read_publish_payload reads (len - bytes_read) with
        | none => none
        | some effects => some (Effect.mqtt_read_publish_payload size bytes_read :: effects)
      else
        none

/-- MQTT event handler. `reads` lists the values `mqtt_read_publish_payload` returns
while the handler runs. -/
def kamea_mqtt_event_handler (c : Client) (evt : mqtt_evt) (reads : List Int) :
    Option (Client × List Effect) :=
  match evt.type with
  | mqtt_evt_type.MQTT_EVT_SUBACK => some (c, [])
  | mqtt_evt_type.MQTT_EVT_UNSUBACK => some (c, [])
  | mqtt_evt_type.MQTT_EVT_CONNACK =>
    if evt.result ≠ 0 then some (c, [])
    else some ({ c with kamea_mqtt_connected := true }, [])
  | mqtt_evt_type.MQTT_EVT_DISCONNECT => some ({ c with kamea_mqtt_connected := false }, [])
  | mqtt_evt_type.MQTT_EVT_PUBACK => some (c, [])
  | mqtt_evt_type.MQTT_EVT_PUBLISH =>
    match read_publish_payload reads (to_int evt.payload_len) with
    | none => none
    | some effects => some (c, effects ++ [Effect.mqtt_publish_qos1_ack evt.message_id])
  | _ => some (c, [])

/-- Connection manager event handler. -/
def kamea_mqtt_l4_event_handler (c : Client) (mgmt_event : net_mgmt_event) : Client :=
  match mgmt_event with
  | net_mgmt_event.NET_EVENT_L4_CONNECTED => { c with kamea_mqtt_network_connected := true }
  | net_mgmt_event.NET_EVENT_L4_DISCONNECTED => { c with kamea_mqtt_network_connected := false }
  | net_mgmt_event.other => c

/-- Connection-manager events handled, in order, while the session thread is blocked. -/
def l4_events (c : Client) (events : List net_mgmt_event) : Client :=
  events.foldl kamea_mqtt_l4_event_handler c

/-- What happens around one `poll` of the session thread: the value `poll` returns,
the connection-manager events handled while the thread was blocked in it, and the
event (with the payload reads of its handler) that the following `mqtt_input`
passes to the event handler, if any. -/
structure PollStep where
  result : Int
  l4 : List net_mgmt_event
  input : Option (mqtt_evt × List Int)
  deriving DecidableEq, Repr

/-- What the environment does during one pass of the `while (1)` loop of
`kamea_mqtt_thread`. `waits` has one entry per `k_sleep` of the wait for the network,
`loop` one entry per `poll` of the connected loop; `abort_notifies` tells whether
`mqtt_abort` reports `MQTT_EVT_DISCONNECT` to the event handler. -/
structure CycleEnv where
  waits : List (List net_mgmt_event)
  connect_result : Int
  connect_l4 : List net_mgmt_event
  poll1 : PollStep
  loop : List PollStep
  abort_notifies : Bool
  sleep_l4 : List net_mgmt_event
  deriving DecidableEq, Repr

/-- The call `mqtt_input(&kamea_mqtt_client)`, which passes at most one event to
`kamea_mqtt_event_handler`. -/
def mqtt_input (c : Client) (input : Option (mqtt_evt × List Int)) :
    Option (Client × List Effect) :=
  match input with
  | none => some (c, [Effect.mqtt_input])
  | some (evt, reads) =>
    match kamea_mqtt_event_handler c evt reads with
    | none => none
    | some (c1, effects) => some (c1, Effect.mqtt_input :: effects)

/-- The loop `while (false == kamea_mqtt_network_connected) k_sleep(...)`. The result
is `none` when the network is still down after the last entry of the list. -/
def wait_network (cfg : Config) : Client → List (List net_mgmt_event) →
    Option (Client × List Effect)
  | c, [] => if c.kamea_mqtt_network_connected = false then none else some (c, [])
  | c, l4 :: waits =>
    if c.kamea_mqtt_network_connected = false then
      match wait_network cfg (l4_events c l4) waits with
      | none => none
      | some (c1, effects) =>
        some (c1, Effect.k_sleep cfg.CONFIG_KAMEA_MQTT_RECONNECT_INTERVAL :: effects)
    else some (c, [])

/-- The part of the `while (1)` body from the wait for the network to the check
`if (false == kamea_mqtt_connected) goto END;`. The flag of the result is `true` when
control reaches the connected loop and `false` when it jumps to `END`. -/
def session_open (cfg : Config) (c : Client) (env : CycleEnv) :
    Option (Client × List Effect × Bool) :=
  -- Wait until the network is connected
  match wait_network cfg c env.waits with
  | none => none
  | some (c1, e1) =>
    -- Initialize MQTT client, connect to MQTT broker
    let c2 := l4_events c1 env.connect_l4
    let e2 := e1 ++ [Effect.mqtt_client_init, Effect.mqtt_connect env.connect_result]
    if env.connect_result ≠ 0 then some (c2, e2, false)
    else
      let e3 := e2 ++ (if c2.kamea_callbacks.connected then [Effect.connected] else [])
      -- Poll file descriptor
      let c3 := l4_events c2 env.poll1.l4
      let e4 := e3 ++ [Effect.poll 10000 env.poll1.result]
      if env.poll1.result < 0 then some (c3, e4, false)
      else
        match mqtt_input c3 env.poll1.input with
        | none => none
        | some (c4, e5) =>
          -- Check if connection is established
          if c4.kamea_mqtt_connected = false then some (c4, e4 ++ e5, false)
          else some (c4, e4 ++ e5, true)

/-- The loop `while ((true == kamea_mqtt_network_connected) && (true == kamea_mqtt_connected))`.
The result is `none` when the loop is still running after the last entry of the list. -/
def connected_loop : Client → List PollStep → Option (Client × List Effect)
  | c, [] =>
    if c.kamea_mqtt_network_connected = true ∧ c.kamea_mqtt_connected = true then none
    else some (c, [])
  | c, step :: steps =>
    if c.kamea_mqtt_network_connected = true ∧ c.kamea_mqtt_connected = true then
      let c1 := l4_events c step.l4
      if step.result < 0 then some (c1, [Effect.poll SYS_FOREVER_MS step.result])
      else
        match mqtt_input c1 step.input with
        | none => none
        | some (c2, e2) =>
          match connected_loop c2 steps with
          | none => none
          | some (c3, e3) => some (c3, Effect.poll SYS_FOREVER_MS step.result :: (e2 ++ e3))
    else some (c, [])

/-- The code at label `END`: abort connection, client disconnected, wait before
trying again. -/
def session_end (cfg : Config) (c : Client) (env : CycleEnv) : Option (Client × List Effect) :=
  let aborted :=
    if env.abort_notifies = true then
      kamea_mqtt_event_handler c
        { type := mqtt_evt_type.MQTT_EVT_DISCONNECT, result := -ECONNABORTED,
          message_id := 0, payload_len := 0 } []
    else some (c, [])
  match aborted with
  | none => none
  | some (c1, e1) =>
    some (l4_events c1 env.sleep_l4,
      Effect.mqtt_abort :: e1 ++
        (if c1.kamea_callbacks.disconnected then [Effect.disconnected] else []) ++
        [Effect.k_sleep cfg.CONFIG_KAMEA_MQTT_RECONNECT_INTERVAL])

/-- The connected loop followed by the code at `END`. -/
def session_connected (cfg : Config) (c : Client) (env : CycleEnv) :
    Option (Client × List Effect) :=
  match connected_loop c env.loop with
  | none => none
  | some (c1, e1) =>
    match session_end cfg c1 env with
    | none => none
    | some (c2, e2) => some (c2, e1 ++ e2)

/-- One pass of the `while (1)` loop of `kamea_mqtt_thread`. -/
def session_cycle (cfg : Config) (c : Client) (env : CycleEnv) : Option (Client × List Effect) :=
  match session_open cfg c env with
  | none => none
  | some (c1, e1, true) =>
    match session_connected cfg c1 env with
    | none => none
    | some (c2, e2) => some (c2, e1 ++ e2)
  | some (c1, e1, false) =>
    match session_end cfg c1 env with
    | none => none
    | some (c2, e2) => some (c2, e1 ++ e2)

/-! ## Notions used to state the properties -/

/-- The array `a` after the values `xs` have been stored in consecutive cells starting
at index `c`. -/
def fill (a : Nat → Nat) (c : Nat) : List Nat → (Nat → Nat)
  | [] => a
  | x :: xs => fill (store a c x) (c + 1) xs

/-- Integer-truncated arithmetic mean of a window of `KAMEA_REAL_TIME_DATA_PERIOD`
samples. -/
def mean (xs : List Nat) : Nat := xs.sum / 100

/-- Integer-truncated arithmetic mean of the `KAMEA_REAL_TIME_DATA_PERIOD` cells of a
window array. -/
def window_mean (a : Nat → Nat) : Nat :=
  ((List.range 100).map a).sum / 100

/-- A publish call is a `wind_turbine` report: it goes through the telemetry publish and
its text starts with the `wind_turbine` key. -/
def is_wind_turbine_report (c : PublishCall) : Bool :=
  decide (c.cls = PublishClass.telemetry) &&
    List.isPrefixOf "\x7b \"wind_turbine\":".data c.data.data

/-- The three reports for a window of samples, computed from the truncated means of
that window only. -/
def window_publishes (window : List wind_turbine_status_msg) : List PublishCall :=
  wind_turbine_publishes (mean (window.map (·.wind_speed))) (mean (window.map (·.generator_rpm)))
    (mean (window.map (·.output_voltage))) (mean (window.map (·.output_power)))

/-! ## Concrete inputs -/

/-- A wind turbine status. -/
def example_msg : wind_turbine_status_msg :=
  { wind_speed := 10, generator_rpm := 20, output_voltage := 230, output_power := 150 }

/-- Statics one sample short of a full window, after 99 statuses equal to `example_msg`. -/
def example_full_window : wind_turbine_statics :=
  { wind_speed := fun _ => 10, generator_rpm := fun _ => 20,
    output_voltage := fun _ => 230, output_power := fun _ => 150, count := 99 }

/-- A reconnect interval of 5 seconds. -/
def example_cfg : Config :=
  { CONFIG_KAMEA_MQTT_RECONNECT_INTERVAL := 5 }

/-- The client as `kamea_init` sets it up, not connected, with the network reachable. -/
def example_client : Client :=
  { kamea_client_id := "wind_turbine_stm32f746g_disco",
    kamea_mqtt_connected := false,
    kamea_mqtt_network_connected := true,
    kamea_callbacks := { connected := true, disconnected := true, published := true } }

/-- The same client once connected. -/
def example_connected_client : Client :=
  { example_client with kamea_mqtt_connected := true }

/-- A successful connect acknowledgement. -/
def example_connack : mqtt_evt :=
  { type := mqtt_evt_type.MQTT_EVT_CONNACK, result := 0, message_id := 0, payload_len := 0 }

/-- A cycle whose connect is acknowledged and whose first `poll` of the connected loop
fails. -/
def example_env : CycleEnv :=
  { waits := [], connect_result := 0, connect_l4 := [],
    poll1 := { result := 1, l4 := [], input := some (example_connack, []) },
    loop := [{ result := -1, l4 := [], input := none }],
    abort_notifies := true, sleep_l4 := [] }

/-- The wire text the specification writes for the wind turbine telemetry with
`output_voltage` `v` and `output_power` `p`. -/
def spec_wind_turbine_text (v p : Nat) : String :=
  "\x7b\"wind_turbine\":\x7b\"output_voltage\": " ++ Nat.repr v ++ ", \"output_power\": "
    ++ Nat.repr p ++ "\x7d\x7d"

/-- The wire text the specification writes for the app summary with `energyProduction` `p`,
`generator` `g` and `windSpeed` `w`. -/
def spec_app_text (p g w : Nat) : String :=
  "\x7b\"energyProduction\": " ++ Nat.repr p ++ ", \"generator\": " ++ Nat.repr g
    ++ ", \"windSpeed\": " ++ Nat.repr w ++ "\x7d"

/-! ## `kamea_buttons_status_cb` (`app/src/kamea.c`) -/

/-- Button status (`struct button_status_msg`). -/
structure button_status_msg where
  name : String
  state : Bool
  deriving DecidableEq, Repr

/-- Button alert payload left in `payload[128]`; the `bool` given to `%d` is promoted to
the `int` 1 or 0. -/
def alert_payload (name : String) (state : Bool) : String :=
  snprintf 128 ("\x7b \"alert\": \x7b \"name\": \"" ++ name ++ "\", \"state\": "
    ++ fmt_d (if state then 1 else 0) ++ " \x7d \x7d")

/-- Buttons status callback: the publish calls it makes. -/
def kamea_buttons_status_cb (msg : button_status_msg) : List PublishCall :=
  [ { cls := PublishClass.telemetry,
      data := alert_payload msg.name msg.state,
      len := strlen (alert_payload msg.name msg.state),
      qos := MQTT_QOS_1_AT_LEAST_ONCE } ]

/-- The characters that stand for `ch` inside a JSON string: the double quote and the
backslash take a backslash, a control character is written `\u00XX`, any other
character stands for itself. -/
def json_escape (ch : Char) : List Char :=
  if ch = '"' then ['\\', '"']
  else if ch = '\\' then ['\\', '\\']
  else if ch.toNat < 32 then
    ['\\', 'u', '0', '0', Nat.digitChar (ch.toNat / 16), Nat.digitChar (ch.toNat % 16)]
  else [ch]

/-- A text written as a JSON string. -/
def json_string (s : String) : String :=
  String.mk ('"' :: (s.data.map json_escape).flatten ++ ['"'])

/-- The wire text the specification writes for a button alert with `state` `s`. -/
def spec_alert_text (name : String) (s : Nat) : String :=
  "\x7b\"alert\":\x7b\"name\": " ++ json_string name ++ ", \"state\": " ++ Nat.repr s
    ++ "\x7d\x7d"

/-- The status the top button publishes when it is pressed (`app/src/buttons.c`). -/
def example_button : button_status_msg :=
  { name := "Wind Turbine Top Button", state := true }

/-! ## `kamea_mqtt_init` (`subsys/kamea/kamea_mqtt.c`) -/

/-- The credential types `kamea_mqtt_init` registers (Zephyr's
`enum tls_credential_type`). -/
inductive tls_credential_type where
  | TLS_CREDENTIAL_CA_CERTIFICATE
  | TLS_CREDENTIAL_PUBLIC_CERTIFICATE
  | TLS_CREDENTIAL_PRIVATE_KEY
  deriving DecidableEq, Repr

/-- The two security tags of the Kconfig. -/
inductive sec_tag where
  | CONFIG_KAMEA_TLS_CREDENTIAL_DEVICE_KEY_AND_CERTIFICATE_TAG
  | CONFIG_KAMEA_TLS_CREDENTIAL_SERVER_CA_CERTIFICATE_TAG
  deriving DecidableEq, Repr

/-- One call `tls_credential_add(tag, type, ...)` and the value it returned. -/
structure tls_credential_add_call where
  tag : sec_tag
  type : tls_credential_type
  result : Int
  deriving DecidableEq, Repr

/-- Initialize client. The three results are the values returned by the calls of
`tls_credential_add` for the device certificate, the device private key and the server
CA certificate. Returns the result, the file-scope variables after the call and the
registrations attempted, in order. -/
def kamea_mqtt_init (c : Client) (client_id : String) (callbacks : kamea_mqtt_callbacks_t)
    (public_cert_result private_key_result ca_cert_result : Int) :
    Int × Client × List tls_credential_add_call :=
  -- Copy client ID: `strncpy` into `kamea_client_id[32]`, then NUL in the last byte; the
  -- 31 bytes kept are the first 31 characters when the identifier is ASCII
  let c1 : Client := { c with kamea_client_id := String.mk (client_id.data.take 31) }
  let public_cert : tls_credential_add_call :=
    { tag := sec_tag.CONFIG_KAMEA_TLS_CREDENTIAL_DEVICE_KEY_AND_CERTIFICATE_TAG,
      type := tls_credential_type.TLS_CREDENTIAL_PUBLIC_CERTIFICATE,
      result := public_cert_result }
  let private_key : tls_credential_add_call :=
    { tag := sec_tag.CONFIG_KAMEA_TLS_CREDENTIAL_DEVICE_KEY_AND_CERTIFICATE_TAG,
      type := tls_credential_type.TLS_CREDENTIAL_PRIVATE_KEY,
      result := private_key_result }
  let ca_cert : tls_credential_add_call :=
    { tag := sec_tag.CONFIG_KAMEA_TLS_CREDENTIAL_SERVER_CA_CERTIFICATE_TAG,
      type := tls_credential_type.TLS_CREDENTIAL_CA_CERTIFICATE,
      result := ca_cert_result }
  -- Register device certificate
  if public_cert_result ≠ 0 then (public_cert_result, c1, [public_cert])
  -- Register device private key
  else if private_key_result ≠ 0 then (private_key_result, c1, [public_cert, private_key])
  -- Register server CA certificate
  else if ca_cert_result ≠ 0 then (ca_cert_result, c1, [public_cert, private_key, ca_cert])
  -- Save callbacks
  else (ca_cert_result, { c1 with kamea_callbacks := callbacks },
    [public_cert, private_key, ca_cert])

/-- The callbacks `kamea_init` registers. -/
def example_callbacks : kamea_mqtt_callbacks_t :=
  { connected := true, disconnected := true, published := true }

/-- The file-scope variables before `kamea_mqtt_init`: empty identifier, flags false, no
callback. -/
def example_blank_client : Client :=
  { kamea_client_id := "",
    kamea_mqtt_connected := false,
    kamea_mqtt_network_connected := false,
    kamea_callbacks := { connected := false, disconnected := false, published := false } }

/-- A client identifier of 44 characters. -/
def example_long_client_id : String :=
  "wind_turbine_stm32f746g_disco_board_number_1"

/-- A publish acknowledgement that carries an error result. -/
def example_puback_error : mqtt_evt :=
  { type := mqtt_evt_type.MQTT_EVT_PUBACK, result := -22, message_id := 4242, payload_len := 0 }

/-- A publish acknowledgement without error. -/
def example_puback : mqtt_evt :=
  { type := mqtt_evt_type.MQTT_EVT_PUBACK, result := 0, message_id := 4242, payload_len := 0 }

/-! ## `app/src/network.c` -/

/-- Network status (`struct network_status_msg`): `ip_address` is the text held by the
32-byte array. -/
structure network_status_msg where
  connected : Bool
  ip_address : String
  deriving DecidableEq, Repr

/-- Zephyr's `enum net_addr_type`. -/
inductive net_addr_type where
  | NET_ADDR_ANY
  | NET_ADDR_AUTOCONF
  | NET_ADDR_DHCP
  | NET_ADDR_MANUAL
  | NET_ADDR_OVERRIDABLE
  deriving DecidableEq, Repr

/-- What the code reads of a `struct net_if_addr`: its type and the text `net_addr_ntop`
gives for its IPv4 address. -/
structure net_if_addr where
  addr_type : net_addr_type
  address : String
  deriving DecidableEq, Repr

/-- Calls made by the connectivity monitor, in program order. -/
inductive NetworkEffect where
  | k_timer_stop
  | k_timer_start
  | zbus_chan_pub (msg : network_status_msg)
  deriving DecidableEq, Repr

/-- Print DHCPv4 address information: the calls made for one address of the interface. -/
def network_print_dhcpv4_addr (if_addr : net_if_addr) : List NetworkEffect :=
  -- Check address type
  if if_addr.addr_type ≠ net_addr_type.NET_ADDR_DHCP then []
  else
    -- Send network status
    [NetworkEffect.zbus_chan_pub
      { connected := true, ip_address := String.mk (if_addr.address.data.take 32) }]

/-- Connection manager event handler of the network module. `iface` lists the IPv4
addresses `net_if_ipv4_addr_foreach` visits, in order. -/
def network_l4_event_handler (mgmt_event : net_mgmt_event) (iface : List net_if_addr) :
    List NetworkEffect :=
  match mgmt_event with
  | net_mgmt_event.NET_EVENT_L4_CONNECTED =>
    NetworkEffect.k_timer_stop :: (iface.map network_print_dhcpv4_addr).flatten
  | net_mgmt_event.NET_EVENT_L4_DISCONNECTED =>
    [NetworkEffect.k_timer_start,
      NetworkEffect.zbus_chan_pub { connected := false, ip_address := "" }]
  | net_mgmt_event.other => []

/-- The link events handled in order, each with the addresses of the interface at that
time. -/
def network_run (events : List (net_mgmt_event × List net_if_addr)) : List NetworkEffect :=
  (events.map (fun e => network_l4_event_handler e.1 e.2)).flatten

/-- The statuses given to `zbus_chan_pub` in a trace, in order. -/
def published (effects : List NetworkEffect) : List network_status_msg :=
  effects.filterMap (fun e =>
    match e with
    | NetworkEffect.zbus_chan_pub msg => some msg
    | _ => none)

/-- The status given to the last `zbus_chan_pub` of a trace, if any. -/
def last_published (effects : List NetworkEffect) : Option network_status_msg :=
  (published effects).getLast?

/-- An interface whose only IPv4 address was set by hand. -/
def example_manual_iface : List net_if_addr :=
  [{ addr_type := net_addr_type.NET_ADDR_MANUAL, address := "192.168.1.10" }]

/-- An interface with one address obtained by DHCP. -/
def example_dhcp_iface : List net_if_addr :=
  [{ addr_type := net_addr_type.NET_ADDR_DHCP, address := "192.168.1.57" }]

/-! ## `kamea_inverter_status_cb` (`app/src/kamea.c`) -/

/-- The operations on `double` values that `kamea_inverter_status_cb` uses: the constant
0, the addition of `+=`, the division by `KAMEA_REAL_TIME_DATA_PERIOD` and the text of the
conversion `%f`. -/
structure double_ops (F : Type) where
  zero : F
  add : F → F → F
  div_period : F → F
  fmt_f : F → String

/-- Inverter status (`struct inverter_status_msg`): two `uint16_t` fields and a
`double`. -/
structure inverter_status_msg (F : Type) where
  output_voltage : Nat
  output_power : Nat
  frequency : F

/-- The two integer fields of a message fit their `uint16_t` type. -/
def inverter_status_msg.wf {F : Type} (m : inverter_status_msg F) : Prop :=
  m.output_voltage < 2 ^ 16 ∧ m.output_power < 2 ^ 16

/-- The static locals of `kamea_inverter_status_cb`: two arrays of `uint16_t` cells, one
array of `double` cells and `count`. -/
structure inverter_statics (F : Type) where
  output_voltage : Nat → Nat
  output_power : Nat → Nat
  frequency : Nat → F
  count : Nat

/-- Assignment `frequency[i] = v` to a `double` cell. -/
def store_double {F : Type} (a : Nat → F) (i : Nat) (v : F) : Nat → F :=
  fun j => if j = i then v else a j

/-- The loop that adds the `KAMEA_REAL_TIME_DATA_PERIOD` cells of `frequency` to
`frequency_avg`, followed by `frequency_avg /= KAMEA_REAL_TIME_DATA_PERIOD`. -/
def average_double {F : Type} (ops : double_ops F) (a : Nat → F) : F :=
  ops.div_period
    ((List.range KAMEA_REAL_TIME_DATA_PERIOD).foldl (fun avg index => ops.add avg (a index))
      ops.zero)

/-- Inverter payload left in `payload[128]`. -/
def inverter_payload {F : Type} (ops : double_ops F) (output_voltage_avg output_power_avg : Nat)
    (frequency_avg : F) : String :=
  snprintf 128 ("\x7b \"inverter\": \x7b \"output_voltage\": " ++ fmt_d output_voltage_avg
    ++ ", \"output_power\": " ++ fmt_d output_power_avg ++ ", \"frequency\": "
    ++ ops.fmt_f frequency_avg ++ " \x7d \x7d")

/-- The publish call that ends `kamea_inverter_status_cb`, for given averages. -/
def inverter_publishes {F : Type} (ops : double_ops F) (output_voltage_avg output_power_avg : Nat)
    (frequency_avg : F) : List PublishCall :=
  [ { cls := PublishClass.telemetry,
      data := inverter_payload ops output_voltage_avg output_power_avg frequency_avg,
      len := strlen (inverter_payload ops output_voltage_avg output_power_avg frequency_avg),
      qos := MQTT_QOS_1_AT_LEAST_ONCE } ]

/-- Inverter status callback. Returns the statics after the call and the publish calls
made, or `none` when a sample store falls outside the arrays. -/
def kamea_inverter_status_cb {F : Type} (ops : double_ops F) (st : inverter_statics F)
    (msg : inverter_status_msg F) : Option (inverter_statics F × List PublishCall) :=
  if st.count < KAMEA_REAL_TIME_DATA_PERIOD then
    -- Save inverter data
    let output_voltage := store st.output_voltage st.count msg.output_voltage
    let output_power := store st.output_power st.count msg.output_power
    let frequency := store_double st.frequency st.count msg.frequency
    let count := st.count + 1
    -- Check if inverter data are ready to be sent
    if count < KAMEA_REAL_TIME_DATA_PERIOD then
      some ({ output_voltage := output_voltage, output_power := output_power,
              frequency := frequency, count := count }, [])
    else
      -- Compute average data, format and publish the payload
      some ({ output_voltage := output_voltage, output_power := output_power,
              frequency := frequency, count := 0 },
            inverter_publishes ops (average output_voltage) (average output_power)
              (average_double ops frequency))
  else
    none

/-- Delivery of a sequence of inverter statuses to the listener, one call per status. -/
def inverter_run {F : Type} (ops : double_ops F) (st : inverter_statics F) :
    List (inverter_status_msg F) → Option (inverter_statics F × List (List PublishCall))
  | [] => some (st, [])
  | msg :: rest =>
    match kamea_inverter_status_cb ops st msg with
    | none => none
    | some (st1, out) =>
      match inverter_run ops st1 rest with
      | none => none
      | some (st2, outs) => some (st2, out :: outs)

/-- Statics at start-up: zero-initialised arrays and `count = 0`. -/
def inverter_statics.init {F : Type} (ops : double_ops F) : inverter_statics F :=
  { output_voltage := fun _ => 0, output_power := fun _ => 0,
    frequency := fun _ => ops.zero, count := 0 }

/-! ## The two windowed listeners side by side -/

/-- One status delivered to the telemetry aggregator: a wind turbine status to
`kamea_wind_turbine_status_cb` or an inverter status to `kamea_inverter_status_cb`. -/
inductive observation (F : Type) where
  | wind_turbine (msg : wind_turbine_status_msg)
  | inverter (msg : inverter_status_msg F)

/-- The statics of both listeners. -/
structure aggregator_statics (F : Type) where
  wind_turbine : wind_turbine_statics
  inverter : inverter_statics F

/-- Delivery of one observation to its listener. -/
def aggregator_step {F : Type} (ops : double_ops F) (st : aggregator_statics F) :
    observation F → Option (aggregator_statics F × List PublishCall)
  | observation.wind_turbine msg =>
    match kamea_wind_turbine_status_cb st.wind_turbine msg with
    | none => none
    | some (wt, out) => some ({ wind_turbine := wt, inverter := st.inverter }, out)
  | observation.inverter msg =>
    match kamea_inverter_status_cb ops st.inverter msg with
    | none => none
    | some (inv, out) => some ({ wind_turbine := st.wind_turbine, inverter := inv }, out)

/-- Delivery of an interleaved sequence of observations. -/
def aggregator_run {F : Type} (ops : double_ops F) (st : aggregator_statics F) :
    List (observation F) → Option (aggregator_statics F × List (List PublishCall))
  | [] => some (st, [])
  | obs :: rest =>
    match aggregator_step ops st obs with
    | none => none
    | some (st1, out) =>
      match aggregator_run ops st1 rest with
      | none => none
      | some (st2, outs) => some (st2, out :: outs)

/-- Statics of both listeners at start-up. -/
def aggregator_statics.init {F : Type} (ops : double_ops F) : aggregator_statics F :=
  { wind_turbine := wind_turbine_statics.init, inverter := inverter_statics.init ops }

/-- The wind turbine statuses of an interleaved sequence, in order. -/
def wind_turbine_observations {F : Type} : List (observation F) → List wind_turbine_status_msg
  | [] => []
  | observation.wind_turbine msg :: rest => msg :: wind_turbine_observations rest
  | observation.inverter _ :: rest => wind_turbine_observations rest

/-- The inverter statuses of an interleaved sequence, in order. -/
def inverter_observations {F : Type} : List (observation F) → List (inverter_status_msg F)
  | [] => []
  | observation.wind_turbine _ :: rest => inverter_observations rest
  | observation.inverter msg :: rest => msg :: inverter_observations rest

/-- The per-observation results of an interleaved sequence, put together from the results
`wt` of its wind turbine statuses and the results `inv` of its inverter statuses. -/
def interleave {F : Type} {α : Type} : List (observation F) → List α → List α → List α
  | observation.wind_turbine _ :: rest, x :: wt, inv => x :: interleave rest wt inv
  | observation.inverter _ :: rest, wt, y :: inv => y :: interleave rest wt inv
  | _, _, _ => []

/-- The publish calls of a listener carried out by the MQTT channel. `outcome k` gives,
for the call number `k`, the client variables at the time of the call, the value of
`sys_rand16_get()` and the value returned by `mqtt_publish`. The values the publish
functions return are dropped, as the listeners do. -/
def carry_out (outcome : Nat → Client × Nat × Int) : List PublishCall → Nat → List Effect
  | [], _ => []
  | call :: rest, k =>
    (publish (outcome k).1 call (outcome k).2.1 (outcome k).2.2).2.2
      ++ carry_out outcome rest (k + 1)

/-- `kamea_wind_turbine_status_cb` together with the publish functions it calls. -/
def wind_turbine_listener (st : wind_turbine_statics) (msg : wind_turbine_status_msg)
    (outcome : Nat → Client × Nat × Int) : Option (wind_turbine_statics × List Effect) :=
  match kamea_wind_turbine_status_cb st msg with
  | none => none
  | some (st1, calls) => some (st1, carry_out outcome calls 0)

/-- `kamea_inverter_status_cb` together with the publish function it calls. -/
def inverter_listener {F : Type} (ops : double_ops F) (st : inverter_statics F)
    (msg : inverter_status_msg F) (outcome : Nat → Client × Nat × Int) :
    Option (inverter_statics F × List Effect) :=
  match kamea_inverter_status_cb ops st msg with
  | none => none
  | some (st1, calls) => some (st1, carry_out outcome calls 0)

/-- An instance of the `double` operations on rational numbers, with a text that keeps
the integer part only. -/
def example_ops : double_ops Rat :=
  { zero := 0, add := fun x y => x + y, div_period := fun x => x / 100,
    fmt_f := fun x => Nat.repr x.floor.toNat ++ ".000000" }

/-- An inverter status. -/
def example_inverter_msg : inverter_status_msg Rat :=
  { output_voltage := 20050, output_power := 148, frequency := 50 }

/-! ## `kamea_mqtt_thread` from its start (`subsys/kamea/kamea_mqtt.c`) -/

/-- What happens around one call of `zsock_getaddrinfo`: the value it returns, the
address of the first entry of the list it gives when that value is 0, and the
connection-manager events handled during the call and the sleep that follows a
failure. -/
structure ResolveStep where
  result : Int
  address : Nat
  l4 : List net_mgmt_event
  deriving DecidableEq, Repr

/-- What the session thread does, in program order: the effects of the code before
`while (1)`, then one entry per pass of the loop, with the content of
`kamea_mqtt_broker` that `kamea_mqtt_client.broker` points to during the pass. -/
inductive ThreadEffect where
  | effect (e : Effect)
  | zsock_getaddrinfo (result : Int)
  | zsock_freeaddrinfo
  | cycle (broker : Nat) (effects : List Effect)
  deriving DecidableEq, Repr

/-- What the environment does while the thread runs: `waits` for the first wait for the
network, `resolutions` with one entry per call of `zsock_getaddrinfo`, `cycles` with one
entry per pass of `while (1)`. -/
structure ThreadEnv where
  waits : List (List net_mgmt_event)
  resolutions : List ResolveStep
  cycles : List CycleEnv
  deriving DecidableEq, Repr

/-- The loop `while (0 != (result = zsock_getaddrinfo(...))) k_sleep(...)`. The address is
`none` when the last call listed has failed too. -/
def resolve_loop (cfg : Config) : Client → List ResolveStep →
    Client × List ThreadEffect × Option Nat
  | c, [] => (c, [], none)
  | c, step :: steps =>
    if step.result ≠ 0 then
      ((resolve_loop cfg (l4_events c step.l4) steps).1,
        ThreadEffect.zsock_getaddrinfo step.result ::
          ThreadEffect.effect (Effect.k_sleep cfg.CONFIG_KAMEA_MQTT_RECONNECT_INTERVAL) ::
          (resolve_loop cfg (l4_events c step.l4) steps).2.1,
        (resolve_loop cfg (l4_events c step.l4) steps).2.2)
    else
      (l4_events c step.l4, [ThreadEffect.zsock_getaddrinfo step.result], some step.address)

/-- Passes of the loop `while (1)`, one per entry of the list, with `kamea_mqtt_broker`
holding `broker`. The result is `none` when a pass does not return. -/
def session_cycles (cfg : Config) (broker : Nat) : Client → List CycleEnv →
    Option (Client × List ThreadEffect)
  | c, [] => some (c, [])
  | c, env :: envs =>
    match session_cycle cfg c env with
    | none => none
    | some (c1, e1) =>
      match session_cycles cfg broker c1 envs with
      | none => none
      | some (c2, e2) => some (c2, ThreadEffect.cycle broker e1 :: e2)

/-- Thread used to connect and handle data with Kamea server, run as far as the
environment is described. The result is `none` when the first wait for the network or a
pass of the loop does not return; the address is `none`, and no pass of the loop is run,
when no resolution has succeeded. -/
def kamea_mqtt_thread (cfg : Config) (c : Client) (env : ThreadEnv) :
    Option (Client × Option Nat × List ThreadEffect) :=
  -- Wait until the network is connected
  match wait_network cfg c env.waits with
  | none => none
  | some (c1, e1) =>
    -- Perform DNS resolution of the host
    match (resolve_loop cfg c1 env.resolutions).2.2 with
    | none =>
      some ((resolve_loop cfg c1 env.resolutions).1, none,
        e1.map ThreadEffect.effect ++ (resolve_loop cfg c1 env.resolutions).2.1)
    | some address =>
      -- MQTT broker configuration, release memory, infinite loop
      match session_cycles cfg address (resolve_loop cfg c1 env.resolutions).1 env.cycles with
      | none => none
      | some (c3, e3) =>
        some (c3, some address,
          e1.map ThreadEffect.effect ++ (resolve_loop cfg c1 env.resolutions).2.1
            ++ [ThreadEffect.zsock_freeaddrinfo] ++ e3)

/-- The effects of the calls of `zsock_getaddrinfo` that fail, each followed by its
sleep. -/
def failed_resolutions (cfg : Config) (fails : List ResolveStep) : List ThreadEffect :=
  (fails.map (fun s =>
    [ThreadEffect.zsock_getaddrinfo s.result,
      ThreadEffect.effect (Effect.k_sleep cfg.CONFIG_KAMEA_MQTT_RECONNECT_INTERVAL)])).flatten

/-- A thread whose resolution succeeds at once and whose two passes of the loop both
fail to connect. -/
def example_thread_env : ThreadEnv :=
  { waits := [],
    resolutions := [{ result := 0, address := 3232235777, l4 := [] }],
    cycles := [{ example_env with connect_result := -116 },
      { example_env with connect_result := -116 }] }

/-- Two failed resolutions of the broker name. -/
def example_failed_resolutions : List ResolveStep :=
  [{ result := -2, address := 0, l4 := [] }, { result := -3, address := 0, l4 := [] }]

/-- A successful resolution of the broker name. -/
def example_resolution : ResolveStep :=
  { result := 0, address := 3232235777, l4 := [] }

/-! ## The means of a window -/

/-- The mean `m` emitted for the window array `a` is exact: no intermediate sum of the
accumulation wraps or exceeds 100 * 65535, `m` is the integer part of the arithmetic
mean of the 100 cells, it lies between every lower and every upper bound of the cells,
and it fits 16 bits. -/
def exact_window_mean (a : Nat → Nat) (m : Nat) : Prop :=
  (∀ n, n ≤ 100 →
    (List.range n).foldl (fun avg index => (avg + a index) % 2 ^ 32) 0
      = ((List.range n).map a).sum ∧
    ((List.range n).map a).sum ≤ 100 * 65535) ∧
  m = ((List.range 100).map a).sum / 100 ∧
  (∀ lo, (∀ i, i < 100 → lo ≤ a i) → lo ≤ m) ∧
  (∀ hi, (∀ i, i < 100 → a i ≤ hi) → m ≤ hi) ∧
  m ≤ 65535

/-- Inverter statics one sample short of a full window. -/
def example_inverter_full_window : inverter_statics Rat :=
  { output_voltage := fun _ => 20000, output_power := fun _ => 148,
    frequency := fun _ => 50, count := 99 }

/-! ## The texts before truncation (`app/src/kamea.c`) -/

/-- The text the format of the wind turbine payload expands to, before `snprintf` cuts it
to the room of `payload[128]`. -/
def wind_turbine_formatted (output_voltage_avg output_power_avg : Nat) : String :=
  "\x7b \"wind_turbine\": \x7b \"output_voltage\": " ++ fmt_d output_voltage_avg
    ++ ", \"output_power\": " ++ fmt_d output_power_avg ++ " \x7d \x7d"

/-- The text of the config payload before `snprintf` cuts it. -/
def config_formatted : String :=
  "\x7b \"turnedOn\": true, \"isProduction\": true, \"limiter\": 30 \x7d"

/-- The text the format of the app payload expands to, before `snprintf` cuts it. -/
def app_formatted (output_power_avg generator_rpm_avg wind_speed_avg : Nat) : String :=
  "\x7b \"energyProduction\": " ++ fmt_d output_power_avg ++ ", \"generator\": "
    ++ fmt_d generator_rpm_avg ++ ", \"windSpeed\": " ++ fmt_d wind_speed_avg ++ " \x7d"

/-- The text the format of the button alert expands to, before `snprintf` cuts it. -/
def alert_formatted (name : String) (state : Bool) : String :=
  "\x7b \"alert\": \x7b \"name\": \"" ++ name ++ "\", \"state\": "
    ++ fmt_d (if state then 1 else 0) ++ " \x7d \x7d"

/-! ## `inverter_wind_turbine_status_callback` (`app/src/inverter.c`) -/

/-- Inverter status callback of the simulation. `previous_output_power` is the static
local; the result is its value after the call and the messages given to
`zbus_chan_pub(&inverter_status_chan, ...)`. The product `99 * output_power` is an
`int`, the quotient is stored in a `uint16_t` field; a `double` literal is the rational
its decimal text denotes. -/
def inverter_wind_turbine_status_callback (previous_output_power : Nat)
    (msg : wind_turbine_status_msg) : Nat × List (inverter_status_msg Rat) :=
  let output_power := ((99 * msg.output_power) / 100) % 2 ^ 16
  let inverter_status_msg : inverter_status_msg Rat :=
    if msg.output_power > previous_output_power then
      { output_voltage := 20050, output_power := output_power, frequency := 50.1 }
    else if msg.output_power < previous_output_power then
      { output_voltage := 19950, output_power := output_power, frequency := 49.9 }
    else
      { output_voltage := 20000, output_power := output_power, frequency := 50 }
  (msg.output_power % 2 ^ 16, [inverter_status_msg])

/-! ## `wind_turbine_thread` (`app/src/wind_turbine.c`) -/

/-- Conversion `(uint16_t)x` of a `double` that is not negative. -/
def to_uint16 (x : Rat) : Nat := ⌊x⌋₊ % 2 ^ 16

/-- The value of `raw_value` after `raw_value = (double)adc_value; if (raw_value < 64)
raw_value = 0;`. -/
def wind_turbine_raw_value (adc_value : Nat) : Rat :=
  if ((adc_value % 2 ^ 16 : Nat) : Rat) < 64 then 0 else ((adc_value % 2 ^ 16 : Nat) : Rat)

/-- The value of `voltage`. -/
def wind_turbine_voltage (raw_value : Rat) : Rat :=
  if raw_value < 1340 then raw_value / 2 else 670 + (120 * ((raw_value / 2) - 670)) / 4096

/-- The status `wind_turbine_thread` builds from the ADC reading `adc_value`. The
arithmetic of the source is in `double`; every intermediate value here is a multiple of
1/4096 below 2 ^ 24, which a `double` holds exactly, so the rationals give the same
values. -/
def wind_turbine_status (adc_value : Nat) : wind_turbine_status_msg :=
  let raw_value := wind_turbine_raw_value adc_value
  let voltage := wind_turbine_voltage raw_value
  { wind_speed := to_uint16 ((raw_value * 100) / 4096),
    generator_rpm := to_uint16 ((raw_value * 30) / 4096),
    output_power := to_uint16 raw_value,
    output_voltage := to_uint16 voltage }

/-- One pass of the loop of `wind_turbine_thread`: `err_init` and `err_read` are the values
of `adc_sequence_init_dt` and `adc_read_dt`, `adc_value` the sample read; the result is
the messages given to `zbus_chan_pub(&wind_turbine_status_chan, ...)`. -/
def wind_turbine_thread_pass (err_init err_read : Int) (adc_value : Nat) :
    List wind_turbine_status_msg :=
  if err_init < 0 then []
  else if err_read < 0 then []
  else [wind_turbine_status adc_value]

/-! ## The button work handlers (`app/src/buttons.c`) -/

/-- Top button work handler. `buttons_top_button_state` is the file-scope variable,
`pin` the value of `gpio_pin_get_dt(&buttons_top_button)`, which each call reads once;
the result is the variable after the call and the messages given to
`zbus_chan_pub(&buttons_status_chan, ...)`. -/
def buttons_top_button_work_handler (buttons_top_button_state : Bool) (pin : Int) :
    Bool × List button_status_msg :=
  if buttons_top_button_state = false ∧ pin = 1 then
    (true, [{ name := "Wind Turbine Top Button", state := true }])
  else if buttons_top_button_state = true ∧ pin = 0 then
    (false, [{ name := "Wind Turbine Top Button", state := false }])
  else
    (buttons_top_button_state, [])

/-- Bottom button work handler. -/
def buttons_bottom_button_work_handler (buttons_bottom_button_state : Bool) (pin : Int) :
    Bool × List button_status_msg :=
  if buttons_bottom_button_state = false ∧ pin = 1 then
    (true, [{ name := "Wind Turbine Bottom Button", state := true }])
  else if buttons_bottom_button_state = true ∧ pin = 0 then
    (false, [{ name := "Wind Turbine Bottom Button", state := false }])
  else
    (buttons_bottom_button_state, [])

/-- Successive calls of a button work handler, one per pin value of the list; the result
is the state after the last call and the messages published, in order. -/
def buttons_run (handler : Bool → Int → Bool × List button_status_msg) :
    Bool → List Int → Bool × List button_status_msg
  | state, [] => (state, [])
  | state, pin :: pins =>
    ((buttons_run handler (handler state pin).1 pins).1,
      (handler state pin).2 ++ (buttons_run handler (handler state pin).1 pins).2)

/-- The states `true, false, true, ...` of `n` alternating publications that start
with the state `first`. -/
def alternating (first : Bool) (n : Nat) : List Bool :=
  (List.range n).map (fun k => if k % 2 = 0 then first else !first)

/-! ## The writes of the payload loop (`subsys/kamea/kamea_mqtt.c`) -/

/-- The passes of the loop `while (len) { ... }` of the `MQTT_EVT_PUBLISH` case that reach
`data[bytes_read] = 0`: for each, the index written in `data[33]` and the value of `len`
after `len -= bytes_read`. `reads` lists the values successive calls of
`mqtt_read_publish_payload` return. -/
def read_publish_payload_writes : List Int → Int → List (Int × Int)
  | [], _ => []
  | bytes_read :: reads, len =>
    if len = 0 then []
    else if bytes_read < 0 ∧ bytes_read ≠ -EAGAIN then []
    else (bytes_read, len - bytes_read) :: read_publish_payload_writes reads (len - bytes_read)

/-- An inbound publish that announces a payload of 40 bytes. -/
def example_publish_evt : mqtt_evt :=
  { type := mqtt_evt_type.MQTT_EVT_PUBLISH, result := 0, message_id := 7, payload_len := 40 }

/-! ## Lemmas on the sample window -/

theorem foldl_acc_eq (a : Nat → Nat) (n : Nat) (hn : n ≤ 100)
    (ha : ∀ i, i < n → a i < 2 ^ 16) :
    (List.range n).foldl (fun avg index => (avg + a index) % 2 ^ 32) 0
        = ((List.range n).map a).sum ∧
      ((List.range n).map a).sum ≤ n * 65535 := by
  induction n with
  | zero => simp
  | succ n ih =>
    have h1 := ih (by omega) (fun i hi => ha i (by omega))
    have h2 := ha n (by omega)
    rw [List.range_succ, List.foldl_append, List.map_append, List.sum_append]
    simp only [List.foldl_cons, List.foldl_nil, List.map_cons, List.map_nil, List.sum_cons,
      List.sum_nil, Nat.add_zero]
    rw [h1.1]
    constructor
    · apply Nat.mod_eq_of_lt
      have := h1.2
      omega
    · have := h1.2
      omega

theorem accumulate_eq (a : Nat → Nat) (ha : ∀ i, i < 100 → a i < 2 ^ 16) :
    accumulate a = ((List.range 100).map a).sum :=
  (foldl_acc_eq a 100 (le_refl _) ha).1

theorem fill_apply (xs : List Nat) : ∀ (a : Nat → Nat) (c i : Nat),
    fill a c xs i = if c ≤ i ∧ i < c + xs.length then xs.getD (i - c) 0 % 2 ^ 16 else a i := by
  induction xs with
  | nil =>
    intro a c i
    have h : ¬ (c ≤ i ∧ i < c) := by omega
    simp [fill, h]
  | cons x xs ih =>
    intro a c i
    rw [fill, ih]
    by_cases h1 : i = c
    · subst h1
      simp [store]
    · by_cases h2 : c + 1 ≤ i ∧ i < c + 1 + xs.length
      · have h3 : c ≤ i ∧ i < c + (x :: xs).length := by
          simp only [List.length_cons]; omega
        rw [if_pos h2, if_pos h3]
        have h4 : i - c = (i - (c + 1)) + 1 := by omega
        rw [h4, List.getD_cons_succ]
      · have h3 : ¬ (c ≤ i ∧ i < c + (x :: xs).length) := by
          simp only [List.length_cons]; omega
        rw [if_neg h2, if_neg h3]
        simp [store, h1]

theorem map_fill_range (a : Nat → Nat) (xs : List Nat) (hlen : xs.length = 100)
    (hx : ∀ x ∈ xs, x < 2 ^ 16) : (List.range 100).map (fill a 0 xs) = xs := by
  apply List.ext_getElem
  · simp [hlen]
  · intro i h1 h2
    simp only [List.getElem_map, List.getElem_range]
    rw [fill_apply]
    have h3 : 0 ≤ i ∧ i < 0 + xs.length := by omega
    rw [if_pos h3]
    simp only [Nat.sub_zero]
    rw [List.getD_eq_getElem xs 0 h2]
    exact Nat.mod_eq_of_lt (hx _ (List.getElem_mem _))

theorem average_fill (a : Nat → Nat) (xs : List Nat) (hlen : xs.length = 100)
    (hx : ∀ x ∈ xs, x < 2 ^ 16) : average (fill a 0 xs) = mean xs := by
  unfold average mean
  rw [accumulate_eq, map_fill_range a xs hlen hx]
  · rfl
  · intro i hi
    rw [fill_apply]
    split
    · exact Nat.mod_lt _ (by norm_num)
    · omega

theorem cb_step_lt (st : wind_turbine_statics) (msg : wind_turbine_status_msg)
    (h : st.count + 1 < 100) :
    kamea_wind_turbine_status_cb st msg =
      some ({ wind_speed := store st.wind_speed st.count msg.wind_speed,
              generator_rpm := store st.generator_rpm st.count msg.generator_rpm,
              output_voltage := store st.output_voltage st.count msg.output_voltage,
              output_power := store st.output_power st.count msg.output_power,
              count := st.count + 1 }, []) := by
  have h1 : st.count < 100 := by omega
  simp [kamea_wind_turbine_status_cb, KAMEA_REAL_TIME_DATA_PERIOD, h, h1]

theorem cb_step_full (st : wind_turbine_statics) (msg : wind_turbine_status_msg)
    (h : st.count + 1 = 100) :
    kamea_wind_turbine_status_cb st msg =
      some ({ wind_speed := store st.wind_speed st.count msg.wind_speed,
              generator_rpm := store st.generator_rpm st.count msg.generator_rpm,
              output_voltage := store st.output_voltage st.count msg.output_voltage,
              output_power := store st.output_power st.count msg.output_power,
              count := 0 },
            wind_turbine_publishes
              (average (store st.wind_speed st.count msg.wind_speed))
              (average (store st.generator_rpm st.count msg.generator_rpm))
              (average (store st.output_voltage st.count msg.output_voltage))
              (average (store st.output_power st.count msg.output_power))) := by
  have h1 : st.count < 100 := by omega
  have h2 : ¬ (st.count + 1 < 100) := by omega
  simp [kamea_wind_turbine_status_cb, KAMEA_REAL_TIME_DATA_PERIOD, h1, h2]

theorem run_append (xs ys : List wind_turbine_status_msg) : ∀ st : wind_turbine_statics,
    wind_turbine_run st (xs ++ ys) =
      match wind_turbine_run st xs with
      | none => none
      | some (st1, o1) =>
        match wind_turbine_run st1 ys with
        | none => none
        | some (st2, o2) => some (st2, o1 ++ o2) := by
  induction xs with
  | nil =>
    intro st
    simp only [List.nil_append, wind_turbine_run]
    cases wind_turbine_run st ys with
    | none => rfl
    | some r => rfl
  | cons x xs ih =>
    intro st
    rw [List.cons_append, wind_turbine_run, wind_turbine_run]
    cases kamea_wind_turbine_status_cb st x with
    | none => rfl
    | some r =>
      obtain ⟨st1, out⟩ := r
      simp only
      rw [ih st1]
      cases wind_turbine_run st1 xs with
      | none => rfl
      | some r1 =>
        obtain ⟨st2, o1⟩ := r1
        simp only
        cases wind_turbine_run st2 ys with
        | none => rfl
        | some r2 => rfl

/-- Run that fills the window up to capacity. -/
theorem run_to_full (samples : List wind_turbine_status_msg) : ∀ st : wind_turbine_statics,
    samples ≠ [] → st.count + samples.length = 100 →
    wind_turbine_run st samples =
      some ({ wind_speed := fill st.wind_speed st.count (samples.map (·.wind_speed)),
              generator_rpm := fill st.generator_rpm st.count (samples.map (·.generator_rpm)),
              output_voltage := fill st.output_voltage st.count (samples.map (·.output_voltage)),
              output_power := fill st.output_power st.count (samples.map (·.output_power)),
              count := 0 },
            List.replicate (samples.length - 1) [] ++
              [wind_turbine_publishes
                (average (fill st.wind_speed st.count (samples.map (·.wind_speed))))
                (average (fill st.generator_rpm st.count (samples.map (·.generator_rpm))))
                (average (fill st.output_voltage st.count (samples.map (·.output_voltage))))
                (average (fill st.output_power st.count (samples.map (·.output_power))))]) := by
  induction samples with
  | nil => intro st h; exact absurd rfl h
  | cons m rest ih =>
    intro st _ hlen
    cases rest with
    | nil =>
      simp only [List.length_cons, List.length_nil] at hlen
      simp only [wind_turbine_run, cb_step_full st m (by omega)]
      rfl
    | cons m2 rest2 =>
      simp only [List.length_cons] at hlen
      have hlt : st.count + 1 < 100 := by omega
      rw [wind_turbine_run, cb_step_lt st m hlt]
      simp only
      rw [ih _ (by simp) (by simp only [List.length_cons]; omega)]
      simp only [List.length_cons, List.map_cons, fill, Nat.add_sub_cancel, List.replicate_succ,
        List.cons_append]

/-! ## Lemmas on the formatted texts -/

theorem snprintf_of_lt (size : Nat) (s : String) (h : s.length < size) :
    snprintf size s = s := by
  unfold snprintf
  rw [List.take_of_length_le]
  have : s.data.length = s.length := rfl
  omega

theorem fmt_d_of_lt (v : Nat) (h : v < 2 ^ 16) : fmt_d v = Nat.repr v := by
  unfold fmt_d
  have h1 : v % 2 ^ 32 = v := Nat.mod_eq_of_lt (by omega)
  rw [h1, if_pos (by omega)]

theorem repr_length_u16 (v : Nat) (h : v < 2 ^ 16) : (Nat.repr v).length ≤ 5 :=
  Nat.repr_length v 5 (by norm_num) (by omega)

theorem wind_turbine_payload_eq (v p : Nat) (hv : v < 2 ^ 16) (hp : p < 2 ^ 16) :
    wind_turbine_payload v p =
      "\x7b \"wind_turbine\": \x7b \"output_voltage\": " ++ Nat.repr v
        ++ ", \"output_power\": " ++ Nat.repr p ++ " \x7d \x7d" := by
  unfold wind_turbine_payload
  rw [fmt_d_of_lt v hv, fmt_d_of_lt p hp]
  apply snprintf_of_lt
  have h1 := repr_length_u16 v hv
  have h2 := repr_length_u16 p hp
  simp only [String.length_append]
  have e1 : "\x7b \"wind_turbine\": \x7b \"output_voltage\": ".length = 38 := by decide
  have e2 : ", \"output_power\": ".length = 18 := by decide
  have e3 : " \x7d \x7d".length = 4 := by decide
  omega

theorem app_payload_eq (p g w : Nat) (hp : p < 2 ^ 16) (hg : g < 2 ^ 16) (hw : w < 2 ^ 16) :
    app_payload p g w =
      "\x7b \"energyProduction\": " ++ Nat.repr p ++ ", \"generator\": " ++ Nat.repr g
        ++ ", \"windSpeed\": " ++ Nat.repr w ++ " \x7d" := by
  unfold app_payload
  rw [fmt_d_of_lt p hp, fmt_d_of_lt g hg, fmt_d_of_lt w hw]
  apply snprintf_of_lt
  have h1 := repr_length_u16 p hp
  have h2 := repr_length_u16 g hg
  have h3 := repr_length_u16 w hw
  simp only [String.length_append]
  have e1 : "\x7b \"energyProduction\": ".length = 22 := by decide
  have e2 : ", \"generator\": ".length = 15 := by decide
  have e3 : ", \"windSpeed\": ".length = 15 := by decide
  have e4 : " \x7d".length = 2 := by decide
  omega

theorem config_payload_eq :
    config_payload = "\x7b \"turnedOn\": true, \"isProduction\": true, \"limiter\": 30 \x7d" := by
  decide

theorem isPrefixOf_take_append (p l : List Char) (n : Nat) (h : p.length ≤ n) :
    List.isPrefixOf p (List.take n (p ++ l)) = true := by
  rw [List.take_append_eq_append_take, List.take_of_length_le h]
  rw [List.isPrefixOf_iff_prefix]
  exact List.prefix_append _ _

theorem is_report_wind_turbine (v p : Nat) (n q : Nat) :
    is_wind_turbine_report
      { cls := PublishClass.telemetry, data := wind_turbine_payload v p, len := n, qos := q }
      = true := by
  unfold is_wind_turbine_report wind_turbine_payload snprintf
  have e : "\x7b \"wind_turbine\": \x7b \"output_voltage\": "
      = "\x7b \"wind_turbine\":" ++ " \x7b \"output_voltage\": " := by decide
  simp only [decide_True, Bool.true_and, e, String.data_append, List.append_assoc]
  exact isPrefixOf_take_append _ _ _ (by decide)

theorem is_report_app (p g w : Nat) (n q : Nat) :
    is_wind_turbine_report
      { cls := PublishClass.telemetry, data := app_payload p g w, len := n, qos := q }
      = false := by
  unfold is_wind_turbine_report app_payload snprintf
  simp only [decide_True, Bool.true_and, String.data_append, List.append_assoc]
  simp [List.isPrefixOf, List.take]

theorem is_report_config (n q : Nat) :
    is_wind_turbine_report
      { cls := PublishClass.configs, data := config_payload, len := n, qos := q } = false := by
  simp [is_wind_turbine_report]

theorem countP_publishes (w g v p : Nat) :
    (wind_turbine_publishes w g v p).countP is_wind_turbine_report = 1 := by
  unfold wind_turbine_publishes
  simp [List.countP_cons, is_report_wind_turbine, is_report_app, is_report_config]

/-! ## Runs of the wind turbine listener -/

theorem mean_lt (xs : List Nat) (hlen : xs.length = 100) (hx : ∀ x ∈ xs, x < 2 ^ 16) :
    mean xs < 2 ^ 16 := by
  have h : ∀ l : List Nat, (∀ x ∈ l, x < 2 ^ 16) → l.sum ≤ l.length * 65535 := by
    intro l
    induction l with
    | nil => intro _; simp
    | cons a l ih =>
      intro hl
      have h1 := hl a (List.mem_cons_self _ _)
      have h2 := ih (fun x hx => hl x (List.mem_cons_of_mem _ hx))
      simp only [List.sum_cons, List.length_cons]
      omega
  have h3 := h xs hx
  rw [hlen] at h3
  unfold mean
  omega

theorem run_window (st : wind_turbine_statics) (samples : List wind_turbine_status_msg)
    (h0 : st.count = 0) (hlen : samples.length = 100) (hwf : ∀ m ∈ samples, m.wf) :
    wind_turbine_run st samples =
      some ({ wind_speed := fill st.wind_speed 0 (samples.map (·.wind_speed)),
              generator_rpm := fill st.generator_rpm 0 (samples.map (·.generator_rpm)),
              output_voltage := fill st.output_voltage 0 (samples.map (·.output_voltage)),
              output_power := fill st.output_power 0 (samples.map (·.output_power)),
              count := 0 },
            List.replicate 99 [] ++ [window_publishes samples]) := by
  have hne : samples ≠ [] := by
    intro h
    rw [h] at hlen
    simp at hlen
  rw [run_to_full samples st hne (by omega), h0, hlen]
  have a1 : ∀ a, average (fill a 0 (samples.map (·.wind_speed)))
      = mean (samples.map (·.wind_speed)) := fun a =>
    average_fill a _ (by simp [hlen]) (by
      intro x hx
      obtain ⟨m, hm, rfl⟩ := List.mem_map.mp hx
      exact (hwf m hm).1)
  have a2 : ∀ a, average (fill a 0 (samples.map (·.generator_rpm)))
      = mean (samples.map (·.generator_rpm)) := fun a =>
    average_fill a _ (by simp [hlen]) (by
      intro x hx
      obtain ⟨m, hm, rfl⟩ := List.mem_map.mp hx
      exact (hwf m hm).2.1)
  have a3 : ∀ a, average (fill a 0 (samples.map (·.output_voltage)))
      = mean (samples.map (·.output_voltage)) := fun a =>
    average_fill a _ (by simp [hlen]) (by
      intro x hx
      obtain ⟨m, hm, rfl⟩ := List.mem_map.mp hx
      exact (hwf m hm).2.2.1)
  have a4 : ∀ a, average (fill a 0 (samples.map (·.output_power)))
      = mean (samples.map (·.output_power)) := fun a =>
    average_fill a _ (by simp [hlen]) (by
      intro x hx
      obtain ⟨m, hm, rfl⟩ := List.mem_map.mp hx
      exact (hwf m hm).2.2.2)
  rw [a1, a2, a3, a4]
  rfl

theorem run_general (obs : List wind_turbine_status_msg) : ∀ st : wind_turbine_statics,
    st.count < 100 →
    ∃ st1 outs, wind_turbine_run st obs = some (st1, outs) ∧
      st1.count = (st.count + obs.length) % 100 ∧
      outs.length = obs.length ∧
      (∀ k, k < obs.length →
        (100 ∣ st.count + k + 1 →
          ∃ o, outs[k]? = some o ∧ o.countP is_wind_turbine_report = 1 ∧ o.length = 3) ∧
        (¬ 100 ∣ st.count + k + 1 → outs[k]? = some [])) ∧
      outs.flatten.countP is_wind_turbine_report = (st.count + obs.length) / 100 := by
  induction obs with
  | nil =>
    intro st hst
    refine ⟨st, [], rfl, ?_, rfl, ?_, ?_⟩
    · simp only [List.length_nil, Nat.add_zero]
      exact (Nat.mod_eq_of_lt hst).symm
    · intro k hk
      simp at hk
    · simp only [List.flatten_nil, List.countP_nil, List.length_nil, Nat.add_zero]
      omega
  | cons m rest ih =>
    intro st hst
    by_cases hfull : st.count + 1 < 100
    · obtain ⟨st1, outs, hrun, hcount, hl, hk, hc⟩ := ih
        { wind_speed := store st.wind_speed st.count m.wind_speed,
          generator_rpm := store st.generator_rpm st.count m.generator_rpm,
          output_voltage := store st.output_voltage st.count m.output_voltage,
          output_power := store st.output_power st.count m.output_power,
          count := st.count + 1 } hfull
      refine ⟨st1, [] :: outs, ?_, ?_, ?_, ?_, ?_⟩
      · rw [wind_turbine_run, cb_step_lt st m hfull]
        simp only [hrun]
      · rw [hcount]
        simp only [List.length_cons]
        congr 1
        omega
      · simp [hl]
      · intro k hklt
        cases k with
        | zero =>
          constructor
          · intro hd
            omega
          · intro _
            simp
        | succ k =>
          simp only [List.length_cons] at hklt
          have := hk k (by omega)
          simp only [List.getElem?_cons_succ]
          constructor
          · intro hd
            exact this.1 (by simp only at hd ⊢; omega)
          · intro hd
            exact this.2 (by simp only at hd ⊢; omega)
      · simp only [List.flatten_cons, List.nil_append, hc, List.length_cons]
        congr 1
        omega
    · have hc99 : st.count + 1 = 100 := by omega
      obtain ⟨st1, outs, hrun, hcount, hl, hk, hc⟩ := ih
        { wind_speed := store st.wind_speed st.count m.wind_speed,
          generator_rpm := store st.generator_rpm st.count m.generator_rpm,
          output_voltage := store st.output_voltage st.count m.output_voltage,
          output_power := store st.output_power st.count m.output_power,
          count := 0 } (by simp)
      refine ⟨st1, wind_turbine_publishes
          (average (store st.wind_speed st.count m.wind_speed))
          (average (store st.generator_rpm st.count m.generator_rpm))
          (average (store st.output_voltage st.count m.output_voltage))
          (average (store st.output_power st.count m.output_power)) :: outs, ?_, ?_, ?_, ?_, ?_⟩
      · rw [wind_turbine_run, cb_step_full st m hc99]
        simp only [hrun]
      · rw [hcount]
        simp only [List.length_cons]
        omega
      · simp [hl]
      · intro k hklt
        cases k with
        | zero =>
          constructor
          · intro _
            exact ⟨_, List.getElem?_cons_zero, countP_publishes _ _ _ _, rfl⟩
          · intro hd
            exact absurd (by omega) hd
        | succ k =>
          simp only [List.length_cons] at hklt
          have := hk k (by omega)
          simp only [List.getElem?_cons_succ]
          constructor
          · intro hd
            exact this.1 (by simp only at hd ⊢; omega)
          · intro hd
            exact this.2 (by simp only at hd ⊢; omega)
      · simp only [List.flatten_cons, List.countP_append, countP_publishes, hc, List.length_cons]
        omega

theorem run_below_full (obs : List wind_turbine_status_msg) : ∀ st : wind_turbine_statics,
    st.count + obs.length < 100 →
    ∃ st1, wind_turbine_run st obs = some (st1, List.replicate obs.length []) := by
  induction obs with
  | nil => intro st _; exact ⟨st, rfl⟩
  | cons m rest ih =>
    intro st h
    simp only [List.length_cons] at h
    obtain ⟨st1, h1⟩ := ih
      { wind_speed := store st.wind_speed st.count m.wind_speed,
        generator_rpm := store st.generator_rpm st.count m.generator_rpm,
        output_voltage := store st.output_voltage st.count m.output_voltage,
        output_power := store st.output_power st.count m.output_power,
        count := st.count + 1 } (by simp only; omega)
    refine ⟨st1, ?_⟩
    rw [wind_turbine_run, cb_step_lt st m (by omega)]
    simp only [h1, List.length_cons, List.replicate_succ]

theorem flatten_replicate_nil (n : Nat) :
    (List.replicate n ([] : List PublishCall)).flatten = [] := by
  induction n with
  | zero => rfl
  | succ n ih => simp [List.replicate_succ, ih]

theorem window_publishes_eq (window : List wind_turbine_status_msg)
    (hlen : window.length = 100) (hwf : ∀ m ∈ window, m.wf) :
    window_publishes window =
      [ { cls := PublishClass.telemetry,
          data := "\x7b \"wind_turbine\": \x7b \"output_voltage\": "
            ++ Nat.repr ((window.map (·.output_voltage)).sum / 100)
            ++ ", \"output_power\": " ++ Nat.repr ((window.map (·.output_power)).sum / 100)
            ++ " \x7d \x7d",
          len := ("\x7b \"wind_turbine\": \x7b \"output_voltage\": "
            ++ Nat.repr ((window.map (·.output_voltage)).sum / 100)
            ++ ", \"output_power\": " ++ Nat.repr ((window.map (·.output_power)).sum / 100)
            ++ " \x7d \x7d").length,
          qos := 1 },
        { cls := PublishClass.configs,
          data := "\x7b \"turnedOn\": true, \"isProduction\": true, \"limiter\": 30 \x7d",
          len := 57,
          qos := 1 },
        { cls := PublishClass.telemetry,
          data := "\x7b \"energyProduction\": "
            ++ Nat.repr ((window.map (·.output_power)).sum / 100) ++ ", \"generator\": "
            ++ Nat.repr ((window.map (·.generator_rpm)).sum / 100) ++ ", \"windSpeed\": "
            ++ Nat.repr ((window.map (·.wind_speed)).sum / 100) ++ " \x7d",
          len := ("\x7b \"energyProduction\": "
            ++ Nat.repr ((window.map (·.output_power)).sum / 100) ++ ", \"generator\": "
            ++ Nat.repr ((window.map (·.generator_rpm)).sum / 100) ++ ", \"windSpeed\": "
            ++ Nat.repr ((window.map (·.wind_speed)).sum / 100) ++ " \x7d").length,
          qos := 1 } ] := by
  have b1 : mean (window.map (·.wind_speed)) < 2 ^ 16 :=
    mean_lt _ (by simp [hlen]) (by
      intro x hx
      obtain ⟨m, hm, rfl⟩ := List.mem_map.mp hx
      exact (hwf m hm).1)
  have b2 : mean (window.map (·.generator_rpm)) < 2 ^ 16 :=
    mean_lt _ (by simp [hlen]) (by
      intro x hx
      obtain ⟨m, hm, rfl⟩ := List.mem_map.mp hx
      exact (hwf m hm).2.1)
  have b3 : mean (window.map (·.output_voltage)) < 2 ^ 16 :=
    mean_lt _ (by simp [hlen]) (by
      intro x hx
      obtain ⟨m, hm, rfl⟩ := List.mem_map.mp hx
      exact (hwf m hm).2.2.1)
  have b4 : mean (window.map (·.output_power)) < 2 ^ 16 :=
    mean_lt _ (by simp [hlen]) (by
      intro x hx
      obtain ⟨m, hm, rfl⟩ := List.mem_map.mp hx
      exact (hwf m hm).2.2.2)
  unfold window_publishes wind_turbine_publishes
  rw [wind_turbine_payload_eq _ _ b3 b4, app_payload_eq _ _ _ b4 b2 b1, config_payload_eq]
  rfl

/-- C1: from an empty window, the first 99 of 100 observations publish nothing and the
100th publishes the `wind_turbine` report whose `output_voltage` and `output_power` are
the sums of the 100 values of that field divided by 100, rounded down. -/
theorem window_report_carries_truncated_means (st : wind_turbine_statics)
    (samples : List wind_turbine_status_msg) (h0 : st.count = 0)
    (hlen : samples.length = 100) (hwf : ∀ m ∈ samples, m.wf) :
    ∃ st1 report config app,
      wind_turbine_run st samples
          = some (st1, List.replicate 99 [] ++ [[report, config, app]]) ∧
        report.cls = PublishClass.telemetry ∧
        report.data = "\x7b \"wind_turbine\": \x7b \"output_voltage\": "
          ++ Nat.repr ((samples.map (·.output_voltage)).sum / 100)
          ++ ", \"output_power\": " ++ Nat.repr ((samples.map (·.output_power)).sum / 100)
          ++ " \x7d \x7d" := by
  have h := run_window st samples h0 hlen hwf
  rw [window_publishes_eq samples hlen hwf] at h
  exact ⟨_, _, _, _, h, rfl, rfl⟩

theorem window_report_carries_truncated_means_witness :
    (wind_turbine_statics.init.count = 0 ∧ (List.replicate 100 example_msg).length = 100 ∧
      ∀ m ∈ List.replicate 100 example_msg, m.wf) ∧
    ∃ st1 report config app,
      wind_turbine_run wind_turbine_statics.init (List.replicate 100 example_msg)
          = some (st1, List.replicate 99 [] ++ [[report, config, app]]) ∧
        report.cls = PublishClass.telemetry ∧
        report.data
          = "\x7b \"wind_turbine\": \x7b \"output_voltage\": 230, \"output_power\": 150 \x7d \x7d" := by
  have hwf : ∀ m ∈ List.replicate 100 example_msg, m.wf := by
    intro m hm
    rw [List.eq_of_mem_replicate hm]
    decide
  refine ⟨⟨rfl, List.length_replicate _ _, hwf⟩, ?_⟩
  obtain ⟨st1, report, config, app, h1, h2, h3⟩ :=
    window_report_carries_truncated_means wind_turbine_statics.init
      (List.replicate 100 example_msg) rfl (List.length_replicate _ _) hwf
  refine ⟨st1, report, config, app, h1, h2, ?_⟩
  have e1 : ((List.replicate 100 example_msg).map (·.output_voltage)).sum / 100 = 230 := by
    simp [example_msg]
  have e2 : ((List.replicate 100 example_msg).map (·.output_power)).sum / 100 = 150 := by
    simp [example_msg]
  rw [h3, e1, e2]
  decide

theorem average_eq_window_mean (a : Nat → Nat) (ha : ∀ i, i < 100 → a i < 2 ^ 16) :
    average a = window_mean a ∧ window_mean a < 2 ^ 16 := by
  have h := foldl_acc_eq a 100 (le_refl _) ha
  unfold average accumulate window_mean KAMEA_REAL_TIME_DATA_PERIOD
  rw [h.1]
  have := h.2
  exact ⟨rfl, by omega⟩

theorem store_lt (a : Nat → Nat) (c v : Nat) (ha : ∀ i, i < 100 → a i < 2 ^ 16) :
    ∀ i, i < 100 → store a c v i < 2 ^ 16 := by
  intro i hi
  unfold store
  split
  · exact Nat.mod_lt _ (by norm_num)
  · exact ha i hi

/-- C2: from an empty window, `n` observations all return, publish `n / 100`
`wind_turbine` reports in total, publish a batch holding exactly one `wind_turbine`
report on each observation whose index (counted from 1) is a multiple of 100 and
nothing on any other observation; after 99 observations nothing has been published. -/
theorem reports_every_hundredth_observation (st : wind_turbine_statics)
    (obs : List wind_turbine_status_msg) (h0 : st.count = 0) :
    ∃ st1 outs, wind_turbine_run st obs = some (st1, outs) ∧
      outs.length = obs.length ∧
      outs.flatten.countP is_wind_turbine_report = obs.length / 100 ∧
      (∀ k, k < obs.length →
        (100 ∣ k + 1 →
          ∃ o, outs[k]? = some o ∧ o.countP is_wind_turbine_report = 1 ∧ o.length = 3) ∧
        (¬ 100 ∣ k + 1 → outs[k]? = some [])) ∧
      (obs.length = 99 → outs.flatten = []) := by
  obtain ⟨st1, outs, hrun, _, hl, hk, hc⟩ := run_general obs st (by omega)
  refine ⟨st1, outs, hrun, hl, ?_, ?_, ?_⟩
  · rw [hc, h0, Nat.zero_add]
  · intro k hk1
    have := hk k hk1
    rw [h0, Nat.zero_add] at this
    exact this
  · intro h99
    obtain ⟨st2, h2⟩ := run_below_full obs st (by omega)
    rw [hrun] at h2
    injection h2 with h2
    injection h2 with _ h3
    rw [h3]
    exact flatten_replicate_nil _

theorem reports_every_hundredth_observation_witness :
    wind_turbine_statics.init.count = 0 ∧
    ∃ st1 outs, wind_turbine_run wind_turbine_statics.init (List.replicate 250 example_msg)
        = some (st1, outs) ∧
      outs.length = (List.replicate 250 example_msg).length ∧
      outs.flatten.countP is_wind_turbine_report
        = (List.replicate 250 example_msg).length / 100 ∧
      (∀ k, k < (List.replicate 250 example_msg).length →
        (100 ∣ k + 1 →
          ∃ o, outs[k]? = some o ∧ o.countP is_wind_turbine_report = 1 ∧ o.length = 3) ∧
        (¬ 100 ∣ k + 1 → outs[k]? = some [])) ∧
      ((List.replicate 250 example_msg).length = 99 → outs.flatten = []) :=
  ⟨rfl, reports_every_hundredth_observation wind_turbine_statics.init
    (List.replicate 250 example_msg) rfl⟩

/-- C3: from an empty window, 200 observations publish nothing except on observation
100, where the reports are those computed from samples 1..100 alone, and on observation
200, where the reports are those computed from the truncated means of samples 101..200
alone; the window is empty again afterwards. -/
theorem second_window_starts_fresh (st : wind_turbine_statics)
    (first second : List wind_turbine_status_msg) (h0 : st.count = 0)
    (hlen1 : first.length = 100) (hlen2 : second.length = 100)
    (hwf1 : ∀ m ∈ first, m.wf) (hwf2 : ∀ m ∈ second, m.wf) :
    ∃ st2, wind_turbine_run st (first ++ second)
        = some (st2, (List.replicate 99 [] ++ [window_publishes first])
            ++ (List.replicate 99 [] ++ [window_publishes second])) ∧
      st2.count = 0 ∧
      window_publishes second
        = wind_turbine_publishes ((second.map (·.wind_speed)).sum / 100)
            ((second.map (·.generator_rpm)).sum / 100)
            ((second.map (·.output_voltage)).sum / 100)
            ((second.map (·.output_power)).sum / 100) := by
  have h := run_append first second st
  rw [run_window st first h0 hlen1 hwf1] at h
  simp only at h
  rw [run_window _ second rfl hlen2 hwf2] at h
  exact ⟨_, h, rfl, rfl⟩

theorem second_window_starts_fresh_witness :
    (wind_turbine_statics.init.count = 0 ∧
      (List.replicate 100 example_msg).length = 100 ∧
      (List.replicate 100 (wind_turbine_status_msg.mk 1 2 3 4)).length = 100 ∧
      (∀ m ∈ List.replicate 100 example_msg, m.wf) ∧
      (∀ m ∈ List.replicate 100 (wind_turbine_status_msg.mk 1 2 3 4), m.wf)) ∧
    ∃ st2, wind_turbine_run wind_turbine_statics.init
          (List.replicate 100 example_msg ++ List.replicate 100 (wind_turbine_status_msg.mk 1 2 3 4))
        = some (st2, (List.replicate 99 [] ++ [window_publishes (List.replicate 100 example_msg)])
            ++ (List.replicate 99 []
              ++ [window_publishes (List.replicate 100 (wind_turbine_status_msg.mk 1 2 3 4))])) ∧
      st2.count = 0 ∧
      window_publishes (List.replicate 100 (wind_turbine_status_msg.mk 1 2 3 4))
        = wind_turbine_publishes
            (((List.replicate 100 (wind_turbine_status_msg.mk 1 2 3 4)).map (·.wind_speed)).sum / 100)
            (((List.replicate 100 (wind_turbine_status_msg.mk 1 2 3 4)).map
              (·.generator_rpm)).sum / 100)
            (((List.replicate 100 (wind_turbine_status_msg.mk 1 2 3 4)).map
              (·.output_voltage)).sum / 100)
            (((List.replicate 100 (wind_turbine_status_msg.mk 1 2 3 4)).map
              (·.output_power)).sum / 100) := by
  have hwf1 : ∀ m ∈ List.replicate 100 example_msg, m.wf := by
    intro m hm
    rw [List.eq_of_mem_replicate hm]
    decide
  have hwf2 : ∀ m ∈ List.replicate 100 (wind_turbine_status_msg.mk 1 2 3 4), m.wf := by
    intro m hm
    rw [List.eq_of_mem_replicate hm]
    decide
  exact ⟨⟨rfl, List.length_replicate _ _, List.length_replicate _ _, hwf1, hwf2⟩,
    second_window_starts_fresh wind_turbine_statics.init _ _ rfl
      (List.length_replicate _ _) (List.length_replicate _ _) hwf1 hwf2⟩

/-! ## The MQTT client -/

theorem l4_events_fields (events : List net_mgmt_event) : ∀ c : Client,
    (l4_events c events).kamea_mqtt_connected = c.kamea_mqtt_connected ∧
    (l4_events c events).kamea_callbacks = c.kamea_callbacks ∧
    (l4_events c events).kamea_client_id = c.kamea_client_id := by
  induction events with
  | nil => intro c; exact ⟨rfl, rfl, rfl⟩
  | cons e rest ih =>
    intro c
    have h := ih (kamea_mqtt_l4_event_handler c e)
    unfold l4_events at h ⊢
    rw [List.foldl_cons]
    cases e <;> exact h

theorem connected_loop_not_connected (c : Client) (steps : List PollStep)
    (h : c.kamea_mqtt_connected = false) : connected_loop c steps = some (c, []) := by
  cases steps <;> simp [connected_loop, h]

theorem connected_loop_network_down (c : Client) (steps : List PollStep)
    (h : c.kamea_mqtt_network_connected = false) : connected_loop c steps = some (c, []) := by
  cases steps <;> simp [connected_loop, h]

theorem publish_telemetry_gate (c : Client) (data : String) (len qos rand16 : Nat)
    (send : Int) (h : c.kamea_mqtt_connected = false) :
    (kamea_mqtt_publish_telemetry c data len qos rand16 send).1 = -1 ∧
      (kamea_mqtt_publish_telemetry c data len qos rand16 send).2 = (c, []) := by
  simp [kamea_mqtt_publish_telemetry, h]

/-- C4: when the client is not connected, `kamea_mqtt_publish_telemetry` returns -1,
leaves the client variables as they were and has no effect at all: `mqtt_publish` is
not called and the published callback is not invoked. -/
theorem publish_telemetry_not_connected (c : Client) (data : String) (len qos rand16 : Nat)
    (send : Int) (h : c.kamea_mqtt_connected = false) :
    kamea_mqtt_publish_telemetry c data len qos rand16 send = (-1, c, []) := by
  have g := publish_telemetry_gate c data len qos rand16 send h
  exact Prod.ext g.1 g.2

theorem publish_telemetry_not_connected_witness :
    example_client.kamea_mqtt_connected = false ∧
    kamea_mqtt_publish_telemetry example_client "payload" 7 1 4242 0
      = (-1, example_client, []) :=
  ⟨rfl, publish_telemetry_not_connected example_client "payload" 7 1 4242 0 rfl⟩

/-- C5, as stated, fails: in a cycle whose connect succeeds and whose connect
acknowledgement (result 0) is processed, the connected callback is invoked right after
`mqtt_connect` and before the `poll`; the handling of the acknowledgement has no effect
besides the flag, and the same cycle without any acknowledgement invokes the callback
all the same while the session stays disconnected. -/
theorem connected_callback_not_raised_by_connack :
    session_open example_cfg example_client example_env
      = some (example_connected_client,
          [Effect.mqtt_client_init, Effect.mqtt_connect 0, Effect.connected,
            Effect.poll 10000 1, Effect.mqtt_input], true) ∧
    kamea_mqtt_event_handler example_client example_connack []
      = some (example_connected_client, []) ∧
    session_open example_cfg example_client
        { example_env with poll1 := { result := 0, l4 := [], input := none } }
      = some (example_client,
          [Effect.mqtt_client_init, Effect.mqtt_connect 0, Effect.connected,
            Effect.poll 10000 0, Effect.mqtt_input], false) := by
  decide

/-- C5, amended: starting (disconnected or not) with the network reachable and a
connected callback registered, when `mqtt_connect` returns 0 and the following `mqtt_input`
processes a connect acknowledgement with result 0, control reaches the connected loop
with the connected flag set, and the connected callback has been invoked exactly once:
right after `mqtt_connect` returned, before the `poll` for the acknowledgement. The
processing of the acknowledgement itself only sets the flag. -/
theorem connected_after_connect_and_connack (cfg : Config) (c : Client) (env : CycleEnv)
    (evt : mqtt_evt) (reads : List Int)
    (hnet : c.kamea_mqtt_network_connected = true) (hcb : c.kamea_callbacks.connected = true)
    (hconn : env.connect_result = 0) (hpoll : 0 ≤ env.poll1.result)
    (hin : env.poll1.input = some (evt, reads))
    (hty : evt.type = mqtt_evt_type.MQTT_EVT_CONNACK) (hres : evt.result = 0) :
    ∃ c1 effects, session_open cfg c env = some (c1, effects, true) ∧
      c1.kamea_mqtt_connected = true ∧
      effects = [Effect.mqtt_client_init, Effect.mqtt_connect 0, Effect.connected,
        Effect.poll 10000 env.poll1.result, Effect.mqtt_input] ∧
      effects.count Effect.connected = 1 ∧
      kamea_mqtt_event_handler (l4_events (l4_events c env.connect_l4) env.poll1.l4) evt reads
        = some (c1, []) := by
  have hw : wait_network cfg c env.waits = some (c, []) := by
    cases env.waits <;> simp [wait_network, hnet]
  have hcb2 : (l4_events c env.connect_l4).kamea_callbacks.connected = true := by
    rw [(l4_events_fields env.connect_l4 c).2.1]
    exact hcb
  have hh : kamea_mqtt_event_handler (l4_events (l4_events c env.connect_l4) env.poll1.l4)
      evt reads
      = some ({ l4_events (l4_events c env.connect_l4) env.poll1.l4 with
          kamea_mqtt_connected := true }, []) := by
    simp [kamea_mqtt_event_handler, hty, hres]
  refine ⟨_, _, ?_, ?_, rfl, ?_, hh⟩
  · have hp : ¬ env.poll1.result < 0 := by omega
    simp [session_open, hw, hconn, hcb2, hp, hin, mqtt_input, hh]
  · rfl
  · have hne : Effect.poll 10000 env.poll1.result ≠ Effect.connected := by
      intro h
      cases h
    simp [List.count_cons, hne]

theorem connected_after_connect_and_connack_witness :
    (example_client.kamea_mqtt_connected = false ∧
      example_client.kamea_mqtt_network_connected = true ∧
      example_client.kamea_callbacks.connected = true ∧
      example_env.connect_result = 0 ∧ 0 ≤ example_env.poll1.result ∧
      example_env.poll1.input = some (example_connack, []) ∧
      example_connack.type = mqtt_evt_type.MQTT_EVT_CONNACK ∧ example_connack.result = 0) ∧
    ∃ c1 effects, session_open example_cfg example_client example_env
        = some (c1, effects, true) ∧
      c1.kamea_mqtt_connected = true ∧
      effects = [Effect.mqtt_client_init, Effect.mqtt_connect 0, Effect.connected,
        Effect.poll 10000 example_env.poll1.result, Effect.mqtt_input] ∧
      effects.count Effect.connected = 1 ∧
      kamea_mqtt_event_handler
          (l4_events (l4_events example_client example_env.connect_l4) example_env.poll1.l4)
          example_connack []
        = some (c1, []) :=
  ⟨by decide,
    connected_after_connect_and_connack example_cfg example_client example_env
      example_connack [] rfl rfl rfl (by decide) rfl rfl rfl⟩

/-- C6: for a connected session with a disconnected callback registered, when the next
`poll` of the connected loop returns a negative value (and `mqtt_abort` reports
`MQTT_EVT_DISCONNECT` to the event handler, as Zephyr does for an open transport), or
when the next `mqtt_input` delivers `MQTT_EVT_DISCONNECT`, the rest of the cycle
returns with the connected flag cleared, so that a later telemetry publish is rejected
with -1 and sends nothing; the disconnected callback is invoked exactly once, and the
only sleep of that part of the cycle comes right after it. -/
theorem disconnected_on_socket_error_or_disconnect (cfg : Config) (c : Client) (env : CycleEnv)
    (step : PollStep) (steps : List PollStep)
    (hconn : c.kamea_mqtt_connected = true) (hnet : c.kamea_mqtt_network_connected = true)
    (hcb : c.kamea_callbacks.disconnected = true) (hloop : env.loop = step :: steps)
    (h : (step.result < 0 ∧ env.abort_notifies = true) ∨
      (0 ≤ step.result ∧ ∃ evt reads, step.input = some (evt, reads) ∧
        evt.type = mqtt_evt_type.MQTT_EVT_DISCONNECT)) :
    ∃ c1 effects, session_connected cfg c env = some (c1, effects) ∧
      c1.kamea_mqtt_connected = false ∧
      (∀ data len qos rand16 send,
        kamea_mqtt_publish_telemetry c1 data len qos rand16 send = (-1, c1, [])) ∧
      effects = Effect.poll SYS_FOREVER_MS step.result ::
        ((if step.result < 0 then [] else [Effect.mqtt_input]) ++
          [Effect.mqtt_abort, Effect.disconnected,
            Effect.k_sleep cfg.CONFIG_KAMEA_MQTT_RECONNECT_INTERVAL]) ∧
      effects.count Effect.disconnected = 1 := by
  have hcb1 : (l4_events c step.l4).kamea_callbacks.disconnected = true := by
    rw [(l4_events_fields step.l4 c).2.1]
    exact hcb
  have key : ∃ c1, session_connected cfg c env = some (c1,
      Effect.poll SYS_FOREVER_MS step.result ::
        ((if step.result < 0 then [] else [Effect.mqtt_input]) ++
          [Effect.mqtt_abort, Effect.disconnected,
            Effect.k_sleep cfg.CONFIG_KAMEA_MQTT_RECONNECT_INTERVAL])) ∧
      c1.kamea_mqtt_connected = false := by
    rcases h with ⟨hneg, habort⟩ | ⟨hpos, evt, reads, hin, hty⟩
    · refine ⟨l4_events { l4_events c step.l4 with kamea_mqtt_connected := false } env.sleep_l4,
        ?_, ?_⟩
      · simp [session_connected, hloop, connected_loop, hconn, hnet, hneg, session_end, habort,
          kamea_mqtt_event_handler, hcb1]
      · rw [(l4_events_fields env.sleep_l4 _).1]
    · have hp : ¬ step.result < 0 := by omega
      have hloop2 : connected_loop { l4_events c step.l4 with kamea_mqtt_connected := false }
          steps = some ({ l4_events c step.l4 with kamea_mqtt_connected := false }, []) :=
        connected_loop_not_connected _ _ rfl
      refine ⟨l4_events { l4_events c step.l4 with kamea_mqtt_connected := false } env.sleep_l4,
        ?_, ?_⟩
      · cases hab : env.abort_notifies <;>
          simp [session_connected, hloop, connected_loop, hconn, hnet, hp, hin, mqtt_input,
            kamea_mqtt_event_handler, hty, hloop2, session_end, hab, hcb1]
      · rw [(l4_events_fields env.sleep_l4 _).1]
  obtain ⟨c1, hrun, hflag⟩ := key
  refine ⟨c1, _, hrun, hflag, ?_, rfl, ?_⟩
  · intro data len qos rand16 send
    have g := publish_telemetry_gate c1 data len qos rand16 send hflag
    exact Prod.ext g.1 g.2
  · have hne : Effect.poll SYS_FOREVER_MS step.result ≠ Effect.disconnected := by
      intro h
      cases h
    by_cases hr : step.result < 0 <;> simp [List.count_cons, hne, hr]

theorem disconnected_on_socket_error_or_disconnect_witness :
    (example_connected_client.kamea_mqtt_connected = true ∧
      example_connected_client.kamea_mqtt_network_connected = true ∧
      example_connected_client.kamea_callbacks.disconnected = true ∧
      example_env.loop = { result := -1, l4 := [], input := none } :: [] ∧
      (((-1 : Int) < 0 ∧ example_env.abort_notifies = true) ∨
        ((0 : Int) ≤ -1 ∧ ∃ evt reads, (none : Option (mqtt_evt × List Int)) = some (evt, reads) ∧
          evt.type = mqtt_evt_type.MQTT_EVT_DISCONNECT))) ∧
    ∃ c1 effects, session_connected example_cfg example_connected_client example_env
        = some (c1, effects) ∧
      c1.kamea_mqtt_connected = false ∧
      (∀ data len qos rand16 send,
        kamea_mqtt_publish_telemetry c1 data len qos rand16 send = (-1, c1, [])) ∧
      effects = Effect.poll SYS_FOREVER_MS (-1) ::
        ((if (-1 : Int) < 0 then [] else [Effect.mqtt_input]) ++
          [Effect.mqtt_abort, Effect.disconnected,
            Effect.k_sleep example_cfg.CONFIG_KAMEA_MQTT_RECONNECT_INTERVAL]) ∧
      effects.count Effect.disconnected = 1 :=
  ⟨⟨rfl, rfl, rfl, rfl, Or.inl ⟨by decide, rfl⟩⟩,
    disconnected_on_socket_error_or_disconnect example_cfg example_connected_client example_env
      { result := -1, l4 := [], input := none } [] rfl rfl rfl rfl
      (Or.inl ⟨by decide, rfl⟩)⟩

/-- C7, as stated, fails: a connected client that handles `NET_EVENT_L4_DISCONNECTED`
still has its connected flag set, and a telemetry publish made right after still calls
`mqtt_publish` and returns its result instead of -1. -/
theorem link_loss_leaves_connected_flag :
    (kamea_mqtt_l4_event_handler example_connected_client
        net_mgmt_event.NET_EVENT_L4_DISCONNECTED).kamea_mqtt_connected = true ∧
    kamea_mqtt_publish_telemetry
        (kamea_mqtt_l4_event_handler example_connected_client
          net_mgmt_event.NET_EVENT_L4_DISCONNECTED) "payload" 7 1 4242 0
      = (0, { example_connected_client with kamea_mqtt_network_connected := false },
          [Effect.mqtt_publish "device/wind_turbine_stm32f746g_disco/telemetries" "payload" 7 1
              4242 0,
            Effect.published 4242 0]) := by
  decide

/-- C7, amended: right after `kamea_mqtt_l4_event_handler` handles
`NET_EVENT_L4_DISCONNECTED` the network flag is false and the connected flag is
unchanged, so a telemetry publish returns -1 without effect exactly when the session was
already not connected. The session thread leaves its connected loop at the next test of
the flags without another `poll`, and the code at `END` (with `mqtt_abort` reporting
`MQTT_EVT_DISCONNECT`) then clears the connected flag. -/
theorem link_loss_clears_network_flag (cfg : Config) (c : Client) (env : CycleEnv) :
    (kamea_mqtt_l4_event_handler c
        net_mgmt_event.NET_EVENT_L4_DISCONNECTED).kamea_mqtt_network_connected = false ∧
    (kamea_mqtt_l4_event_handler c
        net_mgmt_event.NET_EVENT_L4_DISCONNECTED).kamea_mqtt_connected = c.kamea_mqtt_connected ∧
    (∀ data len qos rand16 send,
      kamea_mqtt_publish_telemetry
          (kamea_mqtt_l4_event_handler c net_mgmt_event.NET_EVENT_L4_DISCONNECTED)
          data len qos rand16 send
        = (-1, kamea_mqtt_l4_event_handler c net_mgmt_event.NET_EVENT_L4_DISCONNECTED, [])
      ↔ c.kamea_mqtt_connected = false) ∧
    connected_loop (kamea_mqtt_l4_event_handler c net_mgmt_event.NET_EVENT_L4_DISCONNECTED)
        env.loop
      = some (kamea_mqtt_l4_event_handler c net_mgmt_event.NET_EVENT_L4_DISCONNECTED, []) ∧
    (env.abort_notifies = true →
      ∃ c1,
        session_connected cfg
            (kamea_mqtt_l4_event_handler c net_mgmt_event.NET_EVENT_L4_DISCONNECTED) env
          = some (c1, Effect.mqtt_abort ::
              ((if c.kamea_callbacks.disconnected = true then [Effect.disconnected] else []) ++
                [Effect.k_sleep cfg.CONFIG_KAMEA_MQTT_RECONNECT_INTERVAL])) ∧
        c1.kamea_mqtt_connected = false) := by
  refine ⟨rfl, rfl, ?_, connected_loop_network_down _ _ rfl, ?_⟩
  · intro data len qos rand16 send
    cases hc : c.kamea_mqtt_connected <;>
      simp [kamea_mqtt_publish_telemetry, kamea_mqtt_l4_event_handler, hc]
  · intro habort
    refine ⟨l4_events { kamea_mqtt_l4_event_handler c net_mgmt_event.NET_EVENT_L4_DISCONNECTED
        with kamea_mqtt_connected := false } env.sleep_l4, ?_, ?_⟩
    · simp only [session_connected, connected_loop_network_down (kamea_mqtt_l4_event_handler c
        net_mgmt_event.NET_EVENT_L4_DISCONNECTED) env.loop rfl, session_end, habort,
        kamea_mqtt_event_handler, if_true, List.nil_append, List.cons_append]
      rfl
    · rw [(l4_events_fields env.sleep_l4 _).1]

theorem link_loss_clears_network_flag_witness :
    example_env.abort_notifies = true ∧
    ∃ c1,
      session_connected example_cfg
          (kamea_mqtt_l4_event_handler example_connected_client
            net_mgmt_event.NET_EVENT_L4_DISCONNECTED) example_env
        = some (c1, Effect.mqtt_abort ::
            ((if example_connected_client.kamea_callbacks.disconnected = true
                then [Effect.disconnected] else []) ++
              [Effect.k_sleep example_cfg.CONFIG_KAMEA_MQTT_RECONNECT_INTERVAL])) ∧
      c1.kamea_mqtt_connected = false :=
  ⟨rfl, (link_loss_clears_network_flag example_cfg example_connected_client example_env).2.2.2.2
    rfl⟩

/-! ## The reports of a full window -/

theorem topic_not_truncated (id suffix : String) (hid : id.length ≤ 31)
    (hs : suffix.length ≤ 12) :
    snprintf 64 ("device/" ++ id ++ suffix) = "device/" ++ id ++ suffix := by
  apply snprintf_of_lt
  simp only [String.length_append]
  have e : "device/".length = 7 := by decide
  omega

/-- C8: an observation that brings the window to capacity (count 99 at entry) makes
exactly three publish calls, in this order: the `wind_turbine` averages through the
telemetry publish, the static config text through the config publish, the app summary
through the telemetry publish, each with QoS 1; any other observation makes no publish
call. On a connected client whose identifier fits its buffer, routing such a call to its
publish function sends it with QoS 1 to `device/<client-id>/telemetries` for the
telemetry class and `device/<client-id>/configs` for the config class. -/
theorem three_reports_when_window_full (st : wind_turbine_statics)
    (msg : wind_turbine_status_msg) (h : st.count < 100) :
    ∃ st1 outs, kamea_wind_turbine_status_cb st msg = some (st1, outs) ∧
      outs = (if st.count + 1 = 100 then
          [ { cls := PublishClass.telemetry,
              data := wind_turbine_payload (average st1.output_voltage)
                (average st1.output_power),
              len := strlen (wind_turbine_payload (average st1.output_voltage)
                (average st1.output_power)),
              qos := 1 },
            { cls := PublishClass.configs,
              data := "\x7b \"turnedOn\": true, \"isProduction\": true, \"limiter\": 30 \x7d",
              len := 57,
              qos := 1 },
            { cls := PublishClass.telemetry,
              data := app_payload (average st1.output_power) (average st1.generator_rpm)
                (average st1.wind_speed),
              len := strlen (app_payload (average st1.output_power) (average st1.generator_rpm)
                (average st1.wind_speed)),
              qos := 1 } ]
        else []) ∧
      ∀ (c : Client) (rand16 : Nat) (send : Int), c.kamea_mqtt_connected = true →
        c.kamea_client_id.length ≤ 31 → ∀ call ∈ outs,
          publish c call rand16 send
            = (send, c,
                Effect.mqtt_publish
                  (match call.cls with
                    | PublishClass.telemetry => "device/" ++ c.kamea_client_id ++ "/telemetries"
                    | PublishClass.configs => "device/" ++ c.kamea_client_id ++ "/configs")
                  call.data call.len 1 (rand16 % 2 ^ 16) send ::
                  (if c.kamea_callbacks.published = true
                    then [Effect.published (rand16 % 2 ^ 16) send] else [])) := by
  have route : ∀ (c : Client) (rand16 : Nat) (send : Int), c.kamea_mqtt_connected = true →
      c.kamea_client_id.length ≤ 31 → ∀ call : PublishCall, call.qos = 1 →
        publish c call rand16 send
          = (send, c,
              Effect.mqtt_publish
                (match call.cls with
                  | PublishClass.telemetry => "device/" ++ c.kamea_client_id ++ "/telemetries"
                  | PublishClass.configs => "device/" ++ c.kamea_client_id ++ "/configs")
                call.data call.len 1 (rand16 % 2 ^ 16) send ::
                  (if c.kamea_callbacks.published = true
                    then [Effect.published (rand16 % 2 ^ 16) send] else [])) := by
    intro c rand16 send hc hid call hq
    obtain ⟨cls, data, len, qos⟩ := call
    simp only at hq
    subst hq
    cases cls
    · simp only [publish, kamea_mqtt_publish_telemetry, hc, Bool.true_eq_false, if_false,
        topic_not_truncated c.kamea_client_id "/telemetries" hid (by decide)]
    · simp only [publish, kamea_mqtt_publish_configs, hc, Bool.true_eq_false, if_false,
        topic_not_truncated c.kamea_client_id "/configs" hid (by decide)]
  by_cases hfull : st.count + 1 = 100
  · refine ⟨_, _, cb_step_full st msg hfull, ?_, ?_⟩
    · rw [if_pos hfull]
      unfold wind_turbine_publishes
      rw [config_payload_eq]
      rfl
    · intro c rand16 send hc hid call hcall
      apply route c rand16 send hc hid call
      unfold wind_turbine_publishes at hcall
      simp only [List.mem_cons, List.mem_singleton, List.not_mem_nil, or_false] at hcall
      rcases hcall with rfl | rfl | rfl <;> rfl
  · refine ⟨_, _, cb_step_lt st msg (by omega), ?_, ?_⟩
    · rw [if_neg hfull]
    · intro c rand16 send _ _ call hcall
      simp at hcall

theorem three_reports_when_window_full_witness :
    example_full_window.count < 100 ∧
    ∃ st1 outs, kamea_wind_turbine_status_cb example_full_window example_msg = some (st1, outs) ∧
      outs = (if example_full_window.count + 1 = 100 then
          [ { cls := PublishClass.telemetry,
              data := wind_turbine_payload (average st1.output_voltage)
                (average st1.output_power),
              len := strlen (wind_turbine_payload (average st1.output_voltage)
                (average st1.output_power)),
              qos := 1 },
            { cls := PublishClass.configs,
              data := "\x7b \"turnedOn\": true, \"isProduction\": true, \"limiter\": 30 \x7d",
              len := 57,
              qos := 1 },
            { cls := PublishClass.telemetry,
              data := app_payload (average st1.output_power) (average st1.generator_rpm)
                (average st1.wind_speed),
              len := strlen (app_payload (average st1.output_power) (average st1.generator_rpm)
                (average st1.wind_speed)),
              qos := 1 } ]
        else []) ∧
      ∀ (c : Client) (rand16 : Nat) (send : Int), c.kamea_mqtt_connected = true →
        c.kamea_client_id.length ≤ 31 → ∀ call ∈ outs,
          publish c call rand16 send
            = (send, c,
                Effect.mqtt_publish
                  (match call.cls with
                    | PublishClass.telemetry => "device/" ++ c.kamea_client_id ++ "/telemetries"
                    | PublishClass.configs => "device/" ++ c.kamea_client_id ++ "/configs")
                  call.data call.len 1 (rand16 % 2 ^ 16) send ::
                  (if c.kamea_callbacks.published = true
                    then [Effect.published (rand16 % 2 ^ 16) send] else [])) :=
  ⟨by decide, three_reports_when_window_full example_full_window example_msg (by decide)⟩

set_option maxRecDepth 100000 in
/-- C9, as stated, fails: for the window whose 100 samples all have `output_voltage` 230
and `output_power` 150, the published text has a space after each opening brace, after
the colon of `wind_turbine` and before each closing brace, so it is not the text of the
specification, and the published length 66 is not the length 61 of that text. -/
theorem wind_turbine_text_differs_from_spec :
    (kamea_wind_turbine_status_cb example_full_window example_msg).map (fun r => r.2.head?)
      = some (some
          { cls := PublishClass.telemetry,
            data := "\x7b \"wind_turbine\": \x7b \"output_voltage\": 230, \"output_power\": 150 \x7d \x7d",
            len := 66,
            qos := 1 }) ∧
    "\x7b \"wind_turbine\": \x7b \"output_voltage\": 230, \"output_power\": 150 \x7d \x7d"
      ≠ spec_wind_turbine_text 230 150 ∧
    (spec_wind_turbine_text 230 150).length = 61 := by
  decide

/-- C9, amended: when an observation fills the window (count 99 at entry, cells within
16 bits), the first publish call is a telemetry publish whose text is
`{ "wind_turbine": { "output_voltage": V, "output_power": P } }`, with `V` and `P` the
truncated means of the 100 `output_voltage` and `output_power` cells of the window in
decimal, and the published length is the length of that text. -/
theorem wind_turbine_text_of_full_window (st : wind_turbine_statics)
    (msg : wind_turbine_status_msg) (hc : st.count = 99)
    (hv : ∀ i, i < 100 → st.output_voltage i < 2 ^ 16)
    (hp : ∀ i, i < 100 → st.output_power i < 2 ^ 16) :
    ∃ st1 report config app,
      kamea_wind_turbine_status_cb st msg = some (st1, [report, config, app]) ∧
      report.cls = PublishClass.telemetry ∧
      report.data = "\x7b \"wind_turbine\": \x7b \"output_voltage\": "
        ++ Nat.repr (window_mean st1.output_voltage)
        ++ ", \"output_power\": " ++ Nat.repr (window_mean st1.output_power) ++ " \x7d \x7d" ∧
      report.len = report.data.length := by
  have a1 := average_eq_window_mean _ (store_lt st.output_voltage st.count msg.output_voltage hv)
  have a2 := average_eq_window_mean _ (store_lt st.output_power st.count msg.output_power hp)
  have h := cb_step_full st msg (by omega)
  unfold wind_turbine_publishes at h
  refine ⟨_, _, _, _, h, rfl, ?_, ?_⟩
  · simp only
    rw [a1.1, a2.1]
    exact wind_turbine_payload_eq _ _ a1.2 a2.2
  · rfl

theorem wind_turbine_text_of_full_window_witness :
    (example_full_window.count = 99 ∧
      (∀ i, i < 100 → example_full_window.output_voltage i < 2 ^ 16) ∧
      (∀ i, i < 100 → example_full_window.output_power i < 2 ^ 16)) ∧
    ∃ st1 report config app,
      kamea_wind_turbine_status_cb example_full_window example_msg
        = some (st1, [report, config, app]) ∧
      report.cls = PublishClass.telemetry ∧
      report.data = "\x7b \"wind_turbine\": \x7b \"output_voltage\": "
        ++ Nat.repr (window_mean st1.output_voltage)
        ++ ", \"output_power\": " ++ Nat.repr (window_mean st1.output_power) ++ " \x7d \x7d" ∧
      report.len = report.data.length :=
  ⟨⟨rfl, fun _ _ => (by decide : (230 : Nat) < 2 ^ 16),
      fun _ _ => (by decide : (150 : Nat) < 2 ^ 16)⟩,
    wind_turbine_text_of_full_window example_full_window example_msg rfl
      (fun _ _ => (by decide : (230 : Nat) < 2 ^ 16))
      (fun _ _ => (by decide : (150 : Nat) < 2 ^ 16))⟩

set_option maxRecDepth 100000 in
/-- C10, as stated, fails: for the window whose 100 samples all have `output_power` 150,
`generator_rpm` 20 and `wind_speed` 10, the published app summary has a space after the
opening brace and before the closing brace, so it is not the text of the
specification. -/
theorem app_text_differs_from_spec :
    (kamea_wind_turbine_status_cb example_full_window example_msg).map (fun r => r.2.getLast?)
      = some (some
          { cls := PublishClass.telemetry,
            data := "\x7b \"energyProduction\": 150, \"generator\": 20, \"windSpeed\": 10 \x7d",
            len := 61,
            qos := 1 }) ∧
    "\x7b \"energyProduction\": 150, \"generator\": 20, \"windSpeed\": 10 \x7d"
      ≠ spec_app_text 150 20 10 := by
  decide

/-- C10, amended: when an observation fills the window (count 99 at entry, cells within
16 bits), the third publish call is a telemetry publish whose text is
`{ "energyProduction": P, "generator": G, "windSpeed": W }`, where `P`, `G` and `W` are
the truncated means of the 100 `output_power`, `generator_rpm` and `wind_speed` cells of
the window, in decimal. -/
theorem app_text_of_full_window (st : wind_turbine_statics)
    (msg : wind_turbine_status_msg) (hc : st.count = 99)
    (hw : ∀ i, i < 100 → st.wind_speed i < 2 ^ 16)
    (hg : ∀ i, i < 100 → st.generator_rpm i < 2 ^ 16)
    (hp : ∀ i, i < 100 → st.output_power i < 2 ^ 16) :
    ∃ st1 report config app,
      kamea_wind_turbine_status_cb st msg = some (st1, [report, config, app]) ∧
      app.cls = PublishClass.telemetry ∧
      app.data = "\x7b \"energyProduction\": " ++ Nat.repr (window_mean st1.output_power)
        ++ ", \"generator\": " ++ Nat.repr (window_mean st1.generator_rpm)
        ++ ", \"windSpeed\": " ++ Nat.repr (window_mean st1.wind_speed) ++ " \x7d" ∧
      app.len = app.data.length := by
  have a1 := average_eq_window_mean _ (store_lt st.wind_speed st.count msg.wind_speed hw)
  have a2 := average_eq_window_mean _ (store_lt st.generator_rpm st.count msg.generator_rpm hg)
  have a3 := average_eq_window_mean _ (store_lt st.output_power st.count msg.output_power hp)
  have h := cb_step_full st msg (by omega)
  unfold wind_turbine_publishes at h
  refine ⟨_, _, _, _, h, rfl, ?_, ?_⟩
  · simp only
    rw [a1.1, a2.1, a3.1]
    exact app_payload_eq _ _ _ a3.2 a2.2 a1.2
  · rfl

theorem app_text_of_full_window_witness :
    (example_full_window.count = 99 ∧
      (∀ i, i < 100 → example_full_window.wind_speed i < 2 ^ 16) ∧
      (∀ i, i < 100 → example_full_window.generator_rpm i < 2 ^ 16) ∧
      (∀ i, i < 100 → example_full_window.output_power i < 2 ^ 16)) ∧
    ∃ st1 report config app,
      kamea_wind_turbine_status_cb example_full_window example_msg
        = some (st1, [report, config, app]) ∧
      app.cls = PublishClass.telemetry ∧
      app.data = "\x7b \"energyProduction\": " ++ Nat.repr (window_mean st1.output_power)
        ++ ", \"generator\": " ++ Nat.repr (window_mean st1.generator_rpm)
        ++ ", \"windSpeed\": " ++ Nat.repr (window_mean st1.wind_speed) ++ " \x7d" ∧
      app.len = app.data.length :=
  ⟨⟨rfl, fun _ _ => (by decide : (10 : Nat) < 2 ^ 16),
      fun _ _ => (by decide : (20 : Nat) < 2 ^ 16),
      fun _ _ => (by decide : (150 : Nat) < 2 ^ 16)⟩,
    app_text_of_full_window example_full_window example_msg rfl
      (fun _ _ => (by decide : (10 : Nat) < 2 ^ 16))
      (fun _ _ => (by decide : (20 : Nat) < 2 ^ 16))
      (fun _ _ => (by decide : (150 : Nat) < 2 ^ 16))⟩

/-! ## The button alert -/

/-- C11, as stated, fails: for the pressed top button the published text has a space
after each opening brace, after the colon of `alert` and before each closing brace, so
it is not the text of the specification. -/
theorem alert_text_differs_from_spec :
    kamea_buttons_status_cb example_button
      = [ { cls := PublishClass.telemetry,
            data := "\x7b \"alert\": \x7b \"name\": \"Wind Turbine Top Button\", \"state\": 1 \x7d \x7d",
            len := 62,
            qos := 1 } ] ∧
    "\x7b \"alert\": \x7b \"name\": \"Wind Turbine Top Button\", \"state\": 1 \x7d \x7d"
      ≠ spec_alert_text "Wind Turbine Top Button" 1 := by
  decide

theorem utf8Size_of_ascii (ch : Char) (h : ch.toNat < 128) : ch.utf8Size = 1 := by
  have h2 : ch.val.toNat < 128 := h
  have h3 : ch.val ≤ 127 := by
    show ch.val.toNat ≤ 127
    omega
  simp [Char.utf8Size, h3]

theorem utf8ByteSize_of_ascii (s : String) (h : ∀ ch ∈ s.data, ch.toNat < 128) :
    s.utf8ByteSize = s.length := by
  have hgo : ∀ l : List Char, (∀ ch ∈ l, ch.toNat < 128) →
      String.utf8ByteSize.go l = l.length := by
    intro l
    induction l with
    | nil => intro _; rfl
    | cons a l ih =>
      intro hl
      rw [String.utf8ByteSize.go, ih (fun ch hch => hl ch (List.mem_cons_of_mem _ hch)),
        utf8Size_of_ascii a (hl a (List.mem_cons_self _ _))]
      rfl
  exact hgo s.data h

theorem json_string_plain (s : String) (h : ∀ ch ∈ s.data, json_escape ch = [ch]) :
    json_string s = "\"" ++ s ++ "\"" := by
  have hflat : ∀ l : List Char, (∀ ch ∈ l, json_escape ch = [ch]) →
      (l.map json_escape).flatten = l := by
    intro l
    induction l with
    | nil => intro _; rfl
    | cons a l ih =>
      intro hl
      rw [List.map_cons, List.flatten_cons, hl a (List.mem_cons_self _ _),
        ih (fun ch hch => hl ch (List.mem_cons_of_mem _ hch))]
      rfl
  apply String.ext
  simp only [json_string, String.data_append, hflat s.data h]
  rfl

/-- C11, amended: for every button status whose name is ASCII text of at most 88
characters, none of which needs an escape in a JSON string, the callback makes exactly one
publish call, whatever was observed before: a telemetry publish with QoS 1 whose text is
`{ "alert": { "name": <name as a JSON string>, "state": s } }`, `s` being 1 when the
state is true and 0 otherwise, and whose length is the length of that text, in
characters and in bytes alike. -/
theorem alert_published_at_once (msg : button_status_msg)
    (hascii : ∀ ch ∈ msg.name.data, ch.toNat < 128) (hname : msg.name.length ≤ 88)
    (hplain : ∀ ch ∈ msg.name.data, json_escape ch = [ch]) :
    ∃ call, kamea_buttons_status_cb msg = [call] ∧
      call.cls = PublishClass.telemetry ∧ call.qos = 1 ∧
      call.data = "\x7b \"alert\": \x7b \"name\": " ++ json_string msg.name ++ ", \"state\": "
        ++ (if msg.state = true then "1" else "0") ++ " \x7d \x7d" ∧
      call.len = call.data.length ∧
      call.len = call.data.utf8ByteSize := by
  have e : fmt_d (if msg.state = true then 1 else 0)
      = (if msg.state = true then "1" else "0") := by
    cases msg.state <;> decide
  have full : alert_payload msg.name msg.state
      = "\x7b \"alert\": \x7b \"name\": \"" ++ msg.name ++ "\", \"state\": "
        ++ (if msg.state = true then "1" else "0") ++ " \x7d \x7d" := by
    unfold alert_payload
    rw [e]
    apply snprintf_of_lt
    simp only [String.length_append]
    have e1 : "\x7b \"alert\": \x7b \"name\": \"".length = 22 := by decide
    have e2 : "\", \"state\": ".length = 12 := by decide
    have e3 : " \x7d \x7d".length = 4 := by decide
    have e4 : (if msg.state = true then "1" else "0").length = 1 := by
      cases msg.state <;> decide
    omega
  have hbytes : (alert_payload msg.name msg.state).utf8ByteSize
      = (alert_payload msg.name msg.state).length := by
    apply utf8ByteSize_of_ascii
    rw [full]
    intro ch hch
    simp only [String.data_append, List.mem_append] at hch
    have l1 : ∀ x ∈ "\x7b \"alert\": \x7b \"name\": \"".data, x.toNat < 128 := by decide
    have l2 : ∀ x ∈ "\", \"state\": ".data, x.toNat < 128 := by decide
    have l3 : ∀ x ∈ (if msg.state = true then "1" else "0").data, x.toNat < 128 := by
      cases msg.state <;> decide
    have l4 : ∀ x ∈ " \x7d \x7d".data, x.toNat < 128 := by decide
    rcases hch with (((hch | hch) | hch) | hch) | hch
    · exact l1 ch hch
    · exact hascii ch hch
    · exact l2 ch hch
    · exact l3 ch hch
    · exact l4 ch hch
  refine ⟨_, rfl, rfl, rfl, ?_, rfl, ?_⟩
  · show alert_payload msg.name msg.state = _
    rw [full, json_string_plain msg.name hplain]
    apply String.ext
    simp only [String.data_append, List.append_assoc]
    rfl
  · show strlen (alert_payload msg.name msg.state) = _
    rw [hbytes]
    rfl

theorem alert_published_at_once_witness :
    ((∀ ch ∈ example_button.name.data, ch.toNat < 128) ∧
      example_button.name.length ≤ 88 ∧
      ∀ ch ∈ example_button.name.data, json_escape ch = [ch]) ∧
    ∃ call, kamea_buttons_status_cb example_button = [call] ∧
      call.cls = PublishClass.telemetry ∧ call.qos = 1 ∧
      call.data = "\x7b \"alert\": \x7b \"name\": " ++ json_string example_button.name
        ++ ", \"state\": " ++ (if example_button.state = true then "1" else "0")
        ++ " \x7d \x7d" ∧
      call.len = call.data.length ∧
      call.len = call.data.utf8ByteSize :=
  ⟨⟨by decide, by decide, by decide⟩,
    alert_published_at_once example_button (by decide) (by decide) (by decide)⟩

/-! ## Initialization and the client identifier -/

theorem init_client_id (c : Client) (client_id : String) (callbacks : kamea_mqtt_callbacks_t)
    (r1 r2 r3 : Int) :
    (kamea_mqtt_init c client_id callbacks r1 r2 r3).2.1.kamea_client_id
      = String.mk (client_id.data.take 31) := by
  unfold kamea_mqtt_init
  simp only
  split_ifs <;> rfl

/-- C16: `kamea_mqtt_init` returns 0 exactly when the three registrations return 0. When
the device certificate, the device private key or the server CA certificate (tried in
that order) is the first to fail, the function returns its non-zero code, no later
registration is attempted and the stored callbacks are unchanged; when all three
succeed the callbacks given are stored. -/
theorem init_returns_first_failure (c : Client) (client_id : String)
    (callbacks : kamea_mqtt_callbacks_t) (r1 r2 r3 : Int) :
    ((kamea_mqtt_init c client_id callbacks r1 r2 r3).1 = 0 ↔ r1 = 0 ∧ r2 = 0 ∧ r3 = 0) ∧
    (r1 ≠ 0 →
      (kamea_mqtt_init c client_id callbacks r1 r2 r3).1 = r1 ∧
      (kamea_mqtt_init c client_id callbacks r1 r2 r3).2.2.map (·.type)
        = [tls_credential_type.TLS_CREDENTIAL_PUBLIC_CERTIFICATE] ∧
      (kamea_mqtt_init c client_id callbacks r1 r2 r3).2.1.kamea_callbacks
        = c.kamea_callbacks) ∧
    (r1 = 0 → r2 ≠ 0 →
      (kamea_mqtt_init c client_id callbacks r1 r2 r3).1 = r2 ∧
      (kamea_mqtt_init c client_id callbacks r1 r2 r3).2.2.map (·.type)
        = [tls_credential_type.TLS_CREDENTIAL_PUBLIC_CERTIFICATE,
            tls_credential_type.TLS_CREDENTIAL_PRIVATE_KEY] ∧
      (kamea_mqtt_init c client_id callbacks r1 r2 r3).2.1.kamea_callbacks
        = c.kamea_callbacks) ∧
    (r1 = 0 → r2 = 0 → r3 ≠ 0 →
      (kamea_mqtt_init c client_id callbacks r1 r2 r3).1 = r3 ∧
      (kamea_mqtt_init c client_id callbacks r1 r2 r3).2.2.map (·.type)
        = [tls_credential_type.TLS_CREDENTIAL_PUBLIC_CERTIFICATE,
            tls_credential_type.TLS_CREDENTIAL_PRIVATE_KEY,
            tls_credential_type.TLS_CREDENTIAL_CA_CERTIFICATE] ∧
      (kamea_mqtt_init c client_id callbacks r1 r2 r3).2.1.kamea_callbacks
        = c.kamea_callbacks) ∧
    (r1 = 0 → r2 = 0 → r3 = 0 →
      (kamea_mqtt_init c client_id callbacks r1 r2 r3).2.2.map (·.type)
        = [tls_credential_type.TLS_CREDENTIAL_PUBLIC_CERTIFICATE,
            tls_credential_type.TLS_CREDENTIAL_PRIVATE_KEY,
            tls_credential_type.TLS_CREDENTIAL_CA_CERTIFICATE] ∧
      (kamea_mqtt_init c client_id callbacks r1 r2 r3).2.1.kamea_callbacks = callbacks) := by
  refine ⟨?_, ?_, ?_, ?_, ?_⟩
  · unfold kamea_mqtt_init
    simp only
    split_ifs with h1 h2 h3
    · simp [h1]
    · simp [h2]
    · simp [h3]
    · simp only [ne_eq, not_not] at h1 h2 h3
      simp [h1, h2, h3]
  · intro h1
    simp [kamea_mqtt_init, h1]
  · intro h1 h2
    simp [kamea_mqtt_init, h1, h2]
  · intro h1 h2 h3
    simp [kamea_mqtt_init, h1, h2, h3]
  · intro h1 h2 h3
    simp [kamea_mqtt_init, h1, h2, h3]

theorem init_returns_first_failure_witness :
    ((0 : Int) = 0 ∧ (-22 : Int) ≠ 0) ∧
    (kamea_mqtt_init example_blank_client "wind_turbine_stm32f746g_disco" example_callbacks
        0 (-22) 0).1 = -22 ∧
    (kamea_mqtt_init example_blank_client "wind_turbine_stm32f746g_disco" example_callbacks
        0 (-22) 0).2.2.map (·.type)
      = [tls_credential_type.TLS_CREDENTIAL_PUBLIC_CERTIFICATE,
          tls_credential_type.TLS_CREDENTIAL_PRIVATE_KEY] ∧
    (kamea_mqtt_init example_blank_client "wind_turbine_stm32f746g_disco" example_callbacks
        0 (-22) 0).2.1.kamea_callbacks = example_blank_client.kamea_callbacks :=
  ⟨by decide,
    (init_returns_first_failure example_blank_client "wind_turbine_stm32f746g_disco"
      example_callbacks 0 (-22) 0).2.2.1 rfl (by decide)⟩

/-- C13, as stated, fails: after `kamea_mqtt_init` with an identifier of 44 characters,
a telemetry publish made while connected uses a topic built from the first 31
characters of the identifier, which is not the topic of the identifier given. -/
theorem topic_uses_truncated_client_id :
    kamea_mqtt_publish_telemetry
        { (kamea_mqtt_init example_blank_client example_long_client_id example_callbacks
            0 0 0).2.1 with kamea_mqtt_connected := true }
        "payload" 7 1 4242 0
      = (0,
          { kamea_client_id := "wind_turbine_stm32f746g_disco_b",
            kamea_mqtt_connected := true,
            kamea_mqtt_network_connected := false,
            kamea_callbacks := example_callbacks },
          [Effect.mqtt_publish "device/wind_turbine_stm32f746g_disco_b/telemetries" "payload" 7 1
              4242 0,
            Effect.published 4242 0]) ∧
    "device/wind_turbine_stm32f746g_disco_b/telemetries"
      ≠ "device/" ++ example_long_client_id ++ "/telemetries" := by
  decide

/-- C13, amended: for every client identifier that is ASCII text, `kamea_mqtt_init`
stores its first 31 bytes, which is the whole identifier when it has at most 31: the
stored text is a prefix of the identifier and its size in bytes is the smaller of 31 and
the size of the identifier. Every telemetry publish made while connected with that
stored identifier calls `mqtt_publish` with the topic
`device/<stored identifier>/telemetries` in full and with the payload, length and QoS
given by the caller. -/
theorem topic_of_stored_client_id (c : Client) (client_id : String)
    (callbacks : kamea_mqtt_callbacks_t) (r1 r2 r3 : Int) (c2 : Client)
    (data : String) (len qos rand16 : Nat) (send : Int)
    (hascii : ∀ ch ∈ client_id.data, ch.toNat < 128)
    (hid : c2.kamea_client_id
      = (kamea_mqtt_init c client_id callbacks r1 r2 r3).2.1.kamea_client_id)
    (hconn : c2.kamea_mqtt_connected = true) :
    kamea_mqtt_publish_telemetry c2 data len qos rand16 send
      = (send, c2,
          Effect.mqtt_publish ("device/" ++ String.mk (client_id.data.take 31) ++ "/telemetries")
            data len qos (rand16 % 2 ^ 16) send ::
          (if c2.kamea_callbacks.published = true
            then [Effect.published (rand16 % 2 ^ 16) send] else [])) ∧
    (client_id.length ≤ 31 → String.mk (client_id.data.take 31) = client_id) ∧
    (∃ rest, client_id = c2.kamea_client_id ++ rest) ∧
    c2.kamea_client_id.utf8ByteSize = min 31 client_id.utf8ByteSize := by
  rw [init_client_id] at hid
  have hlen : c2.kamea_client_id.length ≤ 31 := by
    rw [hid]
    show (client_id.data.take 31).length ≤ 31
    rw [List.length_take]
    omega
  refine ⟨?_, ?_, ?_, ?_⟩
  · simp only [kamea_mqtt_publish_telemetry, hconn, Bool.true_eq_false, if_false,
      topic_not_truncated c2.kamea_client_id "/telemetries" hlen (by decide)]
    rw [hid]
  · intro h
    rw [List.take_of_length_le]
    exact h
  · refine ⟨String.mk (client_id.data.drop 31), ?_⟩
    rw [hid]
    apply String.ext
    simp only [String.data_append, List.take_append_drop]
  · have h1 : c2.kamea_client_id.utf8ByteSize = c2.kamea_client_id.length := by
      apply utf8ByteSize_of_ascii
      rw [hid]
      intro ch hch
      exact hascii ch (List.mem_of_mem_take hch)
    rw [h1, utf8ByteSize_of_ascii client_id hascii, hid]
    show (client_id.data.take 31).length = _
    rw [List.length_take]
    rfl

theorem topic_of_stored_client_id_witness :
    ((∀ ch ∈ "wind_turbine_stm32f746g_disco".data, ch.toNat < 128) ∧
      example_connected_client.kamea_client_id
        = (kamea_mqtt_init example_blank_client "wind_turbine_stm32f746g_disco"
            example_callbacks 0 0 0).2.1.kamea_client_id ∧
      example_connected_client.kamea_mqtt_connected = true) ∧
    kamea_mqtt_publish_telemetry example_connected_client "payload" 7 1 4242 0
      = (0, example_connected_client,
          Effect.mqtt_publish
            ("device/" ++ String.mk ("wind_turbine_stm32f746g_disco".data.take 31)
              ++ "/telemetries")
            "payload" 7 1 (4242 % 2 ^ 16) 0 ::
          (if example_connected_client.kamea_callbacks.published = true
            then [Effect.published (4242 % 2 ^ 16) 0] else [])) :=
  ⟨by decide,
    (topic_of_stored_client_id example_blank_client "wind_turbine_stm32f746g_disco"
      example_callbacks 0 0 0 example_connected_client "payload" 7 1 4242 0
      (by decide) (by decide) rfl).1⟩

/-! ## Publish acknowledgements and connect failure -/

/-- C17, as stated, fails: the handling of a publish acknowledgement, with or without
an error result, invokes no callback although one is registered. -/
theorem puback_invokes_no_callback :
    example_connected_client.kamea_callbacks.published = true ∧
    kamea_mqtt_event_handler example_connected_client example_puback []
      = some (example_connected_client, []) ∧
    kamea_mqtt_event_handler example_connected_client example_puback_error []
      = some (example_connected_client, []) ∧
    mqtt_input example_connected_client (some (example_puback_error, []))
      = some (example_connected_client, [Effect.mqtt_input]) := by
  decide

/-- C17, amended: the handling of a publish acknowledgement, with or without an error
result, changes no variable of the client, invokes no callback and sends nothing. The
published callback is invoked by `kamea_mqtt_publish_telemetry` instead: once per
publish made while connected, right after the only call of `mqtt_publish`, with the
message identifier given to that call and the value it returned. -/
theorem published_callback_reports_send_result (c : Client) (evt : mqtt_evt)
    (reads : List Int) (data : String) (len qos rand16 : Nat) (send : Int)
    (hty : evt.type = mqtt_evt_type.MQTT_EVT_PUBACK)
    (hconn : c.kamea_mqtt_connected = true) (hcb : c.kamea_callbacks.published = true) :
    kamea_mqtt_event_handler c evt reads = some (c, []) ∧
    ∃ topic,
      kamea_mqtt_publish_telemetry c data len qos rand16 send
        = (send, c,
            [Effect.mqtt_publish topic data len qos (rand16 % 2 ^ 16) send,
              Effect.published (rand16 % 2 ^ 16) send]) := by
  constructor
  · simp [kamea_mqtt_event_handler, hty]
  · exact ⟨snprintf 64 ("device/" ++ c.kamea_client_id ++ "/telemetries"), by
      simp [kamea_mqtt_publish_telemetry, hconn, hcb]⟩

theorem published_callback_reports_send_result_witness :
    (example_puback_error.type = mqtt_evt_type.MQTT_EVT_PUBACK ∧
      example_connected_client.kamea_mqtt_connected = true ∧
      example_connected_client.kamea_callbacks.published = true) ∧
    kamea_mqtt_event_handler example_connected_client example_puback_error []
      = some (example_connected_client, []) ∧
    ∃ topic,
      kamea_mqtt_publish_telemetry example_connected_client "payload" 7 1 4242 (-5)
        = (-5, example_connected_client,
            [Effect.mqtt_publish topic "payload" 7 1 (4242 % 2 ^ 16) (-5),
              Effect.published (4242 % 2 ^ 16) (-5)]) :=
  ⟨by decide,
    published_callback_reports_send_result example_connected_client example_puback_error []
      "payload" 7 1 4242 (-5) rfl rfl rfl⟩

theorem wait_network_fields (cfg : Config) (waits : List (List net_mgmt_event)) :
    ∀ (c cw : Client) (ew : List Effect), wait_network cfg c waits = some (cw, ew) →
      cw.kamea_mqtt_connected = c.kamea_mqtt_connected ∧
      cw.kamea_callbacks = c.kamea_callbacks ∧
      cw.kamea_client_id = c.kamea_client_id ∧
      ∀ e ∈ ew, e = Effect.k_sleep cfg.CONFIG_KAMEA_MQTT_RECONNECT_INTERVAL := by
  induction waits with
  | nil =>
    intro c cw ew h
    unfold wait_network at h
    split_ifs at h
    injection h with h
    injection h with h1 h2
    subst h1 h2
    exact ⟨rfl, rfl, rfl, by simp⟩
  | cons l4 rest ih =>
    intro c cw ew h
    unfold wait_network at h
    split_ifs at h
    · cases hr : wait_network cfg (l4_events c l4) rest with
      | none => rw [hr] at h; cases h
      | some r =>
        obtain ⟨c1, e1⟩ := r
        rw [hr] at h
        injection h with h
        injection h with h1 h2
        subst h1 h2
        obtain ⟨a1, a2, a3, a4⟩ := ih _ _ _ hr
        have f := l4_events_fields l4 c
        refine ⟨a1.trans f.1, a2.trans f.2.1, a3.trans f.2.2, ?_⟩
        intro e he
        rcases List.mem_cons.mp he with rfl | he
        · rfl
        · exact a4 e he
    · injection h with h
      injection h with h1 h2
      subst h1 h2
      exact ⟨rfl, rfl, rfl, by simp⟩

/-- C19: starting disconnected, when the wait for the network ends and `mqtt_connect`
returns a non-zero value, the pass of the loop returns with these effects after the
sleeps of the wait: `mqtt_client_init`, `mqtt_connect`, `mqtt_abort`, the disconnected
callback when one is registered, and a sleep of the reconnect interval. The connected
callback is not invoked, and the connected flag is false after the wait, after the
connect attempt and at the end of the pass, so that a telemetry publish made at any of
these points returns -1 and sends nothing. -/
theorem connect_failure_unwinds (cfg : Config) (c cw : Client) (env : CycleEnv)
    (ew : List Effect) (hdis : c.kamea_mqtt_connected = false)
    (hwait : wait_network cfg c env.waits = some (cw, ew))
    (hfail : env.connect_result ≠ 0) :
    ∃ c1 effects, session_cycle cfg c env = some (c1, effects) ∧
      effects = ew ++ [Effect.mqtt_client_init, Effect.mqtt_connect env.connect_result,
          Effect.mqtt_abort] ++
        (if c.kamea_callbacks.disconnected = true then [Effect.disconnected] else []) ++
        [Effect.k_sleep cfg.CONFIG_KAMEA_MQTT_RECONNECT_INTERVAL] ∧
      Effect.connected ∉ effects ∧
      ∀ c2 ∈ [cw, l4_events cw env.connect_l4, c1],
        c2.kamea_mqtt_connected = false ∧
        ∀ data len qos rand16 send,
          kamea_mqtt_publish_telemetry c2 data len qos rand16 send = (-1, c2, []) := by
  obtain ⟨w1, w2, _, w4⟩ := wait_network_fields cfg env.waits c cw ew hwait
  have f1 := l4_events_fields env.connect_l4 cw
  have hflag : (l4_events cw env.connect_l4).kamea_mqtt_connected = false := by
    rw [f1.1, w1, hdis]
  have hcb : (l4_events cw env.connect_l4).kamea_callbacks.disconnected
      = c.kamea_callbacks.disconnected := by
    rw [f1.2.1, w2]
  have gate : ∀ c2 : Client, c2.kamea_mqtt_connected = false →
      c2.kamea_mqtt_connected = false ∧
      ∀ data len qos rand16 send,
        kamea_mqtt_publish_telemetry c2 data len qos rand16 send = (-1, c2, []) := by
    intro c2 h2
    refine ⟨h2, ?_⟩
    intro data len qos rand16 send
    have g := publish_telemetry_gate c2 data len qos rand16 send h2
    exact Prod.ext g.1 g.2
  have hopen : session_open cfg c env
      = some (l4_events cw env.connect_l4,
          ew ++ [Effect.mqtt_client_init, Effect.mqtt_connect env.connect_result], false) := by
    simp [session_open, hwait, hfail]
  have hend : ∃ c1, session_end cfg (l4_events cw env.connect_l4) env
      = some (c1, Effect.mqtt_abort ::
          ((if c.kamea_callbacks.disconnected = true then [Effect.disconnected] else []) ++
            [Effect.k_sleep cfg.CONFIG_KAMEA_MQTT_RECONNECT_INTERVAL])) ∧
      c1.kamea_mqtt_connected = false := by
    cases hab : env.abort_notifies
    · refine ⟨l4_events (l4_events cw env.connect_l4) env.sleep_l4, ?_, ?_⟩
      · simp [session_end, hab, hcb]
      · rw [(l4_events_fields env.sleep_l4 _).1, hflag]
    · refine ⟨l4_events { l4_events cw env.connect_l4 with kamea_mqtt_connected := false }
          env.sleep_l4, ?_, ?_⟩
      · simp [session_end, hab, kamea_mqtt_event_handler, hcb]
      · rw [(l4_events_fields env.sleep_l4 _).1]
  obtain ⟨c1, hend1, hend2⟩ := hend
  refine ⟨c1, _, ?_, rfl, ?_, ?_⟩
  · simp only [session_cycle, hopen, hend1]
    simp
  · intro hmem
    simp only [List.mem_append, List.mem_cons, List.mem_singleton, List.not_mem_nil,
      or_false] at hmem
    rcases hmem with ((h | h) | h) | h
    · have := w4 _ h
      cases this
    · rcases h with h | h | h <;> cases h
    · split_ifs at h
      · simp at h
      · simp at h
    · cases h
  · intro c2 hc2
    simp only [List.mem_cons, List.mem_singleton, List.not_mem_nil, or_false] at hc2
    rcases hc2 with rfl | rfl | rfl
    · exact gate _ (by rw [w1, hdis])
    · exact gate _ hflag
    · exact gate _ hend2

theorem connect_failure_unwinds_witness :
    (example_client.kamea_mqtt_connected = false ∧
      wait_network example_cfg example_client example_env.waits = some (example_client, []) ∧
      (-116 : Int) ≠ 0) ∧
    ∃ c1 effects,
      session_cycle example_cfg example_client { example_env with connect_result := -116 }
        = some (c1, effects) ∧
      effects = [] ++ [Effect.mqtt_client_init, Effect.mqtt_connect (-116),
          Effect.mqtt_abort] ++
        (if example_client.kamea_callbacks.disconnected = true then [Effect.disconnected]
          else []) ++
        [Effect.k_sleep example_cfg.CONFIG_KAMEA_MQTT_RECONNECT_INTERVAL] ∧
      Effect.connected ∉ effects ∧
      ∀ c2 ∈ [example_client, l4_events example_client example_env.connect_l4, c1],
        c2.kamea_mqtt_connected = false ∧
        ∀ data len qos rand16 send,
          kamea_mqtt_publish_telemetry c2 data len qos rand16 send = (-1, c2, []) :=
  ⟨by decide,
    connect_failure_unwinds example_cfg example_client example_client
      { example_env with connect_result := -116 } [] rfl rfl (by decide)⟩

/-! ## The connectivity monitor -/

/-- C18, as stated, fails: on an interface whose address was not obtained by DHCP, a
link-down event followed by a link-up event leaves `connected = false` as the most
recently published status, because the link-up event publishes nothing. -/
theorem link_up_without_dhcp_publishes_nothing :
    network_l4_event_handler net_mgmt_event.NET_EVENT_L4_CONNECTED example_manual_iface
      = [NetworkEffect.k_timer_stop] ∧
    last_published (network_run
        [(net_mgmt_event.NET_EVENT_L4_DISCONNECTED, example_manual_iface),
          (net_mgmt_event.NET_EVENT_L4_CONNECTED, example_manual_iface)])
      = some { connected := false, ip_address := "" } := by
  decide

theorem published_run_append (before : List (net_mgmt_event × List net_if_addr))
    (mgmt_event : net_mgmt_event) (iface : List net_if_addr) :
    published (network_run (before ++ [(mgmt_event, iface)]))
      = published (network_run before)
        ++ published (network_l4_event_handler mgmt_event iface) := by
  simp [network_run, published]

theorem print_dhcpv4_addrs (iface : List net_if_addr) :
    (iface.map network_print_dhcpv4_addr).flatten
      = (iface.filter (fun a => a.addr_type = net_addr_type.NET_ADDR_DHCP)).map
          (fun a => NetworkEffect.zbus_chan_pub
            { connected := true, ip_address := String.mk (a.address.data.take 32) }) := by
  induction iface with
  | nil => rfl
  | cons a rest ih =>
    rw [List.map_cons, List.flatten_cons, ih]
    by_cases h : a.addr_type = net_addr_type.NET_ADDR_DHCP
    · simp [network_print_dhcpv4_addr, h]
    · simp [network_print_dhcpv4_addr, h]

theorem published_link_up (iface : List net_if_addr) :
    published (network_l4_event_handler net_mgmt_event.NET_EVENT_L4_CONNECTED iface)
      = (iface.filter (fun a => a.addr_type = net_addr_type.NET_ADDR_DHCP)).map
          (fun a => { connected := true, ip_address := String.mk (a.address.data.take 32) }) := by
  show published (NetworkEffect.k_timer_stop :: (iface.map network_print_dhcpv4_addr).flatten) = _
  rw [print_dhcpv4_addrs]
  generalize iface.filter (fun a => a.addr_type = net_addr_type.NET_ADDR_DHCP) = l
  induction l with
  | nil => rfl
  | cons a l ih =>
    simp only [published, List.map_cons, List.filterMap_cons] at ih ⊢
    rw [ih]

/-- C18, amended: a link-down event publishes exactly one status, `connected = false`
with an empty address, so it is the most recently published status after the event. A
link-up event publishes one status `connected = true` with the address as text for each
address of the interface obtained by DHCP, in order, and nothing for the other
addresses; when the interface has an address obtained by DHCP the most recently
published status after the event has `connected = true`, and when it has none the most
recently published status is the one from before the event. -/
theorem network_status_follows_dhcp_address
    (before : List (net_mgmt_event × List net_if_addr)) (iface : List net_if_addr) :
    network_l4_event_handler net_mgmt_event.NET_EVENT_L4_DISCONNECTED iface
      = [NetworkEffect.k_timer_start,
          NetworkEffect.zbus_chan_pub { connected := false, ip_address := "" }] ∧
    last_published (network_run (before ++ [(net_mgmt_event.NET_EVENT_L4_DISCONNECTED, iface)]))
      = some { connected := false, ip_address := "" } ∧
    network_l4_event_handler net_mgmt_event.NET_EVENT_L4_CONNECTED iface
      = NetworkEffect.k_timer_stop ::
          (iface.filter (fun a => a.addr_type = net_addr_type.NET_ADDR_DHCP)).map
            (fun a => NetworkEffect.zbus_chan_pub
              { connected := true, ip_address := String.mk (a.address.data.take 32) }) ∧
    ((∃ a ∈ iface, a.addr_type = net_addr_type.NET_ADDR_DHCP) →
      ∃ msg, last_published
          (network_run (before ++ [(net_mgmt_event.NET_EVENT_L4_CONNECTED, iface)])) = some msg ∧
        msg.connected = true) ∧
    ((∀ a ∈ iface, a.addr_type ≠ net_addr_type.NET_ADDR_DHCP) →
      last_published (network_run (before ++ [(net_mgmt_event.NET_EVENT_L4_CONNECTED, iface)]))
        = last_published (network_run before)) := by
  refine ⟨rfl, ?_, ?_, ?_, ?_⟩
  · unfold last_published
    rw [published_run_append]
    exact List.getLast?_concat _
  · show NetworkEffect.k_timer_stop :: (iface.map network_print_dhcpv4_addr).flatten = _
    rw [print_dhcpv4_addrs]
  · rintro ⟨a, ha, hdhcp⟩
    unfold last_published
    rw [published_run_append, published_link_up, List.getLast?_append]
    have hne : (iface.filter (fun a => a.addr_type = net_addr_type.NET_ADDR_DHCP)).map
        (fun a => ({ connected := true, ip_address := String.mk (a.address.data.take 32) } :
          network_status_msg)) ≠ [] := by
      intro h
      have hmem : a ∈ iface.filter (fun a => a.addr_type = net_addr_type.NET_ADDR_DHCP) := by
        simp [List.mem_filter, ha, hdhcp]
      rw [List.map_eq_nil_iff] at h
      rw [h] at hmem
      cases hmem
    cases hl : ((iface.filter (fun a => a.addr_type = net_addr_type.NET_ADDR_DHCP)).map
        (fun a => ({ connected := true, ip_address := String.mk (a.address.data.take 32) } :
          network_status_msg))).getLast? with
    | none => exact absurd (List.getLast?_eq_none_iff.mp hl) hne
    | some msg =>
      refine ⟨msg, rfl, ?_⟩
      have hm := List.mem_of_getLast?_eq_some hl
      obtain ⟨b, _, rfl⟩ := List.mem_map.mp hm
      rfl
  · intro hnone
    unfold last_published
    rw [published_run_append, published_link_up]
    have hnil : iface.filter (fun a => a.addr_type = net_addr_type.NET_ADDR_DHCP) = [] := by
      rw [List.filter_eq_nil_iff]
      intro a ha
      simpa using hnone a ha
    rw [hnil]
    simp

theorem network_status_follows_dhcp_address_witness :
    (∃ a ∈ example_dhcp_iface, a.addr_type = net_addr_type.NET_ADDR_DHCP) ∧
    ∃ msg, last_published
        (network_run ([(net_mgmt_event.NET_EVENT_L4_DISCONNECTED, example_dhcp_iface)]
          ++ [(net_mgmt_event.NET_EVENT_L4_CONNECTED, example_dhcp_iface)])) = some msg ∧
      msg.connected = true :=
  ⟨⟨_, List.mem_singleton.mpr rfl, rfl⟩,
    (network_status_follows_dhcp_address
      [(net_mgmt_event.NET_EVENT_L4_DISCONNECTED, example_dhcp_iface)]
      example_dhcp_iface).2.2.2.1 ⟨_, List.mem_singleton.mpr rfl, rfl⟩⟩

/-! ## Runs of the inverter listener -/

theorem inverter_step_lt {F : Type} (ops : double_ops F) (st : inverter_statics F)
    (msg : inverter_status_msg F) (h : st.count + 1 < 100) :
    kamea_inverter_status_cb ops st msg =
      some ({ output_voltage := store st.output_voltage st.count msg.output_voltage,
              output_power := store st.output_power st.count msg.output_power,
              frequency := store_double st.frequency st.count msg.frequency,
              count := st.count + 1 }, []) := by
  have h1 : st.count < 100 := by omega
  simp [kamea_inverter_status_cb, KAMEA_REAL_TIME_DATA_PERIOD, h, h1]

theorem inverter_step_full {F : Type} (ops : double_ops F) (st : inverter_statics F)
    (msg : inverter_status_msg F) (h : st.count + 1 = 100) :
    kamea_inverter_status_cb ops st msg =
      some ({ output_voltage := store st.output_voltage st.count msg.output_voltage,
              output_power := store st.output_power st.count msg.output_power,
              frequency := store_double st.frequency st.count msg.frequency,
              count := 0 },
            inverter_publishes ops
              (average (store st.output_voltage st.count msg.output_voltage))
              (average (store st.output_power st.count msg.output_power))
              (average_double ops (store_double st.frequency st.count msg.frequency))) := by
  have h1 : st.count < 100 := by omega
  have h2 : ¬ (st.count + 1 < 100) := by omega
  simp [kamea_inverter_status_cb, KAMEA_REAL_TIME_DATA_PERIOD, h1, h2]

theorem wind_turbine_step_some (st : wind_turbine_statics) (msg : wind_turbine_status_msg)
    (h : st.count < 100) :
    ∃ st1 out, kamea_wind_turbine_status_cb st msg = some (st1, out) ∧ st1.count < 100 := by
  by_cases hfull : st.count + 1 < 100
  · exact ⟨_, _, cb_step_lt st msg hfull, hfull⟩
  · exact ⟨_, _, cb_step_full st msg (by omega), by simp⟩

theorem inverter_step_some {F : Type} (ops : double_ops F) (st : inverter_statics F)
    (msg : inverter_status_msg F) (h : st.count < 100) :
    ∃ st1 out, kamea_inverter_status_cb ops st msg = some (st1, out) ∧ st1.count < 100 := by
  by_cases hfull : st.count + 1 < 100
  · exact ⟨_, _, inverter_step_lt ops st msg hfull, hfull⟩
  · exact ⟨_, _, inverter_step_full ops st msg (by omega), by simp⟩

theorem inverter_run_append {F : Type} (ops : double_ops F) (xs ys : List (inverter_status_msg F)) :
    ∀ st : inverter_statics F,
    inverter_run ops st (xs ++ ys) =
      match inverter_run ops st xs with
      | none => none
      | some (st1, o1) =>
        match inverter_run ops st1 ys with
        | none => none
        | some (st2, o2) => some (st2, o1 ++ o2) := by
  induction xs with
  | nil =>
    intro st
    simp only [List.nil_append, inverter_run]
    cases inverter_run ops st ys with
    | none => rfl
    | some r => rfl
  | cons x xs ih =>
    intro st
    rw [List.cons_append, inverter_run, inverter_run]
    cases kamea_inverter_status_cb ops st x with
    | none => rfl
    | some r =>
      obtain ⟨st1, out⟩ := r
      simp only
      rw [ih st1]
      cases inverter_run ops st1 xs with
      | none => rfl
      | some r1 =>
        obtain ⟨st2, o1⟩ := r1
        simp only
        cases inverter_run ops st2 ys with
        | none => rfl
        | some r2 => rfl

theorem inverter_run_general {F : Type} (ops : double_ops F) (obs : List (inverter_status_msg F)) :
    ∀ st : inverter_statics F, st.count < 100 →
    ∃ st1 outs, inverter_run ops st obs = some (st1, outs) ∧
      st1.count = (st.count + obs.length) % 100 ∧
      outs.length = obs.length ∧
      (∀ k, k < obs.length →
        (100 ∣ st.count + k + 1 → ∃ v p f, outs[k]? = some (inverter_publishes ops v p f)) ∧
        (¬ 100 ∣ st.count + k + 1 → outs[k]? = some [])) ∧
      (outs.map List.length).sum = (st.count + obs.length) / 100 := by
  induction obs with
  | nil =>
    intro st hst
    refine ⟨st, [], rfl, ?_, rfl, ?_, ?_⟩
    · simp only [List.length_nil, Nat.add_zero]
      exact (Nat.mod_eq_of_lt hst).symm
    · intro k hk
      simp at hk
    · simp only [List.map_nil, List.sum_nil, List.length_nil, Nat.add_zero]
      omega
  | cons m rest ih =>
    intro st hst
    by_cases hfull : st.count + 1 < 100
    · obtain ⟨st1, outs, hrun, hcount, hl, hk, hc⟩ := ih
        { output_voltage := store st.output_voltage st.count m.output_voltage,
          output_power := store st.output_power st.count m.output_power,
          frequency := store_double st.frequency st.count m.frequency,
          count := st.count + 1 } hfull
      refine ⟨st1, [] :: outs, ?_, ?_, ?_, ?_, ?_⟩
      · rw [inverter_run, inverter_step_lt ops st m hfull]
        simp only [hrun]
      · rw [hcount]
        simp only [List.length_cons]
        congr 1
        omega
      · simp [hl]
      · intro k hklt
        cases k with
        | zero =>
          constructor
          · intro hd
            omega
          · intro _
            simp
        | succ k =>
          simp only [List.length_cons] at hklt
          have := hk k (by omega)
          simp only [List.getElem?_cons_succ]
          constructor
          · intro hd
            exact this.1 (by simp only at hd ⊢; omega)
          · intro hd
            exact this.2 (by simp only at hd ⊢; omega)
      · simp only [List.map_cons, List.sum_cons, List.length_nil, hc, List.length_cons]
        simp only [Nat.zero_add]
        congr 1
        omega
    · have hc99 : st.count + 1 = 100 := by omega
      obtain ⟨st1, outs, hrun, hcount, hl, hk, hc⟩ := ih
        { output_voltage := store st.output_voltage st.count m.output_voltage,
          output_power := store st.output_power st.count m.output_power,
          frequency := store_double st.frequency st.count m.frequency,
          count := 0 } (by simp)
      refine ⟨st1, inverter_publishes ops
          (average (store st.output_voltage st.count m.output_voltage))
          (average (store st.output_power st.count m.output_power))
          (average_double ops (store_double st.frequency st.count m.frequency)) :: outs,
        ?_, ?_, ?_, ?_, ?_⟩
      · rw [inverter_run, inverter_step_full ops st m hc99]
        simp only [hrun]
      · rw [hcount]
        simp only [List.length_cons]
        omega
      · simp [hl]
      · intro k hklt
        cases k with
        | zero =>
          constructor
          · intro _
            exact ⟨_, _, _, List.getElem?_cons_zero⟩
          · intro hd
            exact absurd (by omega) hd
        | succ k =>
          simp only [List.length_cons] at hklt
          have := hk k (by omega)
          simp only [List.getElem?_cons_succ]
          constructor
          · intro hd
            exact this.1 (by simp only at hd ⊢; omega)
          · intro hd
            exact this.2 (by simp only at hd ⊢; omega)
      · have hc2 : (outs.map List.length).sum = (0 + rest.length) / 100 := hc
        simp only [List.map_cons, List.sum_cons, hc2, List.length_cons, inverter_publishes,
          List.length_singleton, List.length_nil]
        omega

/-- Run that fills the inverter window up to capacity. -/
theorem inverter_run_to_full {F : Type} (ops : double_ops F)
    (samples : List (inverter_status_msg F)) : ∀ st : inverter_statics F,
    samples ≠ [] → st.count + samples.length = 100 →
    ∃ st1 f, inverter_run ops st samples =
      some (st1, List.replicate (samples.length - 1) [] ++
        [inverter_publishes ops
          (average (fill st.output_voltage st.count (samples.map (·.output_voltage))))
          (average (fill st.output_power st.count (samples.map (·.output_power)))) f]) ∧
      st1.count = 0 := by
  induction samples with
  | nil => intro st h; exact absurd rfl h
  | cons m rest ih =>
    intro st _ hlen
    cases rest with
    | nil =>
      simp only [List.length_cons, List.length_nil] at hlen
      refine ⟨{ output_voltage := store st.output_voltage st.count m.output_voltage,
                output_power := store st.output_power st.count m.output_power,
                frequency := store_double st.frequency st.count m.frequency,
                count := 0 },
        average_double ops (store_double st.frequency st.count m.frequency), ?_, rfl⟩
      simp only [inverter_run, inverter_step_full ops st m (by omega)]
      rfl
    | cons m2 rest2 =>
      simp only [List.length_cons] at hlen
      have hlt : st.count + 1 < 100 := by omega
      obtain ⟨st1, f, h1, h2⟩ := ih
        { output_voltage := store st.output_voltage st.count m.output_voltage,
          output_power := store st.output_power st.count m.output_power,
          frequency := store_double st.frequency st.count m.frequency,
          count := st.count + 1 } (by simp) (by simp only [List.length_cons]; omega)
      refine ⟨st1, f, ?_, h2⟩
      rw [inverter_run, inverter_step_lt ops st m hlt]
      simp only
      rw [h1]
      simp only [List.length_cons, List.map_cons, fill, Nat.add_sub_cancel, List.replicate_succ,
        List.cons_append]

theorem snprintf_prefix (size : Nat) (a b : String) (h : a.length < size) :
    snprintf size (a ++ b) = a ++ String.mk (b.data.take (size - 1 - a.length)) := by
  apply String.ext
  simp only [snprintf, String.data_append]
  rw [List.take_append_eq_append_take, List.take_of_length_le]
  · rfl
  · have : a.data.length = a.length := rfl
    omega

theorem inverter_payload_prefix {F : Type} (ops : double_ops F) (v p : Nat) (f : F)
    (hv : v < 2 ^ 16) (hp : p < 2 ^ 16) :
    ∃ rest, inverter_payload ops v p f =
      "\x7b \"inverter\": \x7b \"output_voltage\": " ++ Nat.repr v
        ++ ", \"output_power\": " ++ Nat.repr p ++ ", \"frequency\": " ++ rest := by
  unfold inverter_payload
  rw [fmt_d_of_lt v hv, fmt_d_of_lt p hp, String.append_assoc _ (ops.fmt_f f)]
  refine ⟨_, snprintf_prefix 128 _ _ ?_⟩
  have h1 := repr_length_u16 v hv
  have h2 := repr_length_u16 p hp
  simp only [String.length_append]
  have e1 : "\x7b \"inverter\": \x7b \"output_voltage\": ".length = 34 := by decide
  have e2 : ", \"output_power\": ".length = 18 := by decide
  have e3 : ", \"frequency\": ".length = 15 := by decide
  omega

theorem inverter_window_report {F : Type} (ops : double_ops F) (st : inverter_statics F)
    (pre window post : List (inverter_status_msg F)) (h0 : st.count = 0)
    (hpre : 100 ∣ pre.length) (hlen : window.length = 100) (hwf : ∀ m ∈ window, m.wf) :
    ∃ st1 outs report rest, inverter_run ops st (pre ++ window ++ post) = some (st1, outs) ∧
      outs[pre.length + 99]? = some [report] ∧
      report.cls = PublishClass.telemetry ∧ report.qos = 1 ∧
      report.data = "\x7b \"inverter\": \x7b \"output_voltage\": "
        ++ Nat.repr ((window.map (·.output_voltage)).sum / 100) ++ ", \"output_power\": "
        ++ Nat.repr ((window.map (·.output_power)).sum / 100) ++ ", \"frequency\": " ++ rest ∧
      report.len = report.data.length := by
  obtain ⟨s1, o1, hr1, hc1, hl1, _, _⟩ := inverter_run_general ops pre st (by omega)
  have hs1 : s1.count = 0 := by
    rw [hc1, h0]
    omega
  have hne : window ≠ [] := by
    intro h
    rw [h] at hlen
    simp at hlen
  obtain ⟨s2, f, hr2, hc2⟩ := inverter_run_to_full ops window s1 hne (by omega)
  obtain ⟨s3, o3, hr3, _⟩ := inverter_run_general ops post s2 (by omega)
  have hv : (window.map (·.output_voltage)).length = 100 := by simp [hlen]
  have hp : (window.map (·.output_power)).length = 100 := by simp [hlen]
  have bv : ∀ x ∈ window.map (·.output_voltage), x < 2 ^ 16 := by
    intro x hx
    obtain ⟨m, hm, rfl⟩ := List.mem_map.mp hx
    exact (hwf m hm).1
  have bp : ∀ x ∈ window.map (·.output_power), x < 2 ^ 16 := by
    intro x hx
    obtain ⟨m, hm, rfl⟩ := List.mem_map.mp hx
    exact (hwf m hm).2
  rw [hs1, average_fill _ _ hv bv, average_fill _ _ hp bp, hlen] at hr2
  obtain ⟨rest, hrest⟩ := inverter_payload_prefix ops _ _ f (mean_lt _ hv bv) (mean_lt _ hp bp)
  have hrun : inverter_run ops st (pre ++ window ++ post)
      = some (s3, (o1 ++ (List.replicate (100 - 1) [] ++
          [inverter_publishes ops (mean (window.map (·.output_voltage)))
            (mean (window.map (·.output_power))) f])) ++ o3) := by
    rw [inverter_run_append, inverter_run_append, hr1]
    simp only [hr2, hr3]
  refine ⟨s3, _,
    { cls := PublishClass.telemetry,
      data := inverter_payload ops (mean (window.map (·.output_voltage)))
        (mean (window.map (·.output_power))) f,
      len := strlen (inverter_payload ops (mean (window.map (·.output_voltage)))
        (mean (window.map (·.output_power))) f),
      qos := MQTT_QOS_1_AT_LEAST_ONCE },
    rest, hrun, ?_, rfl, rfl, hrest, rfl⟩
  rw [List.append_assoc, List.getElem?_append_right (by omega), hl1, Nat.add_sub_cancel_left,
    List.append_assoc, List.getElem?_append_right (by simp)]
  simp [inverter_publishes]

theorem aggregator_run_interleave {F : Type} (ops : double_ops F) (obs : List (observation F)) :
    ∀ st : aggregator_statics F, st.wind_turbine.count < 100 → st.inverter.count < 100 →
    ∃ w wo i io,
      wind_turbine_run st.wind_turbine (wind_turbine_observations obs) = some (w, wo) ∧
      inverter_run ops st.inverter (inverter_observations obs) = some (i, io) ∧
      aggregator_run ops st obs
        = some ({ wind_turbine := w, inverter := i }, interleave obs wo io) ∧
      w.count < 100 ∧ i.count < 100 := by
  induction obs with
  | nil =>
    intro st hw hi
    exact ⟨st.wind_turbine, [], st.inverter, [], rfl, rfl, rfl, hw, hi⟩
  | cons o rest ih =>
    intro st hw hi
    cases o with
    | wind_turbine m =>
      obtain ⟨w1, out, hstep, hw1⟩ := wind_turbine_step_some st.wind_turbine m hw
      obtain ⟨w, wo, i, io, h1, h2, h3, h4, h5⟩ :=
        ih { wind_turbine := w1, inverter := st.inverter } hw1 hi
      refine ⟨w, out :: wo, i, io, ?_, h2, ?_, h4, h5⟩
      · simp only [wind_turbine_observations, wind_turbine_run, hstep]
        simp only at h1
        rw [h1]
      · simp only [aggregator_run, aggregator_step, hstep, h3, interleave]
    | inverter m =>
      obtain ⟨i1, out, hstep, hi1⟩ := inverter_step_some ops st.inverter m hi
      obtain ⟨w, wo, i, io, h1, h2, h3, h4, h5⟩ :=
        ih { wind_turbine := st.wind_turbine, inverter := i1 } hw hi1
      refine ⟨w, wo, i, out :: io, h1, ?_, ?_, h4, h5⟩
      · simp only [inverter_observations, inverter_run, hstep]
        simp only at h2
        rw [h2]
      · simp only [aggregator_run, aggregator_step, hstep, h3, interleave]

/-! ## The aggregator: independence of the windows, of the publish outcomes, bounds -/

theorem foldl_congr_range {β : Type} (f g : β → Nat → β) (l : List Nat)
    (h : ∀ x ∈ l, ∀ acc, f acc x = g acc x) : ∀ init : β, l.foldl f init = l.foldl g init := by
  induction l with
  | nil => intro init; rfl
  | cons x xs ih =>
    intro init
    rw [List.foldl_cons, List.foldl_cons, h x (List.mem_cons_self _ _)]
    exact ih (fun y hy => h y (List.mem_cons_of_mem _ hy)) _

theorem average_congr (a b : Nat → Nat) (h : ∀ i, i < 100 → a i = b i) :
    average a = average b := by
  unfold average accumulate
  rw [foldl_congr_range _ (fun avg index => (avg + b index) % 2 ^ 32)]
  intro x hx acc
  have hx1 : x < 100 := by simpa [KAMEA_REAL_TIME_DATA_PERIOD] using hx
  simp only [h x hx1]

theorem average_double_congr {F : Type} (ops : double_ops F) (a b : Nat → F)
    (h : ∀ i, i < 100 → a i = b i) : average_double ops a = average_double ops b := by
  unfold average_double
  rw [foldl_congr_range _ (fun avg index => ops.add avg (b index))]
  intro x hx acc
  have hx1 : x < 100 := by simpa [KAMEA_REAL_TIME_DATA_PERIOD] using hx
  simp only [h x hx1]

theorem store_congr (a b : Nat → Nat) (c v n : Nat) (h : ∀ i, i < c → a i = b i)
    (hn : n ≤ c + 1) : ∀ i, i < n → store a c v i = store b c v i := by
  intro i hi
  unfold store
  split
  · rfl
  · exact h i (by omega)

theorem store_double_congr {F : Type} (a b : Nat → F) (c : Nat) (v : F) (n : Nat)
    (h : ∀ i, i < c → a i = b i) (hn : n ≤ c + 1) :
    ∀ i, i < n → store_double a c v i = store_double b c v i := by
  intro i hi
  unfold store_double
  split
  · rfl
  · exact h i (by omega)

/-- The publish calls of a run depend on the cells below `count` only. -/
theorem wind_turbine_run_congr (obs : List wind_turbine_status_msg) :
    ∀ st st2 : wind_turbine_statics, st.count = st2.count → st.count < 100 →
      (∀ i, i < st.count → st.wind_speed i = st2.wind_speed i ∧
        st.generator_rpm i = st2.generator_rpm i ∧
        st.output_voltage i = st2.output_voltage i ∧
        st.output_power i = st2.output_power i) →
      (wind_turbine_run st obs).map (·.2) = (wind_turbine_run st2 obs).map (·.2) := by
  induction obs with
  | nil => intro st st2 _ _ _; rfl
  | cons m rest ih =>
    intro st st2 hc hlt hcells
    have h1 : ∀ i, i < st.count → st.wind_speed i = st2.wind_speed i :=
      fun i hi => (hcells i hi).1
    have h2 : ∀ i, i < st.count → st.generator_rpm i = st2.generator_rpm i :=
      fun i hi => (hcells i hi).2.1
    have h3 : ∀ i, i < st.count → st.output_voltage i = st2.output_voltage i :=
      fun i hi => (hcells i hi).2.2.1
    have h4 : ∀ i, i < st.count → st.output_power i = st2.output_power i :=
      fun i hi => (hcells i hi).2.2.2
    by_cases hfull : st.count + 1 < 100
    · rw [wind_turbine_run, wind_turbine_run, cb_step_lt st m hfull,
        cb_step_lt st2 m (by omega)]
      simp only
      have := ih
        { wind_speed := store st.wind_speed st.count m.wind_speed,
          generator_rpm := store st.generator_rpm st.count m.generator_rpm,
          output_voltage := store st.output_voltage st.count m.output_voltage,
          output_power := store st.output_power st.count m.output_power,
          count := st.count + 1 }
        { wind_speed := store st2.wind_speed st2.count m.wind_speed,
          generator_rpm := store st2.generator_rpm st2.count m.generator_rpm,
          output_voltage := store st2.output_voltage st2.count m.output_voltage,
          output_power := store st2.output_power st2.count m.output_power,
          count := st2.count + 1 }
        (by simp only; omega) hfull
        (by
          intro i hi
          rw [← hc]
          exact ⟨store_congr _ _ _ _ _ h1 (le_refl _) i hi,
            store_congr _ _ _ _ _ h2 (le_refl _) i hi,
            store_congr _ _ _ _ _ h3 (le_refl _) i hi,
            store_congr _ _ _ _ _ h4 (le_refl _) i hi⟩)
      revert this
      cases wind_turbine_run _ rest <;> cases wind_turbine_run _ rest <;> simp
    · have h99 : st.count + 1 = 100 := by omega
      rw [wind_turbine_run, wind_turbine_run, cb_step_full st m h99,
        cb_step_full st2 m (by omega)]
      simp only
      rw [← hc,
        average_congr _ _ (store_congr st.wind_speed st2.wind_speed st.count m.wind_speed 100
          h1 (by omega)),
        average_congr _ _ (store_congr st.generator_rpm st2.generator_rpm st.count
          m.generator_rpm 100 h2 (by omega)),
        average_congr _ _ (store_congr st.output_voltage st2.output_voltage st.count
          m.output_voltage 100 h3 (by omega)),
        average_congr _ _ (store_congr st.output_power st2.output_power st.count
          m.output_power 100 h4 (by omega))]
      have := ih
        { wind_speed := store st.wind_speed st.count m.wind_speed,
          generator_rpm := store st.generator_rpm st.count m.generator_rpm,
          output_voltage := store st.output_voltage st.count m.output_voltage,
          output_power := store st.output_power st.count m.output_power,
          count := 0 }
        { wind_speed := store st2.wind_speed st.count m.wind_speed,
          generator_rpm := store st2.generator_rpm st.count m.generator_rpm,
          output_voltage := store st2.output_voltage st.count m.output_voltage,
          output_power := store st2.output_power st.count m.output_power,
          count := 0 }
        rfl (by simp) (by
          intro i hi
          simp at hi)
      revert this
      cases wind_turbine_run _ rest <;> cases wind_turbine_run _ rest <;> simp

/-- The publish calls of an inverter run depend on the cells below `count` only. -/
theorem inverter_run_congr {F : Type} (ops : double_ops F) (obs : List (inverter_status_msg F)) :
    ∀ st st2 : inverter_statics F, st.count = st2.count → st.count < 100 →
      (∀ i, i < st.count → st.output_voltage i = st2.output_voltage i ∧
        st.output_power i = st2.output_power i ∧ st.frequency i = st2.frequency i) →
      (inverter_run ops st obs).map (·.2) = (inverter_run ops st2 obs).map (·.2) := by
  induction obs with
  | nil => intro st st2 _ _ _; rfl
  | cons m rest ih =>
    intro st st2 hc hlt hcells
    have h1 : ∀ i, i < st.count → st.output_voltage i = st2.output_voltage i :=
      fun i hi => (hcells i hi).1
    have h2 : ∀ i, i < st.count → st.output_power i = st2.output_power i :=
      fun i hi => (hcells i hi).2.1
    have h3 : ∀ i, i < st.count → st.frequency i = st2.frequency i :=
      fun i hi => (hcells i hi).2.2
    by_cases hfull : st.count + 1 < 100
    · rw [inverter_run, inverter_run, inverter_step_lt ops st m hfull,
        inverter_step_lt ops st2 m (by omega)]
      simp only
      have := ih
        { output_voltage := store st.output_voltage st.count m.output_voltage,
          output_power := store st.output_power st.count m.output_power,
          frequency := store_double st.frequency st.count m.frequency,
          count := st.count + 1 }
        { output_voltage := store st2.output_voltage st2.count m.output_voltage,
          output_power := store st2.output_power st2.count m.output_power,
          frequency := store_double st2.frequency st2.count m.frequency,
          count := st2.count + 1 }
        (by simp only; omega) hfull
        (by
          intro i hi
          rw [← hc]
          exact ⟨store_congr _ _ _ _ _ h1 (le_refl _) i hi,
            store_congr _ _ _ _ _ h2 (le_refl _) i hi,
            store_double_congr _ _ _ _ _ h3 (le_refl _) i hi⟩)
      revert this
      cases inverter_run ops _ rest <;> cases inverter_run ops _ rest <;> simp
    · have h99 : st.count + 1 = 100 := by omega
      rw [inverter_run, inverter_run, inverter_step_full ops st m h99,
        inverter_step_full ops st2 m (by omega)]
      simp only
      rw [← hc,
        average_congr _ _ (store_congr st.output_voltage st2.output_voltage st.count
          m.output_voltage 100 h1 (by omega)),
        average_congr _ _ (store_congr st.output_power st2.output_power st.count
          m.output_power 100 h2 (by omega)),
        average_double_congr ops _ _ (store_double_congr st.frequency st2.frequency st.count
          m.frequency 100 h3 (by omega))]
      have := ih
        { output_voltage := store st.output_voltage st.count m.output_voltage,
          output_power := store st.output_power st.count m.output_power,
          frequency := store_double st.frequency st.count m.frequency,
          count := 0 }
        { output_voltage := store st2.output_voltage st.count m.output_voltage,
          output_power := store st2.output_power st.count m.output_power,
          frequency := store_double st2.frequency st.count m.frequency,
          count := 0 }
        rfl (by simp) (by
          intro i hi
          simp at hi)
      revert this
      cases inverter_run ops _ rest <;> cases inverter_run ops _ rest <;> simp

/-- C12: for every interleaving of wind turbine and inverter observations, starting with
the inverter window empty, the run is the interleaving of the run of the wind turbine
listener on the wind turbine observations alone and of the run of the inverter listener
on the inverter observations alone: a wind turbine observation leaves the inverter
statics as they are, and an inverter observation leaves the wind turbine statics as they
are. The inverter listener publishes one report on each inverter observation whose index
among the inverter observations is a multiple of 100 and nothing on the others, and the
report that ends a window of 100 inverter samples is a telemetry publish whose text
carries the sums of the 100 `output_voltage` and `output_power` values divided by 100,
rounded down. -/
theorem inverter_window_independent {F : Type} (ops : double_ops F)
    (st : aggregator_statics F) (obs : List (observation F))
    (hw : st.wind_turbine.count < 100) (hi : st.inverter.count = 0) :
    (∀ (s s1 : aggregator_statics F) (m : wind_turbine_status_msg) (out : List PublishCall),
      aggregator_step ops s (observation.wind_turbine m) = some (s1, out) →
        s1.inverter = s.inverter) ∧
    (∀ (s s1 : aggregator_statics F) (m : inverter_status_msg F) (out : List PublishCall),
      aggregator_step ops s (observation.inverter m) = some (s1, out) →
        s1.wind_turbine = s.wind_turbine) ∧
    ∃ w wo i io,
      wind_turbine_run st.wind_turbine (wind_turbine_observations obs) = some (w, wo) ∧
      inverter_run ops st.inverter (inverter_observations obs) = some (i, io) ∧
      aggregator_run ops st obs
        = some ({ wind_turbine := w, inverter := i }, interleave obs wo io) ∧
      io.length = (inverter_observations obs).length ∧
      (∀ k, k < (inverter_observations obs).length →
        (100 ∣ k + 1 → ∃ v p f, io[k]? = some (inverter_publishes ops v p f)) ∧
        (¬ 100 ∣ k + 1 → io[k]? = some [])) ∧
      (∀ pre window post, inverter_observations obs = pre ++ window ++ post →
        100 ∣ pre.length → window.length = 100 → (∀ m ∈ window, m.wf) →
        ∃ report rest, io[pre.length + 99]? = some [report] ∧
          report.cls = PublishClass.telemetry ∧ report.qos = 1 ∧
          report.data = "\x7b \"inverter\": \x7b \"output_voltage\": "
            ++ Nat.repr ((window.map (·.output_voltage)).sum / 100) ++ ", \"output_power\": "
            ++ Nat.repr ((window.map (·.output_power)).sum / 100) ++ ", \"frequency\": "
            ++ rest) := by
  refine ⟨?_, ?_, ?_⟩
  · intro s s1 m out h
    simp only [aggregator_step] at h
    cases hcb : kamea_wind_turbine_status_cb s.wind_turbine m with
    | none => rw [hcb] at h; cases h
    | some r =>
      rw [hcb] at h
      injection h with h
      injection h with h1 _
      rw [← h1]
  · intro s s1 m out h
    simp only [aggregator_step] at h
    cases hcb : kamea_inverter_status_cb ops s.inverter m with
    | none => rw [hcb] at h; cases h
    | some r =>
      rw [hcb] at h
      injection h with h
      injection h with h1 _
      rw [← h1]
  · obtain ⟨w, wo, i, io, h1, h2, h3, _, _⟩ :=
      aggregator_run_interleave ops obs st hw (by omega)
    obtain ⟨i2, io2, g1, _, g3, g4, _⟩ :=
      inverter_run_general ops (inverter_observations obs) st.inverter (by omega)
    rw [h2] at g1
    injection g1 with g1
    injection g1 with _ g1
    subst g1
    refine ⟨w, wo, i, io, h1, h2, h3, g3, ?_, ?_⟩
    · intro k hk
      have := g4 k hk
      rw [hi, Nat.zero_add] at this
      exact this
    · intro pre window post hsplit hpre hlen hwf
      obtain ⟨s3, outs, report, rest, r1, r2, r3, r4, r5, _⟩ :=
        inverter_window_report ops st.inverter pre window post hi hpre hlen hwf
      rw [← hsplit, h2] at r1
      injection r1 with r1
      injection r1 with _ r1
      subst r1
      exact ⟨report, rest, r2, r3, r4, r5⟩

theorem inverter_window_independent_witness :
    ((aggregator_statics.init example_ops).wind_turbine.count < 100 ∧
      (aggregator_statics.init example_ops).inverter.count = 0) ∧
    ∃ w wo i io,
      wind_turbine_run (aggregator_statics.init example_ops).wind_turbine
          (wind_turbine_observations
            (observation.wind_turbine example_msg ::
              List.replicate 100 (observation.inverter example_inverter_msg)))
        = some (w, wo) ∧
      inverter_run example_ops (aggregator_statics.init example_ops).inverter
          (inverter_observations
            (observation.wind_turbine example_msg ::
              List.replicate 100 (observation.inverter example_inverter_msg)))
        = some (i, io) ∧
      aggregator_run example_ops (aggregator_statics.init example_ops)
          (observation.wind_turbine example_msg ::
            List.replicate 100 (observation.inverter example_inverter_msg))
        = some ({ wind_turbine := w, inverter := i },
            interleave
              (observation.wind_turbine example_msg ::
                List.replicate 100 (observation.inverter example_inverter_msg)) wo io) :=
  ⟨⟨by decide, rfl⟩, by
    obtain ⟨_, _, w, wo, i, io, h1, h2, h3, _⟩ :=
      inverter_window_independent example_ops (aggregator_statics.init example_ops)
        (observation.wind_turbine example_msg ::
          List.replicate 100 (observation.inverter example_inverter_msg)) (by decide) rfl
    exact ⟨w, wo, i, io, h1, h2, h3⟩⟩

/-- C14: the statics a listener leaves (count and stored samples) are the same for every
outcome of the publish calls it makes, for the wind turbine listener and for the
inverter listener. When the observation fills the window the count is 0 afterwards
whatever the outcomes, and the publish calls of every later sequence of observations are
those the listener makes for that sequence from its start-up statics: nothing of the
window that was drained is published again. -/
theorem failed_reports_are_dropped {F : Type} (ops : double_ops F)
    (wt : wind_turbine_statics) (inv : inverter_statics F)
    (wmsg : wind_turbine_status_msg) (imsg : inverter_status_msg F)
    (outcome other : Nat → Client × Nat × Int)
    (hw : wt.count < 100) (hi : inv.count < 100) :
    ∃ wt1 inv1,
      (∃ e1 e2, wind_turbine_listener wt wmsg outcome = some (wt1, e1) ∧
        wind_turbine_listener wt wmsg other = some (wt1, e2)) ∧
      (∃ e1 e2, inverter_listener ops inv imsg outcome = some (inv1, e1) ∧
        inverter_listener ops inv imsg other = some (inv1, e2)) ∧
      (wt.count = 99 → wt1.count = 0 ∧
        ∀ later, (wind_turbine_run wt1 later).map (·.2)
          = (wind_turbine_run wind_turbine_statics.init later).map (·.2)) ∧
      (inv.count = 99 → inv1.count = 0 ∧
        ∀ later, (inverter_run ops inv1 later).map (·.2)
          = (inverter_run ops (inverter_statics.init ops) later).map (·.2)) := by
  obtain ⟨wt1, wout, hwstep, _⟩ := wind_turbine_step_some wt wmsg hw
  obtain ⟨inv1, iout, histep, _⟩ := inverter_step_some ops inv imsg hi
  refine ⟨wt1, inv1, ⟨carry_out outcome wout 0, carry_out other wout 0, ?_, ?_⟩,
    ⟨carry_out outcome iout 0, carry_out other iout 0, ?_, ?_⟩, ?_, ?_⟩
  · simp only [wind_turbine_listener, hwstep]
  · simp only [wind_turbine_listener, hwstep]
  · simp only [inverter_listener, histep]
  · simp only [inverter_listener, histep]
  · intro h99
    rw [cb_step_full wt wmsg (by omega)] at hwstep
    injection hwstep with hwstep
    injection hwstep with h1 _
    subst h1
    refine ⟨rfl, ?_⟩
    intro later
    exact wind_turbine_run_congr later _ _ rfl (by simp) (by
      intro i hi
      simp at hi)
  · intro h99
    rw [inverter_step_full ops inv imsg (by omega)] at histep
    injection histep with histep
    injection histep with h1 _
    subst h1
    refine ⟨rfl, ?_⟩
    intro later
    exact inverter_run_congr ops later _ _ rfl (by simp) (by
      intro i hi
      simp at hi)

theorem failed_reports_are_dropped_witness :
    (example_full_window.count < 100 ∧ (inverter_statics.init example_ops).count < 100) ∧
    ∃ wt1 inv1,
      (∃ e1 e2,
        wind_turbine_listener example_full_window example_msg
            (fun _ => (example_client, 4242, 0)) = some (wt1, e1) ∧
        wind_turbine_listener example_full_window example_msg
            (fun _ => (example_connected_client, 7, -5)) = some (wt1, e2)) ∧
      (∃ e1 e2,
        inverter_listener example_ops (inverter_statics.init example_ops) example_inverter_msg
            (fun _ => (example_client, 4242, 0)) = some (inv1, e1) ∧
        inverter_listener example_ops (inverter_statics.init example_ops) example_inverter_msg
            (fun _ => (example_connected_client, 7, -5)) = some (inv1, e2)) ∧
      (example_full_window.count = 99 → wt1.count = 0 ∧
        ∀ later, (wind_turbine_run wt1 later).map (·.2)
          = (wind_turbine_run wind_turbine_statics.init later).map (·.2)) ∧
      ((inverter_statics.init example_ops).count = 99 → inv1.count = 0 ∧
        ∀ later, (inverter_run example_ops inv1 later).map (·.2)
          = (inverter_run example_ops (inverter_statics.init example_ops) later).map (·.2)) :=
  ⟨⟨by decide, by decide⟩,
    failed_reports_are_dropped example_ops example_full_window
      (inverter_statics.init example_ops) example_msg example_inverter_msg
      (fun _ => (example_client, 4242, 0)) (fun _ => (example_connected_client, 7, -5))
      (by decide) (by decide)⟩

/-- C15: every sequence of observations delivered from start-up returns, leaving both
counts at most 99; in the statics it leaves, the next observation, whichever it is,
returns as well (its sample store is inside the arrays) and leaves both counts at most
99 again. -/
theorem window_count_below_capacity {F : Type} (ops : double_ops F)
    (obs : List (observation F)) :
    ∃ st outs, aggregator_run ops (aggregator_statics.init ops) obs = some (st, outs) ∧
      st.wind_turbine.count ≤ 99 ∧ st.inverter.count ≤ 99 ∧
      ∀ next, ∃ st1 out, aggregator_step ops st next = some (st1, out) ∧
        st1.wind_turbine.count ≤ 99 ∧ st1.inverter.count ≤ 99 := by
  have h0w : (aggregator_statics.init ops).wind_turbine.count < 100 := by
    show (0 : Nat) < 100
    decide
  have h0i : (aggregator_statics.init ops).inverter.count < 100 := by
    show (0 : Nat) < 100
    decide
  obtain ⟨w, wo, i, io, _, _, h3, h4, h5⟩ :=
    aggregator_run_interleave ops obs (aggregator_statics.init ops) h0w h0i
  refine ⟨_, _, h3, by simp only; omega, by simp only; omega, ?_⟩
  intro next
  cases next with
  | wind_turbine m =>
    obtain ⟨w1, out, hstep, hw1⟩ := wind_turbine_step_some w m h4
    refine ⟨{ wind_turbine := w1, inverter := i }, out, ?_, by simp only; omega,
      by simp only; omega⟩
    simp only [aggregator_step, hstep]
  | inverter m =>
    obtain ⟨i1, out, hstep, hi1⟩ := inverter_step_some ops i m h5
    refine ⟨{ wind_turbine := w, inverter := i1 }, out, ?_, by simp only; omega,
      by simp only; omega⟩
    simp only [aggregator_step, hstep]

/-! ## The session thread from its start: resolution of the broker name -/

theorem wait_network_reachable (cfg : Config) (waits : List (List net_mgmt_event)) :
    ∀ (c cw : Client) (ew : List Effect), wait_network cfg c waits = some (cw, ew) →
      cw.kamea_mqtt_network_connected = true := by
  induction waits with
  | nil =>
    intro c cw ew h
    unfold wait_network at h
    split_ifs at h with hc
    injection h with h
    injection h with h1 h2
    subst h1
    simpa using hc
  | cons l4 rest ih =>
    intro c cw ew h
    unfold wait_network at h
    split_ifs at h with hc
    · cases hr : wait_network cfg (l4_events c l4) rest with
      | none => rw [hr] at h; cases h
      | some r =>
        obtain ⟨c1, e1⟩ := r
        rw [hr] at h
        injection h with h
        injection h with h1 h2
        subst h1
        exact ih _ _ _ hr
    · injection h with h
      injection h with h1 h2
      subst h1
      simpa using hc

theorem failed_resolutions_cons (cfg : Config) (s : ResolveStep) (fails : List ResolveStep) :
    failed_resolutions cfg (s :: fails) =
      ThreadEffect.zsock_getaddrinfo s.result ::
        ThreadEffect.effect (Effect.k_sleep cfg.CONFIG_KAMEA_MQTT_RECONNECT_INTERVAL) ::
        failed_resolutions cfg fails := by
  simp [failed_resolutions]

theorem failed_resolutions_mem (cfg : Config) (fails : List ResolveStep)
    (hfail : ∀ s ∈ fails, s.result ≠ 0) :
    ∀ e ∈ failed_resolutions cfg fails,
      e = ThreadEffect.effect (Effect.k_sleep cfg.CONFIG_KAMEA_MQTT_RECONNECT_INTERVAL) ∨
      ∃ result, result ≠ 0 ∧ e = ThreadEffect.zsock_getaddrinfo result := by
  induction fails with
  | nil => intro e he; simp [failed_resolutions] at he
  | cons s rest ih =>
    intro e he
    rw [failed_resolutions_cons] at he
    simp only [List.mem_cons] at he
    rcases he with he | he | he
    · exact Or.inr ⟨s.result, hfail s (List.mem_cons_self _ _), he⟩
    · exact Or.inl he
    · exact ih (fun t ht => hfail t (List.mem_cons_of_mem _ ht)) e he

theorem resolve_loop_fails (cfg : Config) (fails : List ResolveStep)
    (hfail : ∀ s ∈ fails, s.result ≠ 0) : ∀ c : Client,
    (resolve_loop cfg c fails).2 = (failed_resolutions cfg fails, none) := by
  induction fails with
  | nil => intro c; rfl
  | cons s rest ih =>
    intro c
    have hs := hfail s (List.mem_cons_self _ _)
    have h := ih (fun t ht => hfail t (List.mem_cons_of_mem _ ht)) (l4_events c s.l4)
    rw [resolve_loop, if_pos hs, failed_resolutions_cons]
    have h1 := congrArg Prod.fst h
    have h2 := congrArg Prod.snd h
    simp only at h1 h2
    simp only [h1, h2]

theorem resolve_loop_success (cfg : Config) (fails : List ResolveStep) (ok : ResolveStep)
    (rest : List ResolveStep) (hfail : ∀ s ∈ fails, s.result ≠ 0) (hok : ok.result = 0) :
    ∀ c : Client,
    (resolve_loop cfg c (fails ++ ok :: rest)).2 =
      (failed_resolutions cfg fails ++ [ThreadEffect.zsock_getaddrinfo 0], some ok.address) := by
  induction fails with
  | nil =>
    intro c
    rw [List.nil_append, resolve_loop, if_neg (by simp [hok]), hok]
    rfl
  | cons s more ih =>
    intro c
    have hs := hfail s (List.mem_cons_self _ _)
    have h := ih (fun t ht => hfail t (List.mem_cons_of_mem _ ht)) (l4_events c s.l4)
    rw [List.cons_append, resolve_loop, if_pos hs, failed_resolutions_cons]
    have h1 := congrArg Prod.fst h
    have h2 := congrArg Prod.snd h
    simp only at h1 h2
    simp only [h1, h2, List.cons_append]

theorem resolve_loop_split (cfg : Config) (steps : List ResolveStep) :
    ∀ (c : Client) (address : Nat), (resolve_loop cfg c steps).2.2 = some address →
      ∃ fails ok rest, steps = fails ++ ok :: rest ∧ (∀ s ∈ fails, s.result ≠ 0) ∧
        ok.result = 0 ∧ ok.address = address := by
  induction steps with
  | nil => intro c address h; simp [resolve_loop] at h
  | cons s more ih =>
    intro c address h
    by_cases hs : s.result ≠ 0
    · rw [resolve_loop, if_pos hs] at h
      obtain ⟨fails, ok, rest, h1, h2, h3, h4⟩ := ih _ _ h
      refine ⟨s :: fails, ok, rest, by rw [h1, List.cons_append], ?_, h3, h4⟩
      intro t ht
      rcases List.mem_cons.mp ht with ht | ht
      · rw [ht]; exact hs
      · exact h2 t ht
    · rw [resolve_loop, if_neg hs] at h
      simp only [Option.some.injEq] at h
      exact ⟨[], s, more, rfl, by simp, by simpa using hs, h⟩

theorem session_cycles_shape (cfg : Config) (broker : Nat) (envs : List CycleEnv) :
    ∀ (c c2 : Client) (cycles : List ThreadEffect),
      session_cycles cfg broker c envs = some (c2, cycles) →
      cycles.length = envs.length ∧
      ∀ e ∈ cycles, ∃ effects, e = ThreadEffect.cycle broker effects := by
  induction envs with
  | nil =>
    intro c c2 cycles h
    simp only [session_cycles, Option.some.injEq, Prod.mk.injEq] at h
    rw [← h.2]
    simp
  | cons env rest ih =>
    intro c c2 cycles h
    rw [session_cycles] at h
    cases h1 : session_cycle cfg c env with
    | none => rw [h1] at h; cases h
    | some r1 =>
      obtain ⟨c1, e1⟩ := r1
      rw [h1] at h
      simp only at h
      cases h2 : session_cycles cfg broker c1 rest with
      | none => rw [h2] at h; cases h
      | some r2 =>
        obtain ⟨c3, e3⟩ := r2
        rw [h2] at h
        simp only [Option.some.injEq, Prod.mk.injEq] at h
        obtain ⟨hl, hm⟩ := ih _ _ _ h2
        rw [← h.2]
        refine ⟨by simp [hl], ?_⟩
        intro e he
        rcases List.mem_cons.mp he with he | he
        · exact ⟨e1, he⟩
        · exact hm e he

/-- C21, the case that fails: in a run of the thread whose first connect attempt fails, so
that the loop makes a second pass (a reconnect cycle), `zsock_getaddrinfo` is called
once, before the first pass, and the second pass goes from `mqtt_client_init` to
`mqtt_connect` with the address resolved then, without resolving the name again. -/
theorem second_cycle_resolves_nothing :
    kamea_mqtt_thread example_cfg example_client example_thread_env =
      some (example_client, some 3232235777,
        [ThreadEffect.zsock_getaddrinfo 0, ThreadEffect.zsock_freeaddrinfo,
          ThreadEffect.cycle 3232235777
            [Effect.mqtt_client_init, Effect.mqtt_connect (-116), Effect.mqtt_abort,
              Effect.disconnected, Effect.k_sleep 5],
          ThreadEffect.cycle 3232235777
            [Effect.mqtt_client_init, Effect.mqtt_connect (-116), Effect.mqtt_abort,
              Effect.disconnected, Effect.k_sleep 5]]) := by
  decide

/-- C21, amended: in every run of the session thread that reaches the loop, the broker
name is resolved once for the whole run: the effects before the loop are the sleeps of
the first wait for the network, which ends with the network reachable, then the failed
calls of `zsock_getaddrinfo` with their sleeps, then the one call that succeeds and
`zsock_freeaddrinfo`; every pass of the loop that follows, the first one and each
reconnect cycle alike, uses the address that call returned. -/
theorem resolution_once_before_all_cycles (cfg : Config) (c c2 : Client) (env : ThreadEnv)
    (address : Nat) (trace : List ThreadEffect)
    (h : kamea_mqtt_thread cfg c env = some (c2, some address, trace)) :
    ∃ (cw : Client) (ew : List Effect) (fails : List ResolveStep) (ok : ResolveStep)
      (rest : List ResolveStep) (cycles : List ThreadEffect),
      wait_network cfg c env.waits = some (cw, ew) ∧
      cw.kamea_mqtt_network_connected = true ∧
      env.resolutions = fails ++ ok :: rest ∧ (∀ s ∈ fails, s.result ≠ 0) ∧
      ok.result = 0 ∧ ok.address = address ∧
      trace = ew.map ThreadEffect.effect ++ failed_resolutions cfg fails ++
        [ThreadEffect.zsock_getaddrinfo 0, ThreadEffect.zsock_freeaddrinfo] ++ cycles ∧
      cycles.length = env.cycles.length ∧
      (∀ e ∈ cycles, ∃ effects, e = ThreadEffect.cycle address effects) ∧
      (ew.map ThreadEffect.effect ++ failed_resolutions cfg fails ++
        [ThreadEffect.zsock_getaddrinfo 0, ThreadEffect.zsock_freeaddrinfo]).countP
          (fun e => decide (e = ThreadEffect.zsock_getaddrinfo 0)) = 1 := by
  unfold kamea_mqtt_thread at h
  cases hw : wait_network cfg c env.waits with
  | none => rw [hw] at h; cases h
  | some rw1 =>
    obtain ⟨cw, ew⟩ := rw1
    rw [hw] at h
    simp only at h
    cases hr : (resolve_loop cfg cw env.resolutions).2.2 with
    | none => rw [hr] at h; simp at h
    | some a =>
      rw [hr] at h
      simp only at h
      cases hc : session_cycles cfg a (resolve_loop cfg cw env.resolutions).1 env.cycles with
      | none => rw [hc] at h; cases h
      | some rc =>
        obtain ⟨c3, e3⟩ := rc
        rw [hc] at h
        simp only [Option.some.injEq, Prod.mk.injEq] at h
        obtain ⟨h1, h2, h3⟩ := h
        subst h2
        obtain ⟨fails, ok, rest, hs1, hs2, hs3, hs4⟩ := resolve_loop_split cfg _ _ _ hr
        have hsucc := resolve_loop_success cfg fails ok rest hs2 hs3 cw
        rw [← hs1] at hsucc
        have hfst := congrArg Prod.fst hsucc
        simp only at hfst
        obtain ⟨hl, hm⟩ := session_cycles_shape cfg a env.cycles _ _ _ hc
        refine ⟨cw, ew, fails, ok, rest, e3, rfl, wait_network_reachable cfg _ _ _ _ hw, hs1,
          hs2, hs3, hs4, ?_, hl, hm, ?_⟩
        · rw [← h3, hfst]
          simp only [List.append_assoc, List.cons_append, List.nil_append]
        · have hwf := (wait_network_fields cfg env.waits c cw ew hw).2.2.2
          have hfm := failed_resolutions_mem cfg fails hs2
          rw [List.countP_append, List.countP_append]
          have z1 : (ew.map ThreadEffect.effect).countP
              (fun e => decide (e = ThreadEffect.zsock_getaddrinfo 0)) = 0 := by
            rw [List.countP_eq_zero]
            intro e he
            obtain ⟨x, _, hx⟩ := List.mem_map.mp he
            rw [← hx]
            simp
          have z2 : (failed_resolutions cfg fails).countP
              (fun e => decide (e = ThreadEffect.zsock_getaddrinfo 0)) = 0 := by
            rw [List.countP_eq_zero]
            intro e he
            rcases hfm e he with hx | ⟨r, hr0, hx⟩
            · rw [hx]; simp
            · rw [hx]; simpa using hr0
          rw [z1, z2]
          decide

theorem resolution_once_before_all_cycles_witness :
    ∃ (cw : Client) (ew : List Effect) (fails : List ResolveStep) (ok : ResolveStep)
      (rest : List ResolveStep) (cycles : List ThreadEffect),
      wait_network example_cfg example_client example_thread_env.waits = some (cw, ew) ∧
      cw.kamea_mqtt_network_connected = true ∧
      example_thread_env.resolutions = fails ++ ok :: rest ∧ (∀ s ∈ fails, s.result ≠ 0) ∧
      ok.result = 0 ∧ ok.address = 3232235777 ∧
      [ThreadEffect.zsock_getaddrinfo 0, ThreadEffect.zsock_freeaddrinfo,
          ThreadEffect.cycle 3232235777
            [Effect.mqtt_client_init, Effect.mqtt_connect (-116), Effect.mqtt_abort,
              Effect.disconnected, Effect.k_sleep 5],
          ThreadEffect.cycle 3232235777
            [Effect.mqtt_client_init, Effect.mqtt_connect (-116), Effect.mqtt_abort,
              Effect.disconnected, Effect.k_sleep 5]] =
        ew.map ThreadEffect.effect ++ failed_resolutions example_cfg fails ++
        [ThreadEffect.zsock_getaddrinfo 0, ThreadEffect.zsock_freeaddrinfo] ++ cycles ∧
      cycles.length = example_thread_env.cycles.length ∧
      (∀ e ∈ cycles, ∃ effects, e = ThreadEffect.cycle 3232235777 effects) ∧
      (ew.map ThreadEffect.effect ++ failed_resolutions example_cfg fails ++
        [ThreadEffect.zsock_getaddrinfo 0, ThreadEffect.zsock_freeaddrinfo]).countP
          (fun e => decide (e = ThreadEffect.zsock_getaddrinfo 0)) = 1 :=
  resolution_once_before_all_cycles example_cfg example_client example_client
    example_thread_env 3232235777 _ (by decide)

/-- C22: once the first wait for the network has ended, for every sequence of failed
resolutions `fails`: (1) if these are all the outcomes so far, the thread is still in
the resolution loop, with no address, and has done nothing but call `zsock_getaddrinfo`
and sleep the reconnect interval after each failure, so no `mqtt_connect` and no
callback; (2) if the next resolution succeeds, the passes of the loop that follow all
use the address that resolution returned, and they start only after it. -/
theorem resolving_until_first_success (cfg : Config) (c cw : Client)
    (waits : List (List net_mgmt_event)) (ew : List Effect) (fails : List ResolveStep)
    (ok : ResolveStep) (rest : List ResolveStep) (cycles : List CycleEnv)
    (hw : wait_network cfg c waits = some (cw, ew))
    (hfail : ∀ s ∈ fails, s.result ≠ 0) (hok : ok.result = 0) :
    kamea_mqtt_thread cfg c { waits := waits, resolutions := fails, cycles := cycles } =
      some ((resolve_loop cfg cw fails).1, none,
        ew.map ThreadEffect.effect ++ failed_resolutions cfg fails) ∧
    failed_resolutions cfg fails = (fails.map (fun s =>
      [ThreadEffect.zsock_getaddrinfo s.result,
        ThreadEffect.effect (Effect.k_sleep cfg.CONFIG_KAMEA_MQTT_RECONNECT_INTERVAL)])).flatten ∧
    (∀ e ∈ ew.map ThreadEffect.effect ++ failed_resolutions cfg fails,
      e = ThreadEffect.effect (Effect.k_sleep cfg.CONFIG_KAMEA_MQTT_RECONNECT_INTERVAL) ∨
      ∃ result, result ≠ 0 ∧ e = ThreadEffect.zsock_getaddrinfo result) ∧
    ∀ (c2 : Client) (passes : List ThreadEffect),
      session_cycles cfg ok.address (resolve_loop cfg cw (fails ++ ok :: rest)).1 cycles =
        some (c2, passes) →
      kamea_mqtt_thread cfg c
          { waits := waits, resolutions := fails ++ ok :: rest, cycles := cycles } =
        some (c2, some ok.address,
          ew.map ThreadEffect.effect ++ failed_resolutions cfg fails ++
            [ThreadEffect.zsock_getaddrinfo 0] ++ [ThreadEffect.zsock_freeaddrinfo] ++ passes) ∧
      passes.length = cycles.length ∧
      ∀ e ∈ passes, ∃ effects, e = ThreadEffect.cycle ok.address effects := by
  have hf := resolve_loop_fails cfg fails hfail cw
  have hs := resolve_loop_success cfg fails ok rest hfail hok cw
  have hf1 := congrArg Prod.fst hf
  have hf2 := congrArg Prod.snd hf
  have hs1 := congrArg Prod.fst hs
  have hs2 := congrArg Prod.snd hs
  simp only at hf1 hf2 hs1 hs2
  refine ⟨?_, rfl, ?_, ?_⟩
  · unfold kamea_mqtt_thread
    simp only [hw, hf2, hf1]
  · intro e he
    rcases List.mem_append.mp he with he | he
    · obtain ⟨x, hx, hxe⟩ := List.mem_map.mp he
      have := (wait_network_fields cfg waits c cw ew hw).2.2.2 x hx
      rw [← hxe, this]
      exact Or.inl rfl
    · exact failed_resolutions_mem cfg fails hfail e he
  · intro c2 passes hc
    obtain ⟨hl, hm⟩ := session_cycles_shape cfg ok.address cycles _ _ _ hc
    refine ⟨?_, hl, hm⟩
    unfold kamea_mqtt_thread
    simp only [hw, hs2, hs1, hc, List.append_assoc]

theorem resolving_until_first_success_witness :
    kamea_mqtt_thread example_cfg example_client
        { waits := [], resolutions := example_failed_resolutions,
          cycles := example_thread_env.cycles } =
      some ((resolve_loop example_cfg example_client example_failed_resolutions).1, none,
        ([] : List Effect).map ThreadEffect.effect ++
          failed_resolutions example_cfg example_failed_resolutions) ∧
    failed_resolutions example_cfg example_failed_resolutions =
      (example_failed_resolutions.map (fun s =>
        [ThreadEffect.zsock_getaddrinfo s.result,
          ThreadEffect.effect
            (Effect.k_sleep example_cfg.CONFIG_KAMEA_MQTT_RECONNECT_INTERVAL)])).flatten ∧
    (∀ e ∈ ([] : List Effect).map ThreadEffect.effect ++
        failed_resolutions example_cfg example_failed_resolutions,
      e = ThreadEffect.effect
        (Effect.k_sleep example_cfg.CONFIG_KAMEA_MQTT_RECONNECT_INTERVAL) ∨
      ∃ result, result ≠ 0 ∧ e = ThreadEffect.zsock_getaddrinfo result) ∧
    ∀ (c2 : Client) (passes : List ThreadEffect),
      session_cycles example_cfg example_resolution.address
          (resolve_loop example_cfg example_client
            (example_failed_resolutions ++ example_resolution :: [])).1
          example_thread_env.cycles = some (c2, passes) →
      kamea_mqtt_thread example_cfg example_client
          { waits := [], resolutions := example_failed_resolutions ++ example_resolution :: [],
            cycles := example_thread_env.cycles } =
        some (c2, some example_resolution.address,
          ([] : List Effect).map ThreadEffect.effect ++
            failed_resolutions example_cfg example_failed_resolutions ++
            [ThreadEffect.zsock_getaddrinfo 0] ++ [ThreadEffect.zsock_freeaddrinfo] ++ passes) ∧
      passes.length = example_thread_env.cycles.length ∧
      ∀ e ∈ passes, ∃ effects, e = ThreadEffect.cycle example_resolution.address effects :=
  resolving_until_first_success example_cfg example_client example_client [] []
    example_failed_resolutions example_resolution [] example_thread_env.cycles
    (by decide) (by decide) (by decide)

/-! ## The timeouts of `poll` -/

theorem read_publish_payload_effects (reads : List Int) :
    ∀ (len : Int) (effects : List Effect), read_publish_payload reads len = some effects →
      ∀ e ∈ effects, ∃ size bytes_read, e = Effect.mqtt_read_publish_payload size bytes_read := by
  induction reads with
  | nil =>
    intro len effects h
    unfold read_publish_payload at h
    split_ifs at h
    simp only [Option.some.injEq] at h
    rw [← h]
    simp
  | cons b rest ih =>
    intro len effects h
    rw [read_publish_payload] at h
    by_cases h0 : len = 0
    · rw [if_pos h0] at h
      simp only [Option.some.injEq] at h
      rw [← h]
      simp
    · rw [if_neg h0] at h
      simp only at h
      by_cases hb : b < 0 ∧ b ≠ -EAGAIN
      · rw [if_pos hb] at h
        simp only [Option.some.injEq] at h
        rw [← h]
        intro e he
        exact ⟨_, _, List.mem_singleton.mp he⟩
      · rw [if_neg hb] at h
        by_cases hr32 : 0 ≤ b ∧ b ≤ 32
        · rw [if_pos hr32] at h
          cases hr : read_publish_payload rest (len - b) with
          | none => rw [hr] at h; cases h
          | some es =>
            rw [hr] at h
            simp only [Option.some.injEq] at h
            rw [← h]
            intro e he
            rcases List.mem_cons.mp he with he | he
            · exact ⟨_, _, he⟩
            · exact ih _ _ hr e he
        · rw [if_neg hr32] at h
          cases h

theorem event_handler_no_poll (c c1 : Client) (evt : mqtt_evt) (reads : List Int)
    (effects : List Effect) (h : kamea_mqtt_event_handler c evt reads = some (c1, effects)) :
    ∀ timeout result, Effect.poll timeout result ∉ effects := by
  intro timeout result hm
  unfold kamea_mqtt_event_handler at h
  cases hty : evt.type <;> rw [hty] at h <;> simp only at h
  case MQTT_EVT_CONNACK =>
    split_ifs at h <;> simp only [Option.some.injEq, Prod.mk.injEq] at h <;>
      (rw [← h.2] at hm; cases hm)
  case MQTT_EVT_PUBLISH =>
    cases hr : read_publish_payload reads (to_int evt.payload_len) with
    | none => rw [hr] at h; cases h
    | some es =>
      rw [hr] at h
      simp only [Option.some.injEq, Prod.mk.injEq] at h
      rw [← h.2] at hm
      rcases List.mem_append.mp hm with hm | hm
      · obtain ⟨s, b, hx⟩ := read_publish_payload_effects reads _ _ hr _ hm
        cases hx
      · simp at hm
  all_goals
    simp only [Option.some.injEq, Prod.mk.injEq] at h
    rw [← h.2] at hm
    cases hm

theorem mqtt_input_no_poll (c c1 : Client) (input : Option (mqtt_evt × List Int))
    (effects : List Effect) (h : mqtt_input c input = some (c1, effects)) :
    ∀ timeout result, Effect.poll timeout result ∉ effects := by
  intro timeout result hm
  unfold mqtt_input at h
  cases input with
  | none =>
    simp only [Option.some.injEq, Prod.mk.injEq] at h
    rw [← h.2] at hm
    simp at hm
  | some p =>
    obtain ⟨evt, reads⟩ := p
    simp only at h
    cases hh : kamea_mqtt_event_handler c evt reads with
    | none => rw [hh] at h; cases h
    | some r =>
      obtain ⟨c2, e2⟩ := r
      rw [hh] at h
      simp only [Option.some.injEq, Prod.mk.injEq] at h
      rw [← h.2] at hm
      rcases List.mem_cons.mp hm with hm | hm
      · cases hm
      · exact event_handler_no_poll c c2 evt reads e2 hh timeout result hm

theorem connected_loop_polls (steps : List PollStep) :
    ∀ (c c1 : Client) (effects : List Effect), connected_loop c steps = some (c1, effects) →
      ∀ timeout result, Effect.poll timeout result ∈ effects → timeout = SYS_FOREVER_MS := by
  induction steps with
  | nil =>
    intro c c1 effects h timeout result hm
    unfold connected_loop at h
    split_ifs at h
    simp only [Option.some.injEq, Prod.mk.injEq] at h
    rw [← h.2] at hm
    cases hm
  | cons step rest ih =>
    intro c c1 effects h timeout result hm
    unfold connected_loop at h
    simp only at h
    split_ifs at h
    · simp only [Option.some.injEq, Prod.mk.injEq] at h
      rw [← h.2] at hm
      have := List.mem_singleton.mp hm
      injection this
    · cases hi : mqtt_input (l4_events c step.l4) step.input with
      | none => rw [hi] at h; cases h
      | some r =>
        obtain ⟨c2, e2⟩ := r
        rw [hi] at h
        simp only at h
        cases hl : connected_loop c2 rest with
        | none => rw [hl] at h; cases h
        | some r3 =>
          obtain ⟨c3, e3⟩ := r3
          rw [hl] at h
          simp only [Option.some.injEq, Prod.mk.injEq] at h
          rw [← h.2] at hm
          rcases List.mem_cons.mp hm with hm | hm
          · injection hm
          · rcases List.mem_append.mp hm with hm | hm
            · exact absurd hm (mqtt_input_no_poll _ _ _ _ hi timeout result)
            · exact ih _ _ _ hl timeout result hm
    · simp only [Option.some.injEq, Prod.mk.injEq] at h
      rw [← h.2] at hm
      cases hm

theorem session_open_polls (cfg : Config) (c c1 : Client) (env : CycleEnv)
    (effects : List Effect) (flag : Bool)
    (h : session_open cfg c env = some (c1, effects, flag)) :
    ∀ timeout result, Effect.poll timeout result ∈ effects → timeout = 10000 := by
  intro timeout result hm
  unfold session_open at h
  cases hw : wait_network cfg c env.waits with
  | none => rw [hw] at h; cases h
  | some r =>
    obtain ⟨cw, ew⟩ := r
    rw [hw] at h
    simp only at h
    have hwf := (wait_network_fields cfg env.waits c cw ew hw).2.2.2
    have hnw : Effect.poll timeout result ∉ ew := by
      intro hx
      have := hwf _ hx
      cases this
    split_ifs at h
    · simp only [Option.some.injEq, Prod.mk.injEq] at h
      rw [← h.2.1] at hm
      simp [hnw] at hm
    · simp only [Option.some.injEq, Prod.mk.injEq] at h
      rw [← h.2.1] at hm
      simp [hnw] at hm
      exact hm.1
    · simp only [Option.some.injEq, Prod.mk.injEq] at h
      rw [← h.2.1] at hm
      simp [hnw] at hm
      exact hm.1
    · cases hi : mqtt_input (l4_events (l4_events cw env.connect_l4) env.poll1.l4) env.poll1.input with
      | none => rw [hi] at h; simp at h
      | some r2 =>
        obtain ⟨c4, e5⟩ := r2
        rw [hi] at h
        simp only at h
        have hn5 := mqtt_input_no_poll _ _ _ _ hi timeout result
        split_ifs at h <;>
        · simp only [Option.some.injEq, Prod.mk.injEq] at h
          rw [← h.2.1] at hm
          simp [hnw, hn5] at hm
          exact hm.1
    · cases hi : mqtt_input (l4_events (l4_events cw env.connect_l4) env.poll1.l4) env.poll1.input with
      | none => rw [hi] at h; simp at h
      | some r2 =>
        obtain ⟨c4, e5⟩ := r2
        rw [hi] at h
        simp only at h
        have hn5 := mqtt_input_no_poll _ _ _ _ hi timeout result
        split_ifs at h <;>
        · simp only [Option.some.injEq, Prod.mk.injEq] at h
          rw [← h.2.1] at hm
          simp [hnw, hn5] at hm
          exact hm.1

/-- C23, the case that fails: in a cycle whose connect is acknowledged, the wait of the
connected loop is `poll(fds, 1, SYS_FOREVER_MS)`, and `SYS_FOREVER_MS` is -1, which
`poll` takes as no timeout at all. -/
theorem connected_wait_has_no_timeout :
    session_cycle example_cfg example_client example_env =
      some (example_client,
        [Effect.mqtt_client_init, Effect.mqtt_connect 0, Effect.connected,
          Effect.poll 10000 1, Effect.mqtt_input, Effect.poll SYS_FOREVER_MS (-1),
          Effect.mqtt_abort, Effect.disconnected, Effect.k_sleep 5]) ∧
    SYS_FOREVER_MS = -1 := by
  decide

/-- C23, amended: in every cycle, each `poll` made before the connected loop (the wait
for the connect acknowledgement) has the timeout 10000 ms, and each `poll` made in the
connected loop has the timeout `SYS_FOREVER_MS`, which is negative (no timeout); the
loop makes such a `poll` as soon as it is entered. -/
theorem poll_timeouts (cfg : Config) (c c1 c2 : Client) (env : CycleEnv)
    (e1 e2 : List Effect) (flag : Bool)
    (ho : session_open cfg c env = some (c1, e1, flag))
    (hl : connected_loop c1 env.loop = some (c2, e2)) :
    (∀ timeout result, Effect.poll timeout result ∈ e1 → timeout = 10000) ∧
    (∀ timeout result, Effect.poll timeout result ∈ e2 → timeout = SYS_FOREVER_MS) ∧
    SYS_FOREVER_MS < 0 ∧
    (c1.kamea_mqtt_network_connected = true → c1.kamea_mqtt_connected = true →
      ∃ step steps, env.loop = step :: steps ∧
        Effect.poll SYS_FOREVER_MS step.result ∈ e2) := by
  refine ⟨session_open_polls cfg c c1 env e1 flag ho, connected_loop_polls env.loop c1 c2 e2 hl,
    by decide, ?_⟩
  intro hn hc
  cases hloop : env.loop with
  | nil =>
    rw [hloop] at hl
    simp [connected_loop, hn, hc] at hl
  | cons step steps =>
    refine ⟨step, steps, rfl, ?_⟩
    rw [hloop] at hl
    unfold connected_loop at hl
    simp only at hl
    rw [if_pos ⟨hn, hc⟩] at hl
    split_ifs at hl
    · simp only [Option.some.injEq, Prod.mk.injEq] at hl
      rw [← hl.2]
      exact List.mem_singleton.mpr rfl
    · cases hi : mqtt_input (l4_events c1 step.l4) step.input with
      | none => rw [hi] at hl; cases hl
      | some r =>
        obtain ⟨c3, e3⟩ := r
        rw [hi] at hl
        simp only at hl
        cases hl2 : connected_loop c3 steps with
        | none => rw [hl2] at hl; cases hl
        | some r3 =>
          obtain ⟨c4, e4⟩ := r3
          rw [hl2] at hl
          simp only [Option.some.injEq, Prod.mk.injEq] at hl
          rw [← hl.2]
          exact List.mem_cons_self _ _

theorem poll_timeouts_witness :
    (∀ timeout result, Effect.poll timeout result ∈
        [Effect.mqtt_client_init, Effect.mqtt_connect 0, Effect.connected,
          Effect.poll 10000 1, Effect.mqtt_input] → timeout = 10000) ∧
    (∀ timeout result, Effect.poll timeout result ∈ [Effect.poll SYS_FOREVER_MS (-1)] →
      timeout = SYS_FOREVER_MS) ∧
    SYS_FOREVER_MS < 0 ∧
    (example_connected_client.kamea_mqtt_network_connected = true →
      example_connected_client.kamea_mqtt_connected = true →
      ∃ step steps, example_env.loop = step :: steps ∧
        Effect.poll SYS_FOREVER_MS step.result ∈ [Effect.poll SYS_FOREVER_MS (-1)]) :=
  poll_timeouts example_cfg example_client example_connected_client example_connected_client
    example_env _ _ true (by decide) (by decide)

/-! ## Exactness of the window means -/

theorem sum_range_bounds (a : Nat → Nat) (lo hi : Nat) : ∀ n : Nat,
    ((∀ i, i < n → lo ≤ a i) → n * lo ≤ ((List.range n).map a).sum) ∧
    ((∀ i, i < n → a i ≤ hi) → ((List.range n).map a).sum ≤ n * hi) := by
  intro n
  induction n with
  | zero => simp
  | succ n ih =>
    rw [List.range_succ, List.map_append, List.sum_append]
    simp only [List.map_cons, List.map_nil, List.sum_cons, List.sum_nil, Nat.add_zero]
    constructor
    · intro h
      have h1 := ih.1 (fun i hi => h i (by omega))
      have h2 := h n (by omega)
      rw [Nat.succ_mul]
      omega
    · intro h
      have h1 := ih.2 (fun i hi => h i (by omega))
      have h2 := h n (by omega)
      rw [Nat.succ_mul]
      omega

theorem exact_window_mean_average (a : Nat → Nat) (ha : ∀ i, i < 100 → a i < 2 ^ 16) :
    exact_window_mean a (average a) := by
  have h := foldl_acc_eq a 100 (le_refl _) ha
  have hav : average a = ((List.range 100).map a).sum / 100 := by
    unfold average accumulate KAMEA_REAL_TIME_DATA_PERIOD
    rw [h.1]
  have hb := sum_range_bounds a
  refine ⟨?_, hav, ?_, ?_, ?_⟩
  · intro n hn
    have hn2 := foldl_acc_eq a n hn (fun i hi => ha i (by omega))
    refine ⟨hn2.1, ?_⟩
    have := hn2.2
    have : n * 65535 ≤ 100 * 65535 := Nat.mul_le_mul_right _ hn
    omega
  · intro lo hlo
    have := (hb lo 0 100).1 hlo
    rw [hav]
    omega
  · intro hi hhi
    have := (hb 0 hi 100).2 hhi
    rw [hav]
    omega
  · have := h.2
    rw [hav]
    omega

/-- C24: when the hundredth sample of a window arrives, with every cell of the arrays
holding a 16-bit value, `kamea_wind_turbine_status_cb` and `kamea_inverter_status_cb`
return and publish means that are exact for the window they leave in the arrays: no
intermediate sum of a 32-bit accumulator wraps (each is at most 100 * 65535), each integer mean
is the integer part of the arithmetic mean of the 100 samples, lies between every lower
and every upper bound of the samples (so between their minimum and maximum), and is at
most 65535. -/
theorem window_means_exact {F : Type} (ops : double_ops F) (st : wind_turbine_statics)
    (msg : wind_turbine_status_msg) (ist : inverter_statics F) (imsg : inverter_status_msg F)
    (hc : st.count + 1 = 100) (hic : ist.count + 1 = 100)
    (hw : ∀ i, i < 100 → st.wind_speed i < 2 ^ 16)
    (hg : ∀ i, i < 100 → st.generator_rpm i < 2 ^ 16)
    (hv : ∀ i, i < 100 → st.output_voltage i < 2 ^ 16)
    (hp : ∀ i, i < 100 → st.output_power i < 2 ^ 16)
    (hiv : ∀ i, i < 100 → ist.output_voltage i < 2 ^ 16)
    (hip : ∀ i, i < 100 → ist.output_power i < 2 ^ 16) :
    (∃ st1 w g v p,
      kamea_wind_turbine_status_cb st msg = some (st1, wind_turbine_publishes w g v p) ∧
      st1.wind_speed = store st.wind_speed st.count msg.wind_speed ∧
      st1.generator_rpm = store st.generator_rpm st.count msg.generator_rpm ∧
      st1.output_voltage = store st.output_voltage st.count msg.output_voltage ∧
      st1.output_power = store st.output_power st.count msg.output_power ∧
      exact_window_mean st1.wind_speed w ∧ exact_window_mean st1.generator_rpm g ∧
      exact_window_mean st1.output_voltage v ∧ exact_window_mean st1.output_power p) ∧
    (∃ ist1 iv ip f,
      kamea_inverter_status_cb ops ist imsg = some (ist1, inverter_publishes ops iv ip f) ∧
      ist1.output_voltage = store ist.output_voltage ist.count imsg.output_voltage ∧
      ist1.output_power = store ist.output_power ist.count imsg.output_power ∧
      exact_window_mean ist1.output_voltage iv ∧ exact_window_mean ist1.output_power ip) := by
  constructor
  · exact ⟨_, _, _, _, _, cb_step_full st msg hc, rfl, rfl, rfl, rfl,
      exact_window_mean_average _ (store_lt _ _ _ hw),
      exact_window_mean_average _ (store_lt _ _ _ hg),
      exact_window_mean_average _ (store_lt _ _ _ hv),
      exact_window_mean_average _ (store_lt _ _ _ hp)⟩
  · exact ⟨_, _, _, _, inverter_step_full ops ist imsg hic, rfl, rfl,
      exact_window_mean_average _ (store_lt _ _ _ hiv),
      exact_window_mean_average _ (store_lt _ _ _ hip)⟩

theorem window_means_exact_witness :
    (∃ st1 w g v p,
      kamea_wind_turbine_status_cb example_full_window example_msg =
        some (st1, wind_turbine_publishes w g v p) ∧
      st1.wind_speed = store example_full_window.wind_speed example_full_window.count
        example_msg.wind_speed ∧
      st1.generator_rpm = store example_full_window.generator_rpm example_full_window.count
        example_msg.generator_rpm ∧
      st1.output_voltage = store example_full_window.output_voltage example_full_window.count
        example_msg.output_voltage ∧
      st1.output_power = store example_full_window.output_power example_full_window.count
        example_msg.output_power ∧
      exact_window_mean st1.wind_speed w ∧ exact_window_mean st1.generator_rpm g ∧
      exact_window_mean st1.output_voltage v ∧ exact_window_mean st1.output_power p) ∧
    (∃ ist1 iv ip f,
      kamea_inverter_status_cb example_ops example_inverter_full_window example_inverter_msg =
        some (ist1, inverter_publishes example_ops iv ip f) ∧
      ist1.output_voltage = store example_inverter_full_window.output_voltage
        example_inverter_full_window.count example_inverter_msg.output_voltage ∧
      ist1.output_power = store example_inverter_full_window.output_power
        example_inverter_full_window.count example_inverter_msg.output_power ∧
      exact_window_mean ist1.output_voltage iv ∧ exact_window_mean ist1.output_power ip) :=
  window_means_exact example_ops example_full_window example_msg example_inverter_full_window
    example_inverter_msg rfl rfl
    (fun _ _ => (by decide : (10 : Nat) < 2 ^ 16))
    (fun _ _ => (by decide : (20 : Nat) < 2 ^ 16))
    (fun _ _ => (by decide : (230 : Nat) < 2 ^ 16))
    (fun _ _ => (by decide : (150 : Nat) < 2 ^ 16))
    (fun _ _ => (by decide : (20000 : Nat) < 2 ^ 16))
    (fun _ _ => (by decide : (148 : Nat) < 2 ^ 16))

/-! ## The room of the payload buffer -/

/-- C25: for all means below 2 ^ 16, the texts of the wind turbine, config and app
payloads are shorter than the 128 bytes of `payload`, and the three publish calls of
`kamea_wind_turbine_status_cb` carry these texts whole, with their full lengths; for
the two button names of `buttons.c` and either state, the text of the alert is shorter
than 128 bytes and the publish call of `kamea_buttons_status_cb` carries it whole, with
its full length. -/
theorem payloads_fit_the_buffer (w g v p : Nat) (hw : w < 2 ^ 16) (hg : g < 2 ^ 16)
    (hv : v < 2 ^ 16) (hp : p < 2 ^ 16) :
    ((wind_turbine_formatted v p).length < 128 ∧ config_formatted.length < 128 ∧
      (app_formatted p g w).length < 128) ∧
    wind_turbine_publishes w g v p =
      [ { cls := PublishClass.telemetry, data := wind_turbine_formatted v p,
          len := (wind_turbine_formatted v p).length, qos := MQTT_QOS_1_AT_LEAST_ONCE },
        { cls := PublishClass.configs, data := config_formatted,
          len := config_formatted.length, qos := MQTT_QOS_1_AT_LEAST_ONCE },
        { cls := PublishClass.telemetry, data := app_formatted p g w,
          len := (app_formatted p g w).length, qos := MQTT_QOS_1_AT_LEAST_ONCE } ] ∧
    ∀ (name : String) (state : Bool),
      name = "Wind Turbine Top Button" ∨ name = "Wind Turbine Bottom Button" →
      (alert_formatted name state).length < 128 ∧
      kamea_buttons_status_cb { name := name, state := state } =
        [ { cls := PublishClass.telemetry, data := alert_formatted name state,
            len := (alert_formatted name state).length, qos := MQTT_QOS_1_AT_LEAST_ONCE } ] := by
  have l1 : (wind_turbine_formatted v p).length < 128 := by
    unfold wind_turbine_formatted
    rw [fmt_d_of_lt v hv, fmt_d_of_lt p hp]
    have h1 := repr_length_u16 v hv
    have h2 := repr_length_u16 p hp
    simp only [String.length_append]
    have e1 : "\x7b \"wind_turbine\": \x7b \"output_voltage\": ".length = 38 := by decide
    have e2 : ", \"output_power\": ".length = 18 := by decide
    have e3 : " \x7d \x7d".length = 4 := by decide
    omega
  have l2 : config_formatted.length < 128 := by decide
  have l3 : (app_formatted p g w).length < 128 := by
    unfold app_formatted
    rw [fmt_d_of_lt p hp, fmt_d_of_lt g hg, fmt_d_of_lt w hw]
    have h1 := repr_length_u16 p hp
    have h2 := repr_length_u16 g hg
    have h3 := repr_length_u16 w hw
    simp only [String.length_append]
    have e1 : "\x7b \"energyProduction\": ".length = 22 := by decide
    have e2 : ", \"generator\": ".length = 15 := by decide
    have e3 : ", \"windSpeed\": ".length = 15 := by decide
    have e4 : " \x7d".length = 2 := by decide
    omega
  have p1 : wind_turbine_payload v p = wind_turbine_formatted v p :=
    snprintf_of_lt 128 _ l1
  have p2 : config_payload = config_formatted := snprintf_of_lt 128 _ l2
  have p3 : app_payload p g w = app_formatted p g w := snprintf_of_lt 128 _ l3
  refine ⟨⟨l1, l2, l3⟩, ?_, ?_⟩
  · unfold wind_turbine_publishes strlen
    rw [p1, p2, p3]
  · intro name state hname
    have l4 : (alert_formatted name state).length < 128 := by
      rcases hname with h | h <;> subst h <;> cases state <;> decide
    have p4 : alert_payload name state = alert_formatted name state :=
      snprintf_of_lt 128 _ l4
    refine ⟨l4, ?_⟩
    unfold kamea_buttons_status_cb strlen
    simp only [p4]

theorem payloads_fit_the_buffer_witness :
    ((wind_turbine_formatted 230 150).length < 128 ∧ config_formatted.length < 128 ∧
      (app_formatted 150 20 10).length < 128) ∧
    wind_turbine_publishes 10 20 230 150 =
      [ { cls := PublishClass.telemetry, data := wind_turbine_formatted 230 150,
          len := (wind_turbine_formatted 230 150).length, qos := MQTT_QOS_1_AT_LEAST_ONCE },
        { cls := PublishClass.configs, data := config_formatted,
          len := config_formatted.length, qos := MQTT_QOS_1_AT_LEAST_ONCE },
        { cls := PublishClass.telemetry, data := app_formatted 150 20 10,
          len := (app_formatted 150 20 10).length, qos := MQTT_QOS_1_AT_LEAST_ONCE } ] ∧
    ∀ (name : String) (state : Bool),
      name = "Wind Turbine Top Button" ∨ name = "Wind Turbine Bottom Button" →
      (alert_formatted name state).length < 128 ∧
      kamea_buttons_status_cb { name := name, state := state } =
        [ { cls := PublishClass.telemetry, data := alert_formatted name state,
            len := (alert_formatted name state).length, qos := MQTT_QOS_1_AT_LEAST_ONCE } ] :=
  payloads_fit_the_buffer 10 20 230 150 (by decide) (by decide) (by decide) (by decide)

/-! ## The simulation of the inverter -/

/-- C26: for every wind turbine status whose `output_power` is a 16-bit value `p` and
every remembered value `q`, the product `99 * p` fits an `int`, the quotient
`99 * p / 100` is at most `p` and fits 16 bits, and the callback publishes exactly one
inverter status, with that quotient as `output_power` and with `output_voltage` and
`frequency` 20050 and 50.1 when `p > q`, 19950 and 49.9 when `p < q`, 20000 and 50 when
`p = q`; the value remembered afterwards is `p`. -/
theorem inverter_simulation (q : Nat) (msg : wind_turbine_status_msg)
    (hp : msg.output_power < 2 ^ 16) :
    99 * msg.output_power < 2 ^ 31 ∧
    99 * msg.output_power / 100 ≤ msg.output_power ∧
    99 * msg.output_power / 100 < 2 ^ 16 ∧
    (inverter_wind_turbine_status_callback q msg).1 = msg.output_power ∧
    ∃ out : inverter_status_msg Rat,
      (inverter_wind_turbine_status_callback q msg).2 = [out] ∧
      out.output_power = 99 * msg.output_power / 100 ∧
      (msg.output_power > q → out.output_voltage = 20050 ∧ out.frequency = 50.1) ∧
      (msg.output_power < q → out.output_voltage = 19950 ∧ out.frequency = 49.9) ∧
      (msg.output_power = q → out.output_voltage = 20000 ∧ out.frequency = 50) := by
  have h1 : 99 * msg.output_power / 100 < 2 ^ 16 := by omega
  have h2 : 99 * msg.output_power / 100 % 2 ^ 16 = 99 * msg.output_power / 100 :=
    Nat.mod_eq_of_lt h1
  refine ⟨by omega, by omega, h1, Nat.mod_eq_of_lt hp, ?_⟩
  unfold inverter_wind_turbine_status_callback
  simp only [h2]
  by_cases hgt : msg.output_power > q
  · rw [if_pos hgt]
    exact ⟨_, rfl, rfl, fun _ => ⟨rfl, rfl⟩, fun h => absurd h (by omega),
      fun h => absurd h (by omega)⟩
  · rw [if_neg hgt]
    by_cases hlt : msg.output_power < q
    · rw [if_pos hlt]
      exact ⟨_, rfl, rfl, fun h => absurd h hgt, fun _ => ⟨rfl, rfl⟩,
        fun h => absurd h (by omega)⟩
    · rw [if_neg hlt]
      exact ⟨_, rfl, rfl, fun h => absurd h hgt, fun h => absurd h hlt, fun _ => ⟨rfl, rfl⟩⟩

theorem inverter_simulation_witness :
    99 * example_msg.output_power < 2 ^ 31 ∧
    99 * example_msg.output_power / 100 ≤ example_msg.output_power ∧
    99 * example_msg.output_power / 100 < 2 ^ 16 ∧
    (inverter_wind_turbine_status_callback 100 example_msg).1 = example_msg.output_power ∧
    ∃ out : inverter_status_msg Rat,
      (inverter_wind_turbine_status_callback 100 example_msg).2 = [out] ∧
      out.output_power = 99 * example_msg.output_power / 100 ∧
      (example_msg.output_power > 100 → out.output_voltage = 20050 ∧ out.frequency = 50.1) ∧
      (example_msg.output_power < 100 → out.output_voltage = 19950 ∧ out.frequency = 49.9) ∧
      (example_msg.output_power = 100 → out.output_voltage = 20000 ∧ out.frequency = 50) :=
  inverter_simulation 100 example_msg (by decide)

/-! ## The simulation of the wind turbine -/

theorem to_uint16_div (n d : Nat) (h : n / d < 2 ^ 16) :
    to_uint16 ((n : Rat) / (d : Rat)) = n / d := by
  unfold to_uint16
  rw [Nat.floor_div_eq_div]
  exact Nat.mod_eq_of_lt h

/-- The value of `raw_value` as a natural number. -/
theorem wind_turbine_raw_value_eq (r : Nat) (hr : r < 2 ^ 16) :
    wind_turbine_raw_value r = ((if r < 64 then 0 else r : Nat) : Rat) := by
  unfold wind_turbine_raw_value
  rw [Nat.mod_eq_of_lt hr]
  by_cases h : r < 64
  · have h2 : (r : Rat) < 64 := by exact_mod_cast h
    rw [if_pos h2, if_pos h]
    simp
  · have h2 : ¬ (r : Rat) < 64 := by
      intro hx
      exact h (by exact_mod_cast hx)
    rw [if_neg h2, if_neg h]

theorem wind_turbine_status_eq (r : Nat) (hr : r < 2 ^ 16) :
    wind_turbine_status r =
      { wind_speed := 100 * (if r < 64 then 0 else r) / 4096,
        generator_rpm := 30 * (if r < 64 then 0 else r) / 4096,
        output_voltage :=
          if (if r < 64 then 0 else r) < 1340 then (if r < 64 then 0 else r) / 2
          else (2663920 + 60 * (if r < 64 then 0 else r)) / 4096,
        output_power := if r < 64 then 0 else r } := by
  unfold wind_turbine_status
  simp only [wind_turbine_raw_value_eq r hr]
  generalize hs : (if r < 64 then 0 else r : Nat) = s
  have hs16 : s < 2 ^ 16 := by
    rw [← hs]
    split <;> omega
  have e1 : ((s : Rat) * 100) / 4096 = ((100 * s : Nat) : Rat) / ((4096 : Nat) : Rat) := by
    push_cast
    ring
  have e2 : ((s : Rat) * 30) / 4096 = ((30 * s : Nat) : Rat) / ((4096 : Nat) : Rat) := by
    push_cast
    ring
  have e3 : (s : Rat) = ((s : Nat) : Rat) / ((1 : Nat) : Rat) := by simp
  have e4 : to_uint16 (wind_turbine_voltage (s : Rat)) =
      if s < 1340 then s / 2 else (2663920 + 60 * s) / 4096 := by
    unfold wind_turbine_voltage
    by_cases h : s < 1340
    · have h2 : (s : Rat) < 1340 := by exact_mod_cast h
      rw [if_pos h2, if_pos h]
      have : (s : Rat) / 2 = ((s : Nat) : Rat) / ((2 : Nat) : Rat) := by norm_num
      rw [this, to_uint16_div _ _ (by omega)]
    · have h2 : ¬ (s : Rat) < 1340 := by
        intro hx
        exact h (by exact_mod_cast hx)
      rw [if_neg h2, if_neg h]
      have : (670 : Rat) + (120 * ((s : Rat) / 2 - 670)) / 4096
          = ((2663920 + 60 * s : Nat) : Rat) / ((4096 : Nat) : Rat) := by
        push_cast
        ring
      rw [this, to_uint16_div _ _ (by omega)]
  rw [e1, e2, e4, to_uint16_div _ _ (by omega), to_uint16_div _ _ (by omega)]
  congr 1
  rw [e3, to_uint16_div _ _ (by omega)]
  simp

/-- C27: for every 16-bit ADC reading `r` that is sampled without error, with
`r' = 0` when `r < 64` and `r' = r` otherwise, the pass of the loop publishes one status
with `output_power = r'`, `wind_speed` the integer part of `100 * r' / 4096`,
`generator_rpm` the integer part of `30 * r' / 4096` and `output_voltage` the integer
part of `r' / 2` when `r' < 1340`, of `670 + 120 * (r' / 2 - 670) / 4096` otherwise;
none of the four fields decreases when the reading grows, all four are 0 for
`r < 64`, and for `r ≤ 4095` the wind speed is at most 99 and the generator speed at
most 29. -/
theorem wind_turbine_simulation (r : Nat) (hr : r < 2 ^ 16) :
    (∀ err_init err_read : Int, 0 ≤ err_init → 0 ≤ err_read →
      wind_turbine_thread_pass err_init err_read r = [wind_turbine_status r]) ∧
    (wind_turbine_status r).output_power = (if r < 64 then 0 else r) ∧
    (wind_turbine_status r).wind_speed = 100 * (if r < 64 then 0 else r) / 4096 ∧
    (wind_turbine_status r).generator_rpm = 30 * (if r < 64 then 0 else r) / 4096 ∧
    ((if r < 64 then 0 else r) < 1340 →
      (wind_turbine_status r).output_voltage = (if r < 64 then 0 else r) / 2) ∧
    (¬ (if r < 64 then 0 else r) < 1340 →
      (wind_turbine_status r).output_voltage =
        ⌊(670 : Rat) + 120 * (((if r < 64 then 0 else r : Nat) : Rat) / 2 - 670) / 4096⌋₊) ∧
    (∀ s, r ≤ s → s < 2 ^ 16 →
      (wind_turbine_status r).output_power ≤ (wind_turbine_status s).output_power ∧
      (wind_turbine_status r).wind_speed ≤ (wind_turbine_status s).wind_speed ∧
      (wind_turbine_status r).generator_rpm ≤ (wind_turbine_status s).generator_rpm ∧
      (wind_turbine_status r).output_voltage ≤ (wind_turbine_status s).output_voltage) ∧
    (r < 64 → wind_turbine_status r =
      { wind_speed := 0, generator_rpm := 0, output_voltage := 0, output_power := 0 }) ∧
    (r ≤ 4095 → (wind_turbine_status r).wind_speed ≤ 99 ∧
      (wind_turbine_status r).generator_rpm ≤ 29) := by
  have hst := wind_turbine_status_eq r hr
  refine ⟨?_, ?_, ?_, ?_, ?_, ?_, ?_, ?_, ?_⟩
  · intro e1 e2 h1 h2
    unfold wind_turbine_thread_pass
    rw [if_neg (by omega), if_neg (by omega)]
  · rw [hst]
  · rw [hst]
  · rw [hst]
  · intro h
    rw [hst]
    simp only [if_pos h]
  · intro h
    rw [hst]
    simp only [if_neg h]
    have : (670 : Rat) + 120 * (((if r < 64 then 0 else r : Nat) : Rat) / 2 - 670) / 4096
        = ((2663920 + 60 * (if r < 64 then 0 else r) : Nat) : Rat) / ((4096 : Nat) : Rat) := by
      have h3 : ¬ r < 64 := by
        intro hx
        rw [if_pos hx] at h
        omega
      rw [if_neg h3]
      push_cast
      ring
    rw [this, Nat.floor_div_eq_div]
  · intro s hrs hs
    rw [hst, wind_turbine_status_eq s hs]
    simp only
    refine ⟨?_, ?_, ?_, ?_⟩ <;> split_ifs <;> omega
  · intro h
    rw [hst]
    simp [h]
  · intro h
    rw [hst]
    simp only
    constructor <;> split_ifs <;> omega

theorem wind_turbine_simulation_witness :
    (∀ err_init err_read : Int, 0 ≤ err_init → 0 ≤ err_read →
      wind_turbine_thread_pass err_init err_read 2000 = [wind_turbine_status 2000]) ∧
    (wind_turbine_status 2000).output_power = (if 2000 < 64 then 0 else 2000) ∧
    (wind_turbine_status 2000).wind_speed = 100 * (if 2000 < 64 then 0 else 2000) / 4096 ∧
    (wind_turbine_status 2000).generator_rpm = 30 * (if 2000 < 64 then 0 else 2000) / 4096 ∧
    ((if 2000 < 64 then 0 else 2000) < 1340 →
      (wind_turbine_status 2000).output_voltage = (if 2000 < 64 then 0 else 2000) / 2) ∧
    (¬ (if 2000 < 64 then 0 else 2000) < 1340 →
      (wind_turbine_status 2000).output_voltage =
        ⌊(670 : Rat) + 120 * (((if 2000 < 64 then 0 else 2000 : Nat) : Rat) / 2 - 670) / 4096⌋₊) ∧
    (∀ s, 2000 ≤ s → s < 2 ^ 16 →
      (wind_turbine_status 2000).output_power ≤ (wind_turbine_status s).output_power ∧
      (wind_turbine_status 2000).wind_speed ≤ (wind_turbine_status s).wind_speed ∧
      (wind_turbine_status 2000).generator_rpm ≤ (wind_turbine_status s).generator_rpm ∧
      (wind_turbine_status 2000).output_voltage ≤ (wind_turbine_status s).output_voltage) ∧
    (2000 < 64 → wind_turbine_status 2000 =
      { wind_speed := 0, generator_rpm := 0, output_voltage := 0, output_power := 0 }) ∧
    (2000 ≤ 4095 → (wind_turbine_status 2000).wind_speed ≤ 99 ∧
      (wind_turbine_status 2000).generator_rpm ≤ 29) :=
  wind_turbine_simulation 2000 (by decide)

/-! ## The button work handlers -/

theorem alternating_succ (first : Bool) (n : Nat) :
    alternating first (n + 1) = first :: alternating (!first) n := by
  unfold alternating
  rw [List.range_succ_eq_map, List.map_cons, List.map_map]
  simp only [Nat.zero_mod, if_true, List.cons.injEq, true_and]
  apply List.map_congr_left
  intro k _
  simp only [Function.comp]
  by_cases h : k % 2 = 0
  · have h2 : ¬ (k + 1) % 2 = 0 := by omega
    simp [h, h2]
  · have h2 : (k + 1) % 2 = 0 := by omega
    simp [h, h2]

theorem buttons_run_alternates (handler : Bool → Int → Bool × List button_status_msg)
    (hstep : ∀ state pin,
      handler state pin =
        (if state = false ∧ pin = 1 then (true, (handler state pin).2)
          else if state = true ∧ pin = 0 then (false, (handler state pin).2)
          else (state, [])) ∧
      ((handler state pin).2.map (fun m => m.state) =
        if state = false ∧ pin = 1 then [true]
          else if state = true ∧ pin = 0 then [false] else []))
    (pins : List Int) : ∀ state : Bool,
    (buttons_run handler state pins).2.map (fun m => m.state) =
      alternating (!state) (buttons_run handler state pins).2.length := by
  induction pins with
  | nil => intro state; rfl
  | cons pin rest ih =>
    intro state
    obtain ⟨h1, h2⟩ := hstep state pin
    rw [buttons_run]
    simp only [List.map_append, List.length_append]
    by_cases ha : state = false ∧ pin = 1
    · rw [if_pos ha] at h1 h2
      have hs : (handler state pin).1 = true := by rw [h1]
      have hl : (handler state pin).2.length = 1 := by
        have := congrArg List.length h2
        simpa using this
      rw [hs, ih true, h2, hl, Nat.add_comm, alternating_succ, ha.1]
      rfl
    · rw [if_neg ha] at h1 h2
      by_cases hb : state = true ∧ pin = 0
      · rw [if_pos hb] at h1 h2
        have hs : (handler state pin).1 = false := by rw [h1]
        have hl : (handler state pin).2.length = 1 := by
          have := congrArg List.length h2
          simpa using this
        rw [hs, ih false, h2, hl, Nat.add_comm, alternating_succ, hb.1]
        rfl
      · rw [if_neg hb] at h1 h2
        have hs : (handler state pin).1 = state := by rw [h1]
        have hl : (handler state pin).2 = [] := by rw [h1]
        rw [hs, ih state, hl]
        simp

/-- C28: each call of a button work handler publishes a status only when the pin value
differs from the tracked state: the value 1 while the state is released publishes the
state `true`, the value 0 while it is pressed publishes the state `false`, and both
store the published state; a negative value (an error code) or a value that repeats the
tracked state publishes nothing and leaves the state unchanged. Over any sequence of
pin values, starting from the released state, the published states of one button
alternate `true, false, true, ...`. -/
theorem button_status_published_on_change (state : Bool) (pin : Int) (pins : List Int) :
    (state = false ∧ pin = 1 →
      buttons_top_button_work_handler state pin =
        (true, [{ name := "Wind Turbine Top Button", state := true }]) ∧
      buttons_bottom_button_work_handler state pin =
        (true, [{ name := "Wind Turbine Bottom Button", state := true }])) ∧
    (state = true ∧ pin = 0 →
      buttons_top_button_work_handler state pin =
        (false, [{ name := "Wind Turbine Top Button", state := false }]) ∧
      buttons_bottom_button_work_handler state pin =
        (false, [{ name := "Wind Turbine Bottom Button", state := false }])) ∧
    (pin < 0 ∨ (state = true ∧ pin = 1) ∨ (state = false ∧ pin = 0) →
      buttons_top_button_work_handler state pin = (state, []) ∧
      buttons_bottom_button_work_handler state pin = (state, [])) ∧
    (buttons_run buttons_top_button_work_handler false pins).2.map (fun m => m.state) =
      alternating true (buttons_run buttons_top_button_work_handler false pins).2.length ∧
    (buttons_run buttons_bottom_button_work_handler false pins).2.map (fun m => m.state) =
      alternating true (buttons_run buttons_bottom_button_work_handler false pins).2.length := by
  refine ⟨?_, ?_, ?_, ?_, ?_⟩
  · intro h
    simp [buttons_top_button_work_handler, buttons_bottom_button_work_handler, h.1, h.2]
  · intro h
    simp [buttons_top_button_work_handler, buttons_bottom_button_work_handler, h.1, h.2]
  · intro h
    have h1 : ¬ (state = false ∧ pin = 1) := by
      rintro ⟨hs, hp⟩
      rcases h with h | h | h
      · omega
      · rw [hs] at h; cases h.1
      · omega
    have h2 : ¬ (state = true ∧ pin = 0) := by
      rintro ⟨hs, hp⟩
      rcases h with h | h | h
      · omega
      · omega
      · rw [hs] at h; cases h.1
    unfold buttons_top_button_work_handler buttons_bottom_button_work_handler
    rw [if_neg h1, if_neg h2, if_neg h1, if_neg h2]
    exact ⟨rfl, rfl⟩
  · refine buttons_run_alternates buttons_top_button_work_handler ?_ pins false
    intro s p
    unfold buttons_top_button_work_handler
    constructor <;> split_ifs <;> rfl
  · refine buttons_run_alternates buttons_bottom_button_work_handler ?_ pins false
    intro s p
    unfold buttons_bottom_button_work_handler
    constructor <;> split_ifs <;> rfl

/-! ## The payload loop of an inbound publish -/

/-- C29, evaluated at the failing input: for an inbound publish announcing 40 bytes
whose first `mqtt_read_publish_payload` returns `-EAGAIN` (-11), the loop is not left,
the index of `data[bytes_read] = 0` is -11, outside `data[33]`, and `len` grows from 40
to 51; the handler of the embedding, which refuses a store outside `data`, gives no
result. -/
theorem payload_loop_eagain_writes_outside_data :
    read_publish_payload_writes [-EAGAIN, 32, 19] 40 = [(-11, 51), (32, 19), (19, 0)] ∧
    read_publish_payload [-EAGAIN, 32, 19] 40 = none ∧
    kamea_mqtt_event_handler example_connected_client example_publish_evt [-EAGAIN, 32, 19]
      = none := by
  decide

/-! ## The message identifier of a publish -/

/-- C30, evaluated at the failing input: when `sys_rand16_get()` returns 0 while the client
is connected, the identifier handed to `mqtt_publish` with QoS 1 is 0, and the published
callback gets that identifier with the result of the send, which the function
returns. -/
theorem publish_can_carry_message_id_zero :
    kamea_mqtt_publish_telemetry example_connected_client "payload" 7
        MQTT_QOS_1_AT_LEAST_ONCE 0 (-22) =
      (-22, example_connected_client,
        [Effect.mqtt_publish "device/wind_turbine_stm32f746g_disco/telemetries" "payload" 7 1 0
            (-22),
          Effect.published 0 (-22)]) := by
  decide

end Kamea
